import Mathlib

/-!
# Verification of `prog/sensors/chips.c` (lm-sensors)

A shallow embedding of the reading formatter of the `sensors` program.

* Standard output and the error stream are modelled as lists of `Piece`s: every
  `printf` call contributes the literal runs and the conversions of its format
  string, in order, without committing to how the C library renders a `double`.
* `double` values are modelled by the rationals (`ℚ`) they denote; the program uses
  their truthiness, the value `0`, the cast to `int` and `deg_ctof`. The arithmetic of
  `deg_ctof` rounds as IEEE 754 arithmetic does (`fp_round`: a `float` constant, `double`
  operations, round to nearest with ties to even, each operation rounded once).
  Infinities, NaN and overflow are not modelled.
* `strlen` counts the bytes of a label, which is stored in UTF-8, and the C library pads
  a `%s` field by bytes; `String.length` counts its characters. The `unsigned int` and
  `int` arithmetic on label lengths is modelled without wrap-around (labels are far
  shorter than 2^31 bytes).
* The sensor-access library (`lib/sensors.h`) is modelled by plain data: a chip
  is the list of its features together with its value-reading function.
* The blocks of the long renderers are separate definitions, named after what
  they print and tagged with their line range in `chips.c`.
* `print_chip_raw` reads the label after `free(label)`; what the freed buffer
  reads as is a parameter (`after_free`) of its embedding.
* Theorems about text hold for every rendering `fmt` of the `%f` conversions;
  `c_printf_f` is the C library's rendering, used where a concrete text is needed.
-/

namespace Sensors

/-! ## Output model -/

/-- One element of the text produced by a `printf` call. -/
inductive Piece where
  /-- Literal characters of a format string. -/
  | lit (s : String)
  /-- The newline character of a format string. -/
  | nl
  /-- A `%s`, `%-4s` or `%*s` conversion: the `-` flag, the minimum field width
  (for `%*s` the `int` argument, which may be negative) and the string argument. -/
  | str (left : Bool) (width : Int) (s : String)
  /-- A `%f` conversion of a `double`: `+` flag, minimum field width, precision, value. -/
  | flt (plus : Bool) (width : Nat) (prec : Nat) (v : ℚ)
  /-- A `%d` conversion. -/
  | int (d : Int)
  deriving DecidableEq, Repr

/-- A computation that returns a value and writes to `stdout` and `stderr`. -/
structure W (α : Type) where
  val : α
  stdout : List Piece
  stderr : List Piece

instance : Monad W where
  pure a := ⟨a, [], []⟩
  bind m f := ⟨(f m.val).val, m.stdout ++ (f m.val).stdout, m.stderr ++ (f m.val).stderr⟩

/-- Writes to standard output: `printf(...)`. -/
def printf (ps : List Piece) : W Unit := ⟨(), ps, []⟩

/-- Writes to the error stream: `fprintf(stderr, ...)`. -/
def fprintf_stderr (ps : List Piece) : W Unit := ⟨(), [], ps⟩

/-! ## The sensor-access library, as seen by `chips.c` -/

/-- Feature kinds of `lib/sensors.h`; `SENSORS_FEATURE_UNKNOWN` stands for every
kind `chips.c` has no renderer for. -/
inductive sensors_feature_type where
  | SENSORS_FEATURE_IN
  | SENSORS_FEATURE_FAN
  | SENSORS_FEATURE_TEMP
  | SENSORS_FEATURE_VID
  | SENSORS_FEATURE_BEEP_ENABLE
  | SENSORS_FEATURE_UNKNOWN
  deriving DecidableEq, Repr

/-- Sub-reading kinds of `lib/sensors.h` that `chips.c` looks up. -/
inductive sensors_subfeature_type where
  | SENSORS_SUBFEATURE_IN_INPUT
  | SENSORS_SUBFEATURE_IN_MIN
  | SENSORS_SUBFEATURE_IN_MAX
  | SENSORS_SUBFEATURE_IN_ALARM
  | SENSORS_SUBFEATURE_IN_MIN_ALARM
  | SENSORS_SUBFEATURE_IN_MAX_ALARM
  | SENSORS_SUBFEATURE_FAN_INPUT
  | SENSORS_SUBFEATURE_FAN_MIN
  | SENSORS_SUBFEATURE_FAN_ALARM
  | SENSORS_SUBFEATURE_FAN_FAULT
  | SENSORS_SUBFEATURE_FAN_DIV
  | SENSORS_SUBFEATURE_TEMP_INPUT
  | SENSORS_SUBFEATURE_TEMP_MAX
  | SENSORS_SUBFEATURE_TEMP_MAX_HYST
  | SENSORS_SUBFEATURE_TEMP_MIN
  | SENSORS_SUBFEATURE_TEMP_CRIT
  | SENSORS_SUBFEATURE_TEMP_CRIT_HYST
  | SENSORS_SUBFEATURE_TEMP_ALARM
  | SENSORS_SUBFEATURE_TEMP_MAX_ALARM
  | SENSORS_SUBFEATURE_TEMP_MIN_ALARM
  | SENSORS_SUBFEATURE_TEMP_CRIT_ALARM
  | SENSORS_SUBFEATURE_TEMP_FAULT
  | SENSORS_SUBFEATURE_TEMP_TYPE
  | SENSORS_SUBFEATURE_VID
  | SENSORS_SUBFEATURE_BEEP_ENABLE
  | SENSORS_SUBFEATURE_UNKNOWN
  deriving DecidableEq, Repr

open sensors_feature_type sensors_subfeature_type

/-- The fields of `struct sensors_subfeature` read by `chips.c`; `readable` is
`flags & SENSORS_MODE_R`. -/
structure sensors_subfeature where
  name : String
  number : Int
  type : sensors_subfeature_type
  readable : Bool
  deriving DecidableEq, Repr

/-- A feature: its kind, its label (`none` when the label cannot be fetched)
and its sub-readings in enumeration order. -/
structure sensors_feature where
  type : sensors_feature_type
  label : Option String
  subfeatures : List sensors_subfeature
  deriving DecidableEq, Repr

/-- A chip: its features in enumeration order, and the outcome of reading the
sub-reading with a given number (an error code or the value). -/
structure sensors_chip_name where
  features : List sensors_feature
  value : Int → Except Int ℚ

/-- Modelled from the spec: `sensors_get_features` of the library, "enumerate
features of a chip, producing a lazy, restartable-by-index sequence"; returns the
feature at index `i` and the advanced index, or `none` at the end. -/
def sensors_get_features (name : sensors_chip_name) (i : Nat) :
    Option (sensors_feature × Nat) :=
  name.features[i]?.map fun f => (f, i + 1)

/-- Modelled from the spec: `sensors_get_all_subfeatures` of the library,
"enumerate sub-readings under a (chip, feature) pair similarly". -/
def sensors_get_all_subfeatures (_name : sensors_chip_name) (feature : sensors_feature)
    (b : Nat) : Option (sensors_subfeature × Nat) :=
  feature.subfeatures[b]?.map fun s => (s, b + 1)

/-- Modelled from the spec: `sensors_get_subfeature` of the library, "look up a
specific sub-reading by (chip, feature, sub-kind), returning none if absent". -/
def sensors_get_subfeature (_name : sensors_chip_name) (feature : sensors_feature)
    (type : sensors_subfeature_type) : Option sensors_subfeature :=
  feature.subfeatures.find? fun s => s.type = type

/-- Modelled from the spec: `sensors_get_label` of the library, "fetch a
feature's display label as a freshly allocated string or failure". -/
def sensors_get_label (_name : sensors_chip_name) (feature : sensors_feature) :
    Option String :=
  feature.label

/-- Modelled from the spec: `sensors_get_value` of the library, "fetch a
sub-reading's current numeric value by its identifier, or a typed error". -/
def sensors_get_value (name : sensors_chip_name) (subfeat_nr : Int) : Except Int ℚ :=
  name.value subfeat_nr

/-- The process-wide context of `main.c` used by `chips.c`: the Fahrenheit
preference, the unit suffix, and the library's error descriptions. -/
structure Globals where
  fahrenheit : Bool
  degstr : String
  sensors_strerror : Int → String

/-- C `strlen`: the number of bytes of a string, which is stored in UTF-8. -/
def strlen (s : String) : Nat := s.utf8ByteSize

/-- The integral part of a `double`: the value truncated toward zero. -/
def integral_part (v : ℚ) : Int := Int.tdiv v.num v.den

/-- Conversion of a `double` to the 32-bit `int` (chips.c:260): the integral part when
it is representable. Otherwise the C standard leaves the conversion undefined; the
value taken here is the one the x86-64 conversion instruction gives, `INT_MIN`. -/
def double_to_int (v : ℚ) : Int :=
  if -2147483648 ≤ integral_part v ∧ integral_part v ≤ 2147483647 then integral_part v
  else -2147483648

/-- Rounding of a rational to the nearest integer, ties to the even one. -/
def round_half_even (q : ℚ) : Int :=
  if 2 * (q - ⌊q⌋) < 1 then ⌊q⌋
  else if 1 < 2 * (q - ⌊q⌋) then ⌊q⌋ + 1
  else if ⌊q⌋ % 2 = 0 then ⌊q⌋ else ⌊q⌋ + 1

/-- IEEE 754 rounding (to nearest, ties to even) of the exact result `q` of an operation
to the binary format with `p` significant bits whose smallest positive number is
`2 ^ emin`: `q` is rounded to a multiple of `2 ^ e`, where `e` is the exponent of the
last of the `p` bits of `q`, and `emin` for a subnormal result. -/
def fp_round (p : Nat) (emin : Int) (q : ℚ) : ℚ :=
  if q = 0 then 0 else
    let e : Int := max (Int.log 2 |q| - (p - 1)) emin
    round_half_even (q / 2 ^ e) * 2 ^ e

/-- The result of a `float` operation whose exact result is `q` (binary32). -/
def float_round (q : ℚ) : ℚ := fp_round 24 (-149) q

/-- The result of a `double` operation whose exact result is `q` (binary64). -/
def double_round (q : ℚ) : ℚ := fp_round 53 (-1074) q

/-! ## `chips.c` -/

/-- `deg_ctof`, chips.c:63: `cel * (9.0F / 5.0F) + 32.0F`. The quotient of the two
`float` literals is a `float` operation; its result and the `float` 32 are converted to
`double` without change, and the product and the sum are `double` operations. -/
def deg_ctof (cel : ℚ) : ℚ :=
  double_round (double_round (cel * float_round (9 / 5)) + 32)

/-- `print_label`, chips.c:68. -/
def print_label (label : String) (space : Int) : W Unit :=
  let len : Int := strlen label + 1
  printf [.str false 0 label, .lit ":", .str false (space - len) ""]

/-- `get_value`, chips.c:74. -/
def get_value (g : Globals) (name : sensors_chip_name) (subfeat_nr : Int) : W ℚ :=
  match sensors_get_value name subfeat_nr with
  | .error err => do
    fprintf_stderr [.lit "ERROR: Can't get value of subfeature ", .int subfeat_nr,
      .lit ": ", .str false 0 (g.sensors_strerror err), .nl]
    pure 0
  | .ok val => pure val

/-- The C idiom `sf && get_value(name, sf->number)`: false without a read when
the sub-reading is absent, else whether the value read is non-zero. -/
def sf_and_value (g : Globals) (name : sensors_chip_name) (sf : Option sensors_subfeature) :
    W Bool :=
  match sf with
  | none => pure false
  | some s => do
    let v ← get_value g name s.number
    pure (v != 0)

/-- The C idiom `sf ? get_value(name, sf->number) : 0`. -/
def sf_value_or_zero (g : Globals) (name : sensors_chip_name) (sf : Option sensors_subfeature) :
    W ℚ :=
  match sf with
  | none => pure 0
  | some s => get_value g name s.number

/-- Argument of a `%s` conversion that may be a null pointer. -/
def cstr (s : Option String) : String := s.getD "(null)"

/-- `print_temp_limits`, chips.c:105. -/
def print_temp_limits (g : Globals) (limit1 limit2 : ℚ) (name1 name2 : Option String)
    (alarm : Bool) : W Unit := do
  let limit1 := if g.fahrenheit then deg_ctof limit1 else limit1
  let limit2 := if g.fahrenheit then deg_ctof limit2 else limit2
  if name2.isSome then
    printf [.lit "(", .str true 4 (cstr name1), .lit " = ", .flt true 5 1 limit1,
      .str false 0 g.degstr, .lit ", ", .str true 4 (cstr name2), .lit " = ",
      .flt true 5 1 limit2, .str false 0 g.degstr, .lit ")  "]
  else if name1.isSome then
    printf [.lit "(", .str true 4 (cstr name1), .lit " = ", .flt true 5 1 limit1,
      .str false 0 g.degstr, .lit ")                  "]
  else
    printf [.lit "                                  "]
  if alarm then
    printf [.lit "ALARM  "]

/-- The name printed for a sensor-type code, chips.c:264-273. -/
def sensor_type_name (sens : Int) : String :=
  let sens := if sens > 1000 then 4 else sens
  if sens = 0 then "disabled" else
  if sens = 1 then "diode" else
  if sens = 2 then "transistor" else
  if sens = 3 then "thermal diode" else
  if sens = 4 then "thermistor" else
  if sens = 5 then "AMD AMDSI" else
  if sens = 6 then "Intel PECI" else "unknown"

/-- The local variables of `print_chip_temp` that its bound-selection block
(chips.c:159-220) assigns. -/
structure temp_locals where
  limit1 : ℚ
  limit2 : ℚ
  s1 : Option String
  s2 : Option String
  alarm : Bool
  crit_displayed : Bool

/-- The second limit of a critical bound, chips.c:204-210 and 240-246: the
critical hysteresis named `hyst` when it exists, else `limit2 = 0; s2 = NULL`. -/
def temp_crit_hyst (g : Globals) (name : sensors_chip_name) (sfhyst : Option sensors_subfeature) :
    W (ℚ × Option String) :=
  match sfhyst with
  | some sfhyst => do
    let limit2 ← get_value g name sfhyst.number
    pure (limit2, some "hyst")
  | none => pure (0, none)

/-- The bound-selection block of `print_chip_temp`, chips.c:159-220: from the
alarm state so far, chooses the limits of the primary line. -/
def temp_select_limits (g : Globals) (name : sensors_chip_name) (feature : sensors_feature)
    (sfmin sfmax sfcrit : Option sensors_subfeature) (alarm : Bool) : W temp_locals :=
  match sfmax with
  | some sfmax => do
    let sf := sensors_get_subfeature name feature SENSORS_SUBFEATURE_TEMP_MAX_ALARM
    let a ← sf_and_value g name sf
    let alarm := if a then true else alarm
    match sfmin with
    | some sfmin => do
      let limit1 ← get_value g name sfmin.number
      let limit2 ← get_value g name sfmax.number
      let sf := sensors_get_subfeature name feature SENSORS_SUBFEATURE_TEMP_MIN_ALARM
      let a ← sf_and_value g name sf
      let alarm := if a then true else alarm
      pure ⟨limit1, limit2, some "low", some "high", alarm, false⟩
    | none => do
      let limit1 ← get_value g name sfmax.number
      let sfhyst := sensors_get_subfeature name feature SENSORS_SUBFEATURE_TEMP_MAX_HYST
      match sfhyst with
      | some sfhyst => do
        let limit2 ← get_value g name sfhyst.number
        pure ⟨limit1, limit2, some "high", some "hyst", alarm, false⟩
      | none =>
        match sfcrit with
        | some sfcrit => do
          let limit2 ← get_value g name sfcrit.number
          let sf := sensors_get_subfeature name feature SENSORS_SUBFEATURE_TEMP_CRIT_ALARM
          let a ← sf_and_value g name sf
          let alarm := if a then true else alarm
          pure ⟨limit1, limit2, some "high", some "crit", alarm, true⟩
        | none => pure ⟨limit1, 0, some "high", none, alarm, false⟩
  | none =>
    match sfcrit with
    | some sfcrit => do
      let limit1 ← get_value g name sfcrit.number
      let sfhyst := sensors_get_subfeature name feature SENSORS_SUBFEATURE_TEMP_CRIT_HYST
      let l2 ← temp_crit_hyst g name sfhyst
      let sf := sensors_get_subfeature name feature SENSORS_SUBFEATURE_TEMP_CRIT_ALARM
      let a ← sf_and_value g name sf
      let alarm := if a then true else alarm
      pure ⟨limit1, l2.1, some "crit", l2.2, alarm, true⟩
    | none => pure ⟨0, 0, none, none, alarm, false⟩

/-- The value field of `print_chip_temp`, chips.c:223-231: `FAULT` or the reading. -/
def temp_value_field (g : Globals) (name : sensors_chip_name) (feature : sensors_feature)
    (val : ℚ) : W Unit := do
  let sf := sensors_get_subfeature name feature SENSORS_SUBFEATURE_TEMP_FAULT
  if ← sf_and_value g name sf then
    printf [.lit "   FAULT  "]
  else
    let val := if g.fahrenheit then deg_ctof val else val
    printf [.flt true 6 1 val, .str false 0 g.degstr, .lit "  "]

/-- The second line of `print_chip_temp`, chips.c:234-254: the critical bound
when the primary line did not show it. -/
def temp_crit_line (g : Globals) (name : sensors_chip_name) (feature : sensors_feature)
    (label_size : Int) (crit_displayed : Bool) (sfcrit : Option sensors_subfeature) : W Unit :=
  match crit_displayed, sfcrit with
  | false, some sfcrit => do
    let limit1 ← get_value g name sfcrit.number
    let sfhyst := sensors_get_subfeature name feature SENSORS_SUBFEATURE_TEMP_CRIT_HYST
    let l2 ← temp_crit_hyst g name sfhyst
    let sf := sensors_get_subfeature name feature SENSORS_SUBFEATURE_TEMP_CRIT_ALARM
    let alarm ← sf_and_value g name sf
    printf [.nl, .str false (label_size + 10) ""]
    print_temp_limits g limit1 l2.1 (some "crit") l2.2 alarm
  | _, _ => pure ()

/-- The sensor-type suffix of `print_chip_temp`, chips.c:256-274. -/
def temp_sensor_type (g : Globals) (name : sensors_chip_name) (feature : sensors_feature) :
    W Unit :=
  match sensors_get_subfeature name feature SENSORS_SUBFEATURE_TEMP_TYPE with
  | some sf => do
    let sens := double_to_int (← get_value g name sf.number)
    printf [.lit "sensor = ", .str false 0 (sensor_type_name sens)]
  | none => pure ()

/-- `print_chip_temp`, chips.c:128. -/
def print_chip_temp (g : Globals) (name : sensors_chip_name) (feature : sensors_feature)
    (label_size : Int) : W Unit :=
  match sensors_get_label name feature with
  | none => fprintf_stderr [.lit "ERROR: Can't get temperature label!", .nl]
  | some label => do
    print_label label label_size
    let sf := sensors_get_subfeature name feature SENSORS_SUBFEATURE_TEMP_INPUT
    let val ← sf_value_or_zero g name sf
    let sf := sensors_get_subfeature name feature SENSORS_SUBFEATURE_TEMP_ALARM
    let alarm ← sf_and_value g name sf
    let sfmin := sensors_get_subfeature name feature SENSORS_SUBFEATURE_TEMP_MIN
    let sfmax := sensors_get_subfeature name feature SENSORS_SUBFEATURE_TEMP_MAX
    let sfcrit := sensors_get_subfeature name feature SENSORS_SUBFEATURE_TEMP_CRIT
    let l ← temp_select_limits g name feature sfmin sfmax sfcrit alarm
    temp_value_field g name feature val
    print_temp_limits g l.limit1 l.limit2 l.s1 l.s2 l.alarm
    temp_crit_line g name feature label_size l.crit_displayed sfcrit
    temp_sensor_type g name feature
    printf [.nl]

/-- The bounds of `print_chip_in`, chips.c:298-311. -/
def in_limits (g : Globals) (name : sensors_chip_name) (feature : sensors_feature) : W Unit :=
  let sfmin := sensors_get_subfeature name feature SENSORS_SUBFEATURE_IN_MIN
  let sfmax := sensors_get_subfeature name feature SENSORS_SUBFEATURE_IN_MAX
  match sfmin, sfmax with
  | some sfmin, some sfmax => do
    -- the two arguments are read before anything is printed
    let a ← get_value g name sfmin.number
    let b ← get_value g name sfmax.number
    printf [.lit "  (min = ", .flt true 6 2 a, .lit " V, max = ", .flt true 6 2 b, .lit " V)"]
  | some sfmin, none => do
    let a ← get_value g name sfmin.number
    printf [.lit "  (min = ", .flt true 6 2 a, .lit " V)"]
  | none, some sfmax => do
    let b ← get_value g name sfmax.number
    printf [.lit "  (max = ", .flt true 6 2 b, .lit " V)"]
  | none, none => pure ()

/-- The alarm text of `print_chip_in`, chips.c:313-336. -/
def in_alarms (g : Globals) (name : sensors_chip_name) (feature : sensors_feature) : W Unit := do
  let sf := sensors_get_subfeature name feature SENSORS_SUBFEATURE_IN_ALARM
  let sfmin := sensors_get_subfeature name feature SENSORS_SUBFEATURE_IN_MIN_ALARM
  let sfmax := sensors_get_subfeature name feature SENSORS_SUBFEATURE_IN_MAX_ALARM
  if sfmin.isSome || sfmax.isSome then
    let alarm_max ← sf_value_or_zero g name sfmax
    let alarm_min ← sf_value_or_zero g name sfmin
    if alarm_min != 0 || alarm_max != 0 then
      printf [.lit " ALARM ("]
      if alarm_min != 0 then
        printf [.lit "MIN"]
      if alarm_max != 0 then
        printf [.str false 0 (if alarm_min != 0 then ", " else ""), .lit "MAX"]
      printf [.lit ")"]
  else
    match sf with
    | some sf => do
      let v ← get_value g name sf.number
      printf [.lit "   ", .str false 0 (if v != 0 then "ALARM" else "")]
    | none => pure ()

/-- `print_chip_in`, chips.c:278. -/
def print_chip_in (g : Globals) (name : sensors_chip_name) (feature : sensors_feature)
    (label_size : Int) : W Unit :=
  match sensors_get_label name feature with
  | none => fprintf_stderr [.lit "ERROR: Can't get in label!", .nl]
  | some label => do
    print_label label label_size
    let sf := sensors_get_subfeature name feature SENSORS_SUBFEATURE_IN_INPUT
    let val ← sf_value_or_zero g name sf
    printf [.flt true 6 2 val, .lit " V"]
    in_limits g name feature
    in_alarms g name feature
    printf [.nl]

/-- The bounds of `print_chip_fan`, chips.c:366-379. -/
def fan_limits (g : Globals) (name : sensors_chip_name) (feature : sensors_feature) : W Unit :=
  let sfmin := sensors_get_subfeature name feature SENSORS_SUBFEATURE_FAN_MIN
  let sfdiv := sensors_get_subfeature name feature SENSORS_SUBFEATURE_FAN_DIV
  match sfmin, sfdiv with
  | some sfmin, some sfdiv => do
    let a ← get_value g name sfmin.number
    let b ← get_value g name sfdiv.number
    printf [.lit "  (min = ", .flt false 4 0 a, .lit " RPM, div = ", .flt false 1 0 b, .lit ")"]
  | some sfmin, none => do
    let a ← get_value g name sfmin.number
    printf [.lit "  (min = ", .flt false 4 0 a, .lit " RPM)"]
  | none, some sfdiv => do
    let b ← get_value g name sfdiv.number
    printf [.lit "  (div = ", .flt false 1 0 b, .lit ")"]
  | none, none => pure ()

/-- `print_chip_fan`, chips.c:341. -/
def print_chip_fan (g : Globals) (name : sensors_chip_name) (feature : sensors_feature)
    (label_size : Int) : W Unit :=
  match sensors_get_label name feature with
  | none => fprintf_stderr [.lit "ERROR: Can't get fan label!", .nl]
  | some label => do
    print_label label label_size
    let sf := sensors_get_subfeature name feature SENSORS_SUBFEATURE_FAN_INPUT
    let val ← sf_value_or_zero g name sf
    let sf := sensors_get_subfeature name feature SENSORS_SUBFEATURE_FAN_FAULT
    if ← sf_and_value g name sf then
      printf [.lit "   FAULT"]
    else
      printf [.flt false 4 0 val, .lit " RPM"]
    fan_limits g name feature
    let sf := sensors_get_subfeature name feature SENSORS_SUBFEATURE_FAN_ALARM
    if ← sf_and_value g name sf then
      printf [.lit "  ALARM"]
    printf [.nl]

/-- `print_chip_vid`, chips.c:390. -/
def print_chip_vid (_g : Globals) (name : sensors_chip_name) (feature : sensors_feature)
    (label_size : Int) : W Unit :=
  match sensors_get_subfeature name feature SENSORS_SUBFEATURE_VID with
  | none => pure ()
  | some subfeature =>
    match sensors_get_label name feature with
    | none => pure ()
    | some label =>
      match sensors_get_value name subfeature.number with
      | .error _ => pure ()
      | .ok vid => do
        print_label label label_size
        printf [.flt true 6 3 vid, .lit " V", .nl]

/-- `print_chip_beep_enable`, chips.c:411. -/
def print_chip_beep_enable (_g : Globals) (name : sensors_chip_name)
    (feature : sensors_feature) (label_size : Int) : W Unit :=
  match sensors_get_subfeature name feature SENSORS_SUBFEATURE_BEEP_ENABLE with
  | none => pure ()
  | some subfeature =>
    match sensors_get_label name feature with
    | none => pure ()
    | some label =>
      match sensors_get_value name subfeature.number with
      | .error _ => pure ()
      | .ok beep_enable => do
        print_label label label_size
        printf [.str false 0 (if beep_enable != 0 then "enabled" else "disabled"), .nl]

/-- The loop of `get_label_size`, chips.c:96-101, from feature index `i` with
the running maximum `max_size`. -/
def get_label_size_loop (name : sensors_chip_name) (i : Nat) (max_size : Nat) : Nat :=
  match h : sensors_get_features name i with
  | none => max_size
  | some (iter, i') =>
    have : name.features.length - i' < name.features.length - i := by
      simp only [sensors_get_features, Option.map_eq_some', Prod.mk.injEq] at h
      obtain ⟨a, ha, -, hi⟩ := h
      have hlt : i < name.features.length := (List.getElem?_eq_some.mp ha).1
      omega
    match sensors_get_label name iter with
    | some label =>
      if strlen label > max_size then get_label_size_loop name i' (strlen label)
      else get_label_size_loop name i' max_size
    | none => get_label_size_loop name i' max_size
termination_by name.features.length - i

/-- `get_label_size`, chips.c:88. -/
def get_label_size (name : sensors_chip_name) : Int :=
  let max_size : Nat := 11 -- 11 as minumum label width
  (get_label_size_loop name 0 max_size : Nat) + 1

/-- The loop of `print_chip`, chips.c:440-460, from feature index `i`. -/
def print_chip_loop (g : Globals) (name : sensors_chip_name) (label_size : Int) (i : Nat) :
    W Unit :=
  match h : sensors_get_features name i with
  | none => pure ()
  | some (feature, i') =>
    have : name.features.length - i' < name.features.length - i := by
      simp only [sensors_get_features, Option.map_eq_some', Prod.mk.injEq] at h
      obtain ⟨a, ha, -, hi⟩ := h
      have hlt : i < name.features.length := (List.getElem?_eq_some.mp ha).1
      omega
    do
      match feature.type with
      | SENSORS_FEATURE_TEMP => print_chip_temp g name feature label_size
      | SENSORS_FEATURE_IN => print_chip_in g name feature label_size
      | SENSORS_FEATURE_FAN => print_chip_fan g name feature label_size
      | SENSORS_FEATURE_VID => print_chip_vid g name feature label_size
      | SENSORS_FEATURE_BEEP_ENABLE => print_chip_beep_enable g name feature label_size
      | _ => pure ()
      print_chip_loop g name label_size i'
termination_by name.features.length - i

/-- `print_chip`, chips.c:432. -/
def print_chip (g : Globals) (name : sensors_chip_name) : W Unit :=
  let label_size := get_label_size name
  print_chip_loop g name label_size 0

/-- The sub-reading loop of `print_chip_raw`, chips.c:49-59, from index `b`. The
loop runs after `free(label)` (chips.c:46); `freed_label` is what the freed buffer
reads as when chips.c:58 passes it to `printf`. -/
def print_chip_raw_subs (freed_label : String) (name : sensors_chip_name)
    (feature : sensors_feature) (b : Nat) : W Unit :=
  match h : sensors_get_all_subfeatures name feature b with
  | none => pure ()
  | some (sub, b') =>
    have : feature.subfeatures.length - b' < feature.subfeatures.length - b := by
      simp only [sensors_get_all_subfeatures, Option.map_eq_some', Prod.mk.injEq] at h
      obtain ⟨a, ha, -, hi⟩ := h
      have hlt : b < feature.subfeatures.length := (List.getElem?_eq_some.mp ha).1
      omega
    do
      if sub.readable then
        match sensors_get_value name sub.number with
        | .error _ =>
          fprintf_stderr [.lit "ERROR: Can't get feature `", .str false 0 sub.name,
            .lit "' data!", .nl]
        | .ok val => printf [.lit "  ", .str false 0 sub.name, .lit ": ", .flt false 0 2 val, .nl]
      else
        printf [.lit "(", .str false 0 freed_label, .lit ")", .nl]
      print_chip_raw_subs freed_label name feature b'
termination_by feature.subfeatures.length - b

/-- The feature loop of `print_chip_raw`, chips.c:40-60, from index `a`. -/
def print_chip_raw_loop (after_free : String → String) (name : sensors_chip_name) (a : Nat) :
    W Unit :=
  match h : sensors_get_features name a with
  | none => pure ()
  | some (feature, a') =>
    have : name.features.length - a' < name.features.length - a := by
      simp only [sensors_get_features, Option.map_eq_some', Prod.mk.injEq] at h
      obtain ⟨f, hf, -, hi⟩ := h
      have hlt : a < name.features.length := (List.getElem?_eq_some.mp hf).1
      omega
    match sensors_get_label name feature with
    | none => do
      fprintf_stderr [.lit "ERROR: Can't get feature label!", .nl]
      print_chip_raw_loop after_free name a'
    | some label => do
      printf [.str false 0 label, .lit ":", .nl]
      -- free(label)
      print_chip_raw_subs (after_free label) name feature 0
      print_chip_raw_loop after_free name a'
termination_by name.features.length - a

/-- `print_chip_raw`, chips.c:31. The label is freed before the sub-reading loop that
still prints it; `after_free label` is the string that the freed buffer of `label`
is read as (the C standard leaves it undefined, an allocator that keeps the bytes
gives `label` itself). -/
def print_chip_raw (after_free : String → String) (name : sensors_chip_name) : W Unit :=
  print_chip_raw_loop after_free name 0

/-! ## Parts of the output of `print_chip_temp` -/

/-- The locals of `print_chip_temp` when it reaches its print statements. -/
def temp_primary (g : Globals) (name : sensors_chip_name) (feature : sensors_feature) :
    temp_locals :=
  (temp_select_limits g name feature
    (sensors_get_subfeature name feature SENSORS_SUBFEATURE_TEMP_MIN)
    (sensors_get_subfeature name feature SENSORS_SUBFEATURE_TEMP_MAX)
    (sensors_get_subfeature name feature SENSORS_SUBFEATURE_TEMP_CRIT)
    (sf_and_value g name
      (sensors_get_subfeature name feature SENSORS_SUBFEATURE_TEMP_ALARM)).val).val

/-- Whether `print_chip_temp` writes its second line: the condition of chips.c:234. -/
def temp_second_line (g : Globals) (name : sensors_chip_name) (feature : sensors_feature) :
    Bool :=
  !(temp_primary g name feature).crit_displayed &&
    (sensors_get_subfeature name feature SENSORS_SUBFEATURE_TEMP_CRIT).isSome

/-- The limits segment and alarm marker of the primary line of `print_chip_temp`. -/
def temp_primary_limits (g : Globals) (name : sensors_chip_name) (feature : sensors_feature) :
    List Piece :=
  (print_temp_limits g (temp_primary g name feature).limit1
    (temp_primary g name feature).limit2 (temp_primary g name feature).s1
    (temp_primary g name feature).s2 (temp_primary g name feature).alarm).stdout

/-- The limits segment and alarm marker of the second line of `print_chip_temp`. -/
def temp_crit_limits (g : Globals) (name : sensors_chip_name) (feature : sensors_feature)
    (sfcrit : sensors_subfeature) : List Piece :=
  (print_temp_limits g (get_value g name sfcrit.number).val
    (temp_crit_hyst g name
      (sensors_get_subfeature name feature SENSORS_SUBFEATURE_TEMP_CRIT_HYST)).val.1
    (some "crit")
    (temp_crit_hyst g name
      (sensors_get_subfeature name feature SENSORS_SUBFEATURE_TEMP_CRIT_HYST)).val.2
    (sf_and_value g name
      (sensors_get_subfeature name feature SENSORS_SUBFEATURE_TEMP_CRIT_ALARM)).val).stdout

/-- Two chip states read the same for every sub-reading of `feature` whose kind is not `t0`. -/
def same_except (name name' : sensors_chip_name) (feature : sensors_feature)
    (t0 : sensors_subfeature_type) : Prop :=
  ∀ s ∈ feature.subfeatures, s.type ≠ t0 → name'.value s.number = name.value s.number

/-! ## Reading the output -/

/-- The pieces of the first line of an output: everything before its first newline. -/
def first_line (out : List Piece) : List Piece :=
  out.takeWhile fun p => p != Piece.nl

/-- What follows the first newline of an output. -/
def after_first_line (out : List Piece) : List Piece :=
  (out.dropWhile fun p => p != Piece.nl).drop 1

/-- The pieces of the second line of an output (empty when there is none). -/
def second_line (out : List Piece) : List Piece :=
  first_line (after_first_line out)

/-- The number of lines of an output: the number of newlines written. -/
def line_count (out : List Piece) : Nat :=
  out.count Piece.nl

/-- A run of `n` spaces. -/
def spaces (n : Nat) : String := String.mk (List.replicate n ' ')

/-- The text of a `%s` conversion: the argument padded with spaces to the field width,
on the right when the `-` flag is given or the width argument is negative. The C library
counts the width in bytes. -/
def pad (left : Bool) (width : Int) (s : String) : String :=
  if left || width < 0 then s ++ spaces (width.natAbs - strlen s)
  else spaces (width.natAbs - strlen s) ++ s

/-- The characters written for a list of pieces; `fmt` is the C library's rendering of a
`%f` conversion (flag, width, precision, value). -/
def render (fmt : Bool → Nat → Nat → ℚ → String) : List Piece → String
  | [] => ""
  | .lit s :: ps => s ++ render fmt ps
  | .nl :: ps => "\n" ++ render fmt ps
  | .str l w s :: ps => pad l w s ++ render fmt ps
  | .flt p w d v :: ps => fmt p w d v ++ render fmt ps
  | .int d :: ps => toString d ++ render fmt ps

/-- The limit names a text shows: the arguments of its `%-4s` conversions. -/
def shown_names (line : List Piece) : List String :=
  line.filterMap fun p =>
    match p with
    | .str true 4 n => some n
    | _ => none

/-- The limit values a text shows: the arguments of its `%+5.1f` conversions. -/
def shown_values (line : List Piece) : List ℚ :=
  line.filterMap fun p =>
    match p with
    | .flt true 5 1 v => some v
    | _ => none

/-- The limits a text shows, as (name, value) pairs in order of appearance. -/
def shown_limits (line : List Piece) : List (String × ℚ) :=
  (shown_names line).zip (shown_values line)

/-- Whether a line of temperature output carries the `ALARM` marker. -/
def has_alarm (line : List Piece) : Bool :=
  decide (Piece.lit "ALARM  " ∈ line)

/-- Whether `print_chip_temp` shows the critical bound on the primary line: a critical
bound exists and the second line (chips.c:234) is not written. -/
def crit_on_primary (name : sensors_chip_name) (feature : sensors_feature) : Bool :=
  (sensors_get_subfeature name feature SENSORS_SUBFEATURE_TEMP_CRIT).isSome &&
  !((sensors_get_subfeature name feature SENSORS_SUBFEATURE_TEMP_MAX).isSome &&
    ((sensors_get_subfeature name feature SENSORS_SUBFEATURE_TEMP_MIN).isSome ||
     (sensors_get_subfeature name feature SENSORS_SUBFEATURE_TEMP_MAX_HYST).isSome))

/-- A sub-reading of kind `t` "is present and truthy", as the spec words it: the feature
has a sub-reading of that kind and the value read for it is not zero; a read that fails
gives zero, so it counts as falsy. -/
def present_and_truthy (name : sensors_chip_name) (feature : sensors_feature)
    (t : sensors_subfeature_type) : Bool :=
  match sensors_get_subfeature name feature t with
  | none => false
  | some sf =>
    match sensors_get_value name sf.number with
    | .ok v => v != 0
    | .error _ => false

/-- The alarm state of the primary line as the spec words it: the OR of the direct
alarm, the max alarm and the min alarm, each counted when present and truthy, plus the
critical alarm when the critical bound is on the primary line. -/
def spec_primary_alarm (name : sensors_chip_name) (feature : sensors_feature) : Bool :=
  present_and_truthy name feature SENSORS_SUBFEATURE_TEMP_ALARM ||
  present_and_truthy name feature SENSORS_SUBFEATURE_TEMP_MAX_ALARM ||
  present_and_truthy name feature SENSORS_SUBFEATURE_TEMP_MIN_ALARM ||
  (crit_on_primary name feature &&
    present_and_truthy name feature SENSORS_SUBFEATURE_TEMP_CRIT_ALARM)

/-- A limit value as displayed: converted when the Fahrenheit preference is set. -/
def shown_temp (g : Globals) (v : ℚ) : ℚ :=
  if g.fahrenheit then deg_ctof v else v

/-- A limit as displayed: its name and the value read for its sub-reading
(`0` when the read fails), converted when the Fahrenheit preference is set. -/
def shown_limit (g : Globals) (name : sensors_chip_name) (n : String)
    (sf : sensors_subfeature) : String × ℚ :=
  (n, shown_temp g (get_value g name sf.number).val)

/-- The text of a limits segment, following the spec's wording: `(n1 = v1, n2 = v2)`
for two limits, `(n1 = v1)` for one, blank padding for none; each value is
followed by the unit suffix. -/
def limits_text (g : Globals) : List (String × ℚ) → List Piece
  | [(n1, v1), (n2, v2)] =>
    [.lit "(", .str true 4 n1, .lit " = ", .flt true 5 1 v1, .str false 0 g.degstr,
      .lit ", ", .str true 4 n2, .lit " = ", .flt true 5 1 v2, .str false 0 g.degstr,
      .lit ")  "]
  | [(n1, v1)] =>
    [.lit "(", .str true 4 n1, .lit " = ", .flt true 5 1 v1, .str false 0 g.degstr,
      .lit ")                  "]
  | _ => [.lit "                                  "]

/-- The greatest label length, in bytes, over the features of a chip whose label can be
fetched (`0` when there is none). -/
def longest_label (name : sensors_chip_name) : Nat :=
  ((name.features.filterMap fun f => sensors_get_label name f).map strlen).foldr max 0

/-- The standard output of the renderer that `print_chip` selects for a feature of a
given kind (nothing for a kind without renderer). -/
def renderer_stdout (g : Globals) (name : sensors_chip_name) (label_size : Int)
    (feature : sensors_feature) : List Piece :=
  match feature.type with
  | SENSORS_FEATURE_TEMP => (print_chip_temp g name feature label_size).stdout
  | SENSORS_FEATURE_IN => (print_chip_in g name feature label_size).stdout
  | SENSORS_FEATURE_FAN => (print_chip_fan g name feature label_size).stdout
  | SENSORS_FEATURE_VID => (print_chip_vid g name feature label_size).stdout
  | SENSORS_FEATURE_BEEP_ENABLE => (print_chip_beep_enable g name feature label_size).stdout
  | SENSORS_FEATURE_UNKNOWN => []

/-! ## Sample inputs -/

/-- The Celsius context. -/
def gC : Globals := ⟨false, "°C", fun _ => "error"⟩

/-- A sample feature: input, max, max hysteresis and critical bound. -/
def featA : sensors_feature := ⟨SENSORS_FEATURE_TEMP, some "temp1",
    [⟨"temp1_input", 1, SENSORS_SUBFEATURE_TEMP_INPUT, true⟩,
     ⟨"temp1_max", 2, SENSORS_SUBFEATURE_TEMP_MAX, true⟩,
     ⟨"temp1_max_hyst", 3, SENSORS_SUBFEATURE_TEMP_MAX_HYST, true⟩,
     ⟨"temp1_crit", 4, SENSORS_SUBFEATURE_TEMP_CRIT, true⟩]⟩

/-- A sample chip: input 45.3, max 80, max hysteresis 75, critical 100. -/
def chipA : sensors_chip_name where
  features := [featA]
  value := fun n =>
    if n = 1 then .ok (453 / 10) else if n = 2 then .ok 80 else if n = 3 then .ok 75
    else if n = 4 then .ok 100 else .error (-1)

/-- A sample feature with every temperature sub-reading. -/
def featB : sensors_feature := ⟨SENSORS_FEATURE_TEMP, some "Core 0",
    [⟨"temp1_input", 1, SENSORS_SUBFEATURE_TEMP_INPUT, true⟩,
     ⟨"temp1_max", 2, SENSORS_SUBFEATURE_TEMP_MAX, true⟩,
     ⟨"temp1_max_hyst", 3, SENSORS_SUBFEATURE_TEMP_MAX_HYST, true⟩,
     ⟨"temp1_crit", 4, SENSORS_SUBFEATURE_TEMP_CRIT, true⟩,
     ⟨"temp1_min", 5, SENSORS_SUBFEATURE_TEMP_MIN, true⟩,
     ⟨"temp1_crit_hyst", 6, SENSORS_SUBFEATURE_TEMP_CRIT_HYST, true⟩,
     ⟨"temp1_type", 7, SENSORS_SUBFEATURE_TEMP_TYPE, true⟩,
     ⟨"temp1_crit_alarm", 8, SENSORS_SUBFEATURE_TEMP_CRIT_ALARM, true⟩]⟩

/-- A sample chip: input 45.3, max 80, max hysteresis 75, critical 100, min 10,
critical hysteresis 95, sensor type 1500, critical alarm raised. -/
def chipB : sensors_chip_name where
  features := [featB]
  value := fun n =>
    if n = 1 then .ok (453 / 10) else if n = 2 then .ok 80 else if n = 3 then .ok 75
    else if n = 4 then .ok 100 else if n = 5 then .ok 10 else if n = 6 then .ok 95
    else if n = 7 then .ok 1500 else if n = 8 then .ok 1 else .error (-1)

/-- A sample feature without bounds whose min alarm is raised. -/
def featC : sensors_feature := ⟨SENSORS_FEATURE_TEMP, some "temp2",
    [⟨"temp2_input", 1, SENSORS_SUBFEATURE_TEMP_INPUT, true⟩,
     ⟨"temp2_min", 2, SENSORS_SUBFEATURE_TEMP_MIN, true⟩,
     ⟨"temp2_min_alarm", 3, SENSORS_SUBFEATURE_TEMP_MIN_ALARM, true⟩]⟩

/-- A sample chip: input 5, min 10, min alarm raised. -/
def chipC : sensors_chip_name where
  features := [featC]
  value := fun n =>
    if n = 1 then .ok 5 else if n = 2 then .ok 10 else if n = 3 then .ok 1 else .error (-1)

/-- A sample temperature feature with a fault sub-reading. -/
def featD : sensors_feature := ⟨SENSORS_FEATURE_TEMP, some "temp3",
    [⟨"temp3_input", 1, SENSORS_SUBFEATURE_TEMP_INPUT, true⟩,
     ⟨"temp3_max", 2, SENSORS_SUBFEATURE_TEMP_MAX, true⟩,
     ⟨"temp3_fault", 9, SENSORS_SUBFEATURE_TEMP_FAULT, true⟩]⟩

/-- A sample fan feature with a fault sub-reading. -/
def featF : sensors_feature := ⟨SENSORS_FEATURE_FAN, some "fan1",
    [⟨"fan1_input", 1, SENSORS_SUBFEATURE_FAN_INPUT, true⟩,
     ⟨"fan1_min", 2, SENSORS_SUBFEATURE_FAN_MIN, true⟩,
     ⟨"fan1_fault", 9, SENSORS_SUBFEATURE_FAN_FAULT, true⟩]⟩

/-- A sample chip state: readings 1200 and 600, fault flag raised. -/
def chipD : sensors_chip_name where
  features := [featD, featF]
  value := fun n =>
    if n = 1 then .ok 1200 else if n = 2 then .ok 600 else if n = 9 then .ok 1 else .error (-1)

/-- The same chip with the fault flag down. -/
def chipD' : sensors_chip_name where
  features := [featD, featF]
  value := fun n =>
    if n = 1 then .ok 1200 else if n = 2 then .ok 600 else if n = 9 then .ok 0 else .error (-1)

/-- A sample voltage feature with separate alarms and a combined alarm. -/
def featV : sensors_feature := ⟨SENSORS_FEATURE_IN, some "in0",
    [⟨"in0_input", 1, SENSORS_SUBFEATURE_IN_INPUT, true⟩,
     ⟨"in0_min", 2, SENSORS_SUBFEATURE_IN_MIN, true⟩,
     ⟨"in0_min_alarm", 3, SENSORS_SUBFEATURE_IN_MIN_ALARM, true⟩,
     ⟨"in0_max_alarm", 4, SENSORS_SUBFEATURE_IN_MAX_ALARM, true⟩,
     ⟨"in0_alarm", 5, SENSORS_SUBFEATURE_IN_ALARM, true⟩]⟩

/-- A sample chip: input 1, min 2, min alarm raised, max alarm down, combined alarm raised. -/
def chipV : sensors_chip_name where
  features := [featV, ⟨SENSORS_FEATURE_UNKNOWN, some "a much longer label", []⟩,
    ⟨SENSORS_FEATURE_VID, none, []⟩]
  value := fun n =>
    if n = 1 then .ok 1 else if n = 2 then .ok 2 else if n = 3 then .ok 1
    else if n = 4 then .ok 0 else if n = 5 then .ok 1 else .error (-1)

/-- The chip state `name'` is the chip state `name` with some of its failing reads
replaced by successful reads of the value `0`. -/
def failures_read_zero (name name' : sensors_chip_name) : Prop :=
  ∀ n, name'.value n = name.value n ∨
    ∃ err, name.value n = Except.error err ∧ name'.value n = Except.ok 0

/-- A sample temperature feature whose max bound cannot be read. -/
def featE : sensors_feature := ⟨SENSORS_FEATURE_TEMP, some "temp1",
    [⟨"temp1_input", 1, SENSORS_SUBFEATURE_TEMP_INPUT, true⟩,
     ⟨"temp1_max", 2, SENSORS_SUBFEATURE_TEMP_MAX, true⟩]⟩

/-- A sample chip state: reading 45 for number 1, every other read fails. -/
def chipE : sensors_chip_name where
  features := [featE]
  value := fun n => if n = 1 then .ok 45 else .error (-5)

/-- The same chip with every failing read giving `0`. -/
def chipE0 : sensors_chip_name where
  features := [featE]
  value := fun n => if n = 1 then .ok 45 else .ok 0

/-- A sample VID feature whose label cannot be fetched. -/
def featW : sensors_feature := ⟨SENSORS_FEATURE_VID, none,
    [⟨"cpu0_vid", 1, SENSORS_SUBFEATURE_VID, true⟩]⟩

/-- A sample VID feature with a label. -/
def featW1 : sensors_feature := ⟨SENSORS_FEATURE_VID, some "vid",
    [⟨"cpu0_vid", 1, SENSORS_SUBFEATURE_VID, true⟩]⟩

/-- A sample beep-enable feature with a label. -/
def featW2 : sensors_feature := ⟨SENSORS_FEATURE_BEEP_ENABLE, some "beep_enable",
    [⟨"beep_enable", 2, SENSORS_SUBFEATURE_BEEP_ENABLE, true⟩]⟩

/-- A sample chip: VID 1.5, beep enable 0. -/
def chipW : sensors_chip_name where
  features := [featW, featW1, featW2]
  value := fun n => if n = 1 then .ok (3 / 2) else if n = 2 then .ok 0 else .error (-1)

/-- A sample voltage feature with a combined alarm only. -/
def featX : sensors_feature := ⟨SENSORS_FEATURE_IN, some "in1",
    [⟨"in1_input", 1, SENSORS_SUBFEATURE_IN_INPUT, true⟩,
     ⟨"in1_alarm", 2, SENSORS_SUBFEATURE_IN_ALARM, true⟩]⟩

/-- The same voltage feature without any alarm sub-reading. -/
def featX0 : sensors_feature := ⟨SENSORS_FEATURE_IN, some "in1",
    [⟨"in1_input", 1, SENSORS_SUBFEATURE_IN_INPUT, true⟩]⟩

/-- A sample chip: input 3, combined alarm down. -/
def chipX : sensors_chip_name where
  features := [featX, featX0]
  value := fun n => if n = 1 then .ok 3 else if n = 2 then .ok 0 else .error (-1)

/-- A sample feature without max bound: critical bound 100 with hysteresis 95, a min
bound and a max hysteresis, critical alarm raised. -/
def featG : sensors_feature := ⟨SENSORS_FEATURE_TEMP, some "temp4",
    [⟨"temp4_input", 1, SENSORS_SUBFEATURE_TEMP_INPUT, true⟩,
     ⟨"temp4_crit", 4, SENSORS_SUBFEATURE_TEMP_CRIT, true⟩,
     ⟨"temp4_min", 5, SENSORS_SUBFEATURE_TEMP_MIN, true⟩,
     ⟨"temp4_crit_hyst", 6, SENSORS_SUBFEATURE_TEMP_CRIT_HYST, true⟩,
     ⟨"temp4_max_hyst", 3, SENSORS_SUBFEATURE_TEMP_MAX_HYST, true⟩,
     ⟨"temp4_crit_alarm", 8, SENSORS_SUBFEATURE_TEMP_CRIT_ALARM, true⟩]⟩

/-- The decimal digits of `n`, least significant first, using at most `fuel` digits. -/
def dec_digits_rev : Nat → Nat → List Char
  | 0, _ => []
  | fuel + 1, n =>
    Char.ofNat (48 + n % 10) :: (if n / 10 = 0 then [] else dec_digits_rev fuel (n / 10))

/-- The decimal numeral of `n`. -/
def dec_numeral (n : Nat) : String := String.mk (dec_digits_rev (n + 1) n).reverse

/-- The C library's rendering of a `%f` conversion (C standard, `fprintf`) of the exact
value `v`: fixed notation with `prec` decimals, rounded to nearest with ties to even, a
sign when the value is negative or the `+` flag is given, padded with spaces on the left
to `width`. -/
def c_printf_f (plus : Bool) (width prec : Nat) (v : ℚ) : String :=
  let a : Nat := v.num.natAbs * 10 ^ prec
  let fl : Nat := a / v.den
  let r : Nat := a % v.den
  let n : Nat := if 2 * r > v.den ∨ (2 * r = v.den ∧ fl % 2 = 1) then fl + 1 else fl
  let fp : String := dec_numeral (n % 10 ^ prec)
  let digits : String :=
    dec_numeral (n / 10 ^ prec) ++
      (if prec = 0 then "" else "." ++ String.mk (List.replicate (prec - fp.length) '0') ++ fp)
  let body : String := (if v.num < 0 then "-" else if plus then "+" else "") ++ digits
  spaces (width - body.length) ++ body

/-- The column at which the limits segment of a line starts: the number of characters
written before the opening parenthesis of the segment. -/
def limits_column (fmt : Bool → Nat → Nat → ℚ → String) (line : List Piece) : Nat :=
  (render fmt (line.takeWhile fun p => p != Piece.lit "(")).length

/-- A sample feature reading 1000 degrees, with min, max and critical bounds. -/
def featH : sensors_feature := ⟨SENSORS_FEATURE_TEMP, some "temp1",
    [⟨"temp1_input", 1, SENSORS_SUBFEATURE_TEMP_INPUT, true⟩,
     ⟨"temp1_max", 2, SENSORS_SUBFEATURE_TEMP_MAX, true⟩,
     ⟨"temp1_min", 3, SENSORS_SUBFEATURE_TEMP_MIN, true⟩,
     ⟨"temp1_crit", 4, SENSORS_SUBFEATURE_TEMP_CRIT, true⟩]⟩

/-- A sample chip: input 1000, max 80, min 10, critical 90. -/
def chipH : sensors_chip_name where
  features := [featH]
  value := fun n =>
    if n = 1 then .ok 1000 else if n = 2 then .ok 80 else if n = 3 then .ok 10
    else if n = 4 then .ok 90 else .error (-1)

/-- The same chip with input 45. -/
def chipH' : sensors_chip_name where
  features := [featH]
  value := fun n =>
    if n = 1 then .ok 45 else if n = 2 then .ok 80 else if n = 3 then .ok 10
    else if n = 4 then .ok 90 else .error (-1)

/-- What the raw dump writes to standard output for one sub-reading: name and value with
two decimals when it is readable and the read succeeds, nothing when the read fails, and
the text `freed_label` in parentheses when it is not readable. -/
def raw_sub_stdout (freed_label : String) (name : sensors_chip_name)
    (sub : sensors_subfeature) : List Piece :=
  if sub.readable then
    match sensors_get_value name sub.number with
    | .error _ => []
    | .ok val => [.lit "  ", .str false 0 sub.name, .lit ": ", .flt false 0 2 val, .nl]
  else [.lit "(", .str false 0 freed_label, .lit ")", .nl]

/-- A sample fan feature with a write-only sub-reading. -/
def featR : sensors_feature := ⟨SENSORS_FEATURE_FAN, some "fan1",
    [⟨"fan1_input", 1, SENSORS_SUBFEATURE_FAN_INPUT, true⟩,
     ⟨"fan1_reset", 2, SENSORS_SUBFEATURE_UNKNOWN, false⟩]⟩

/-- A sample chip: a feature without label, then the fan feature reading 1200. -/
def chipR : sensors_chip_name where
  features := [⟨SENSORS_FEATURE_TEMP, none, []⟩, featR]
  value := fun n => if n = 1 then .ok 1200 else .error (-1)

/-- The Fahrenheit context. -/
def gF : Globals := ⟨true, "°F", fun _ => "error"⟩

/-- A sample feature with a max bound. -/
def featT : sensors_feature := ⟨SENSORS_FEATURE_TEMP, some "temp1",
    [⟨"temp1_input", 1, SENSORS_SUBFEATURE_TEMP_INPUT, true⟩,
     ⟨"temp1_max", 2, SENSORS_SUBFEATURE_TEMP_MAX, true⟩]⟩

/-- A sample feature with a min and a max bound. -/
def featT2 : sensors_feature := ⟨SENSORS_FEATURE_TEMP, some "temp2",
    [⟨"temp2_input", 1, SENSORS_SUBFEATURE_TEMP_INPUT, true⟩,
     ⟨"temp2_min", 3, SENSORS_SUBFEATURE_TEMP_MIN, true⟩,
     ⟨"temp2_max", 2, SENSORS_SUBFEATURE_TEMP_MAX, true⟩]⟩

/-- A sample feature without max bound, with a critical bound and its hysteresis. -/
def featT3 : sensors_feature := ⟨SENSORS_FEATURE_TEMP, some "temp3",
    [⟨"temp3_input", 1, SENSORS_SUBFEATURE_TEMP_INPUT, true⟩,
     ⟨"temp3_crit", 2, SENSORS_SUBFEATURE_TEMP_CRIT, true⟩,
     ⟨"temp3_crit_hyst", 3, SENSORS_SUBFEATURE_TEMP_CRIT_HYST, true⟩]⟩

/-- A sample chip: 0.75 for number 1, 100 for number 2, 0 for number 3. -/
def chipT : sensors_chip_name where
  features := [featT, featT2, featT3]
  value := fun n =>
    if n = 1 then .ok (3 / 4) else if n = 2 then .ok 100 else if n = 3 then .ok 0
    else .error (-1)

/-- A sample feature whose label has 11 characters and 12 bytes, with min, max and
critical bounds. -/
def featU : sensors_feature := ⟨SENSORS_FEATURE_TEMP, some "Température",
    [⟨"temp1_input", 1, SENSORS_SUBFEATURE_TEMP_INPUT, true⟩,
     ⟨"temp1_max", 2, SENSORS_SUBFEATURE_TEMP_MAX, true⟩,
     ⟨"temp1_min", 3, SENSORS_SUBFEATURE_TEMP_MIN, true⟩,
     ⟨"temp1_crit", 4, SENSORS_SUBFEATURE_TEMP_CRIT, true⟩]⟩

/-- A sample feature with a label of one-byte characters and the same bounds. -/
def featU2 : sensors_feature := ⟨SENSORS_FEATURE_TEMP, some "temp2",
    [⟨"temp2_input", 1, SENSORS_SUBFEATURE_TEMP_INPUT, true⟩,
     ⟨"temp2_max", 2, SENSORS_SUBFEATURE_TEMP_MAX, true⟩,
     ⟨"temp2_min", 3, SENSORS_SUBFEATURE_TEMP_MIN, true⟩,
     ⟨"temp2_crit", 4, SENSORS_SUBFEATURE_TEMP_CRIT, true⟩]⟩

/-- A sample chip with these two features: input 45, max 80, min 10, critical 90. -/
def chipU : sensors_chip_name where
  features := [featU, featU2]
  value := fun n =>
    if n = 1 then .ok 45 else if n = 2 then .ok 80 else if n = 3 then .ok 10
    else if n = 4 then .ok 90 else .error (-1)

/-- The sample chip of `featB` and `featG` with the critical alarm present and down. -/
def chipB0 : sensors_chip_name where
  features := [featB]
  value := fun n =>
    if n = 1 then .ok (453 / 10) else if n = 2 then .ok 80 else if n = 3 then .ok 75
    else if n = 4 then .ok 100 else if n = 5 then .ok 10 else if n = 6 then .ok 95
    else if n = 7 then .ok 1500 else if n = 8 then .ok 0 else .error (-1)

/-- A sample feature with a max bound, a direct alarm and a max alarm. -/
def featK : sensors_feature := ⟨SENSORS_FEATURE_TEMP, some "temp5",
    [⟨"temp5_input", 1, SENSORS_SUBFEATURE_TEMP_INPUT, true⟩,
     ⟨"temp5_max", 2, SENSORS_SUBFEATURE_TEMP_MAX, true⟩,
     ⟨"temp5_alarm", 4, SENSORS_SUBFEATURE_TEMP_ALARM, true⟩,
     ⟨"temp5_max_alarm", 5, SENSORS_SUBFEATURE_TEMP_MAX_ALARM, true⟩]⟩

/-- A sample chip: input 85, max 80, direct alarm down, max alarm raised. -/
def chipK : sensors_chip_name where
  features := [featK]
  value := fun n =>
    if n = 1 then .ok 85 else if n = 2 then .ok 80 else if n = 4 then .ok 0
    else if n = 5 then .ok 1 else .error (-1)

/-- The same chip with both alarms present and down. -/
def chipK0 : sensors_chip_name where
  features := [featK]
  value := fun n =>
    if n = 1 then .ok 85 else if n = 2 then .ok 80 else if n = 4 then .ok 0
    else if n = 5 then .ok 0 else .error (-1)

/-- A sample fan feature with a min bound, a divisor and an alarm. -/
def featFA : sensors_feature := ⟨SENSORS_FEATURE_FAN, some "fan2",
    [⟨"fan2_input", 1, SENSORS_SUBFEATURE_FAN_INPUT, true⟩,
     ⟨"fan2_min", 2, SENSORS_SUBFEATURE_FAN_MIN, true⟩,
     ⟨"fan2_div", 3, SENSORS_SUBFEATURE_FAN_DIV, true⟩,
     ⟨"fan2_alarm", 4, SENSORS_SUBFEATURE_FAN_ALARM, true⟩]⟩

/-- A sample chip: fan at 500 RPM, min 600, divisor 2, alarm raised. -/
def chipFA : sensors_chip_name where
  features := [featFA]
  value := fun n =>
    if n = 1 then .ok 500 else if n = 2 then .ok 600 else if n = 3 then .ok 2
    else if n = 4 then .ok 1 else .error (-1)

/-- The same chip with the alarm present and down. -/
def chipFA0 : sensors_chip_name where
  features := [featFA]
  value := fun n =>
    if n = 1 then .ok 500 else if n = 2 then .ok 600 else if n = 3 then .ok 2
    else if n = 4 then .ok 0 else .error (-1)

/-! ## Basic facts about the output streams -/

theorem round_half_even_of_lt (q : ℚ) (f : ℤ) (h1 : (f : ℚ) ≤ q) (h2 : 2 * (q - f) < 1) :
    round_half_even q = f := by
  have hf : ⌊q⌋ = f := by
    rw [Int.floor_eq_iff]
    constructor
    · exact h1
    · linarith
  unfold round_half_even
  rw [hf, if_pos h2]

theorem int_log_two_eq (q : ℚ) (k : ℤ) (h1 : (2 : ℚ) ^ k ≤ q)
    (h2 : q < (2 : ℚ) ^ (k + 1)) : Int.log 2 q = k := by
  have hpos : 0 < q := lt_of_lt_of_le (by positivity) h1
  have a := (Int.zpow_le_iff_le_log (b := 2) (by norm_num) hpos).mp (by exact_mod_cast h1)
  have b := (Int.lt_zpow_iff_log_lt (b := 2) (by norm_num) hpos).mp (by exact_mod_cast h2)
  omega

/-- The rounding of a positive `q` with `2 ^ k ≤ q < 2 ^ (k + 1)`, not subnormal. -/
theorem fp_round_of (p : ℕ) (emin : ℤ) (q : ℚ) (k n : ℤ)
    (h1 : (2 : ℚ) ^ k ≤ q) (h2 : q < (2 : ℚ) ^ (k + 1)) (hemin : emin ≤ k - (p - 1))
    (hn : round_half_even (q / 2 ^ (k - ((p : ℤ) - 1))) = n) :
    fp_round p emin q = n * 2 ^ (k - ((p : ℤ) - 1)) := by
  have hpos : 0 < q := lt_of_lt_of_le (by positivity) h1
  unfold fp_round
  rw [if_neg (ne_of_gt hpos), abs_of_pos hpos, int_log_two_eq q k h1 h2]
  simp only [max_eq_left hemin]
  rw [hn]

/-- A positive number that fits the format is its own rounding. -/
theorem fp_round_exact (p : ℕ) (emin : ℤ) (q : ℚ) (k n : ℤ)
    (h1 : (2 : ℚ) ^ k ≤ q) (h2 : q < (2 : ℚ) ^ (k + 1)) (hemin : emin ≤ k - (p - 1))
    (hn : q = n * 2 ^ (k - ((p : ℤ) - 1))) :
    fp_round p emin q = q := by
  have hpow : (2 : ℚ) ^ (k - ((p : ℤ) - 1)) ≠ 0 := by positivity
  have hq : q / 2 ^ (k - ((p : ℤ) - 1)) = n := by
    rw [hn]
    field_simp
  rw [fp_round_of p emin q k n h1 h2 hemin
    (by rw [hq]; exact round_half_even_of_lt _ _ le_rfl (by norm_num)), ← hn]

theorem rat_num_den (a : ℤ) (b : ℕ) (hb : 0 < b) (h : Nat.Coprime a.natAbs b) :
    ((a : ℚ) / (b : ℚ)).num = a ∧ ((a : ℚ) / (b : ℚ)).den = b := by
  have hb' : (0 : ℤ) < (b : ℤ) := by exact_mod_cast hb
  have h' : Nat.Coprime a.natAbs (b : ℤ).natAbs := by simpa using h
  have h1 := Rat.num_div_eq_of_coprime hb' h'
  have h2 := Rat.den_div_eq_of_coprime hb' h'
  constructor
  · simpa using h1
  · have : (((a : ℚ) / ((b : ℤ) : ℚ)).den : ℤ) = (b : ℤ) := h2
    simpa using this

/-- 100 degrees Celsius as `deg_ctof` converts them. -/
theorem deg_ctof_100 : deg_ctof 100 = 212 - 5 / 1048576 := by
  have h95 : float_round (9 / 5) = 15099494 / 8388608 := by
    unfold float_round
    rw [fp_round_of 24 (-149) (9 / 5) 0 15099494 (by norm_num) (by norm_num) (by norm_num)
      (round_half_even_of_lt _ _ (by norm_num) (by norm_num))]
    norm_num
  unfold deg_ctof
  rw [h95]
  unfold double_round
  rw [fp_round_exact 53 (-1074) (100 * (15099494 / 8388608)) 7 (1509949400 * 4194304)
    (by norm_num) (by norm_num) (by norm_num) (by norm_num)]
  rw [fp_round_exact 53 (-1074) (100 * (15099494 / 8388608) + 32) 7
    ((1509949400 + 32 * 8388608) * 4194304)
    (by norm_num) (by norm_num) (by norm_num) (by norm_num)]
  norm_num

/-- 0 degrees Celsius as `deg_ctof` converts them. -/
theorem deg_ctof_0 : deg_ctof 0 = 32 := by
  unfold deg_ctof double_round
  have h0 : fp_round 53 (-1074) (0 * float_round (9 / 5)) = 0 := by
    rw [zero_mul]
    rfl
  rw [h0, zero_add]
  exact fp_round_exact 53 (-1074) 32 5 4503599627370496 (by norm_num) (by norm_num)
    (by norm_num) (by norm_num)

@[simp] theorem W.pure_val {α : Type} (a : α) : (pure a : W α).val = a := rfl
@[simp] theorem W.pure_stdout {α : Type} (a : α) : (pure a : W α).stdout = [] := rfl
@[simp] theorem W.pure_stderr {α : Type} (a : α) : (pure a : W α).stderr = [] := rfl
@[simp] theorem W.bind_val {α β : Type} (m : W α) (f : α → W β) :
    (m >>= f).val = (f m.val).val := rfl
@[simp] theorem W.bind_stdout {α β : Type} (m : W α) (f : α → W β) :
    (m >>= f).stdout = m.stdout ++ (f m.val).stdout := rfl
@[simp] theorem W.bind_stderr {α β : Type} (m : W α) (f : α → W β) :
    (m >>= f).stderr = m.stderr ++ (f m.val).stderr := rfl
@[simp] theorem printf_stdout (ps : List Piece) : (printf ps).stdout = ps := rfl
@[simp] theorem printf_stderr (ps : List Piece) : (printf ps).stderr = [] := rfl
@[simp] theorem fprintf_stderr_stdout (ps : List Piece) : (fprintf_stderr ps).stdout = [] := rfl
@[simp] theorem fprintf_stderr_stderr (ps : List Piece) : (fprintf_stderr ps).stderr = ps := rfl

@[simp] theorem get_value_stdout (g : Globals) (name : sensors_chip_name) (n : Int) :
    (get_value g name n).stdout = [] := by
  unfold get_value; split <;> simp

@[simp] theorem sf_and_value_stdout (g : Globals) (name : sensors_chip_name)
    (sf : Option sensors_subfeature) : (sf_and_value g name sf).stdout = [] := by
  unfold sf_and_value; split <;> simp

@[simp] theorem sf_value_or_zero_stdout (g : Globals) (name : sensors_chip_name)
    (sf : Option sensors_subfeature) : (sf_value_or_zero g name sf).stdout = [] := by
  unfold sf_value_or_zero; split <;> simp

@[simp] theorem temp_crit_hyst_stdout (g : Globals) (name : sensors_chip_name)
    (sf : Option sensors_subfeature) : (temp_crit_hyst g name sf).stdout = [] := by
  unfold temp_crit_hyst; split <;> simp

@[simp] theorem temp_select_limits_stdout (g : Globals) (name : sensors_chip_name)
    (feature : sensors_feature) (sfmin sfmax sfcrit : Option sensors_subfeature) (alarm : Bool) :
    (temp_select_limits g name feature sfmin sfmax sfcrit alarm).stdout = [] := by
  unfold temp_select_limits
  cases sfmax <;> cases sfmin <;> cases sfcrit <;>
    cases h : sensors_get_subfeature name feature SENSORS_SUBFEATURE_TEMP_MAX_HYST <;>
    simp [h]

@[simp] theorem lit_bne_nl (s : String) : (Piece.lit s != Piece.nl) = true := by
  simp [bne_iff_ne]
@[simp] theorem str_bne_nl (l : Bool) (w : Int) (s : String) :
    (Piece.str l w s != Piece.nl) = true := by
  simp [bne_iff_ne]
@[simp] theorem flt_bne_nl (p : Bool) (w d : Nat) (v : ℚ) :
    (Piece.flt p w d v != Piece.nl) = true := by
  simp [bne_iff_ne]
@[simp] theorem int_bne_nl (d : Int) : (Piece.int d != Piece.nl) = true := by
  simp [bne_iff_ne]
@[simp] theorem nl_bne_nl : (Piece.nl != Piece.nl) = false := by
  simp

@[simp] theorem first_line_nil : first_line [] = [] := rfl
@[simp] theorem first_line_nl (out : List Piece) : first_line (Piece.nl :: out) = [] := by
  simp [first_line]
@[simp] theorem first_line_lit (s : String) (out : List Piece) :
    first_line (Piece.lit s :: out) = Piece.lit s :: first_line out := by
  simp [first_line, List.takeWhile_cons]
@[simp] theorem first_line_str (l : Bool) (w : Int) (s : String) (out : List Piece) :
    first_line (Piece.str l w s :: out) = Piece.str l w s :: first_line out := by
  simp [first_line, List.takeWhile_cons]
@[simp] theorem first_line_flt (p : Bool) (w d : Nat) (v : ℚ) (out : List Piece) :
    first_line (Piece.flt p w d v :: out) = Piece.flt p w d v :: first_line out := by
  simp [first_line, List.takeWhile_cons]

@[simp] theorem after_first_line_nil : after_first_line [] = [] := rfl
@[simp] theorem after_first_line_nl (out : List Piece) :
    after_first_line (Piece.nl :: out) = out := by
  simp [after_first_line, List.dropWhile_cons]
@[simp] theorem after_first_line_lit (s : String) (out : List Piece) :
    after_first_line (Piece.lit s :: out) = after_first_line out := by
  simp [after_first_line, List.dropWhile_cons]
@[simp] theorem after_first_line_str (l : Bool) (w : Int) (s : String) (out : List Piece) :
    after_first_line (Piece.str l w s :: out) = after_first_line out := by
  simp [after_first_line, List.dropWhile_cons]
@[simp] theorem after_first_line_flt (p : Bool) (w d : Nat) (v : ℚ) (out : List Piece) :
    after_first_line (Piece.flt p w d v :: out) = after_first_line out := by
  simp [after_first_line, List.dropWhile_cons]

/-- The standard output of `print_chip_temp` for a feature with a label, field by field. -/
theorem print_chip_temp_stdout (g : Globals) (name : sensors_chip_name)
    (feature : sensors_feature) (label_size : Int) (label : String)
    (hl : sensors_get_label name feature = some label) :
    (print_chip_temp g name feature label_size).stdout =
      [.str false 0 label, .lit ":", .str false (label_size - (strlen label + 1)) ""] ++
      ((temp_value_field g name feature (sf_value_or_zero g name
          (sensors_get_subfeature name feature SENSORS_SUBFEATURE_TEMP_INPUT)).val).stdout ++
      ((print_temp_limits g (temp_primary g name feature).limit1
          (temp_primary g name feature).limit2 (temp_primary g name feature).s1
          (temp_primary g name feature).s2 (temp_primary g name feature).alarm).stdout ++
      ((temp_crit_line g name feature label_size (temp_primary g name feature).crit_displayed
          (sensors_get_subfeature name feature SENSORS_SUBFEATURE_TEMP_CRIT)).stdout ++
      ((temp_sensor_type g name feature).stdout ++ [.nl])))) := by
  simp [print_chip_temp, hl, print_label, temp_primary]

theorem temp_value_field_stdout (g : Globals) (name : sensors_chip_name)
    (feature : sensors_feature) (val : ℚ) :
    (temp_value_field g name feature val).stdout =
      if (sf_and_value g name
          (sensors_get_subfeature name feature SENSORS_SUBFEATURE_TEMP_FAULT)).val
      then [.lit "   FAULT  "]
      else [.flt true 6 1 (shown_temp g val), .str false 0 g.degstr, .lit "  "] := by
  simp only [temp_value_field, W.bind_stdout, sf_and_value_stdout, List.nil_append, shown_temp]
  split <;> simp

theorem print_temp_limits_stdout (g : Globals) (limit1 limit2 : ℚ) (name1 name2 : Option String)
    (alarm : Bool) :
    (print_temp_limits g limit1 limit2 name1 name2 alarm).stdout =
      (if name2.isSome then
        [.lit "(", .str true 4 (cstr name1), .lit " = ", .flt true 5 1 (shown_temp g limit1),
          .str false 0 g.degstr, .lit ", ", .str true 4 (cstr name2), .lit " = ",
          .flt true 5 1 (shown_temp g limit2), .str false 0 g.degstr, .lit ")  "]
      else if name1.isSome then
        [.lit "(", .str true 4 (cstr name1), .lit " = ", .flt true 5 1 (shown_temp g limit1),
          .str false 0 g.degstr, .lit ")                  "]
      else [.lit "                                  "]) ++
      (if alarm then [.lit "ALARM  "] else []) := by
  cases name1 <;> cases name2 <;> cases alarm <;> simp [print_temp_limits, shown_temp]

theorem temp_crit_line_stdout (g : Globals) (name : sensors_chip_name)
    (feature : sensors_feature) (label_size : Int) (crit_displayed : Bool)
    (sfcrit : Option sensors_subfeature) :
    (temp_crit_line g name feature label_size crit_displayed sfcrit).stdout =
      match crit_displayed, sfcrit with
      | false, some sfcrit =>
        [.nl, .str false (label_size + 10) ""] ++
        (print_temp_limits g (get_value g name sfcrit.number).val
          (temp_crit_hyst g name
            (sensors_get_subfeature name feature SENSORS_SUBFEATURE_TEMP_CRIT_HYST)).val.1
          (some "crit")
          (temp_crit_hyst g name
            (sensors_get_subfeature name feature SENSORS_SUBFEATURE_TEMP_CRIT_HYST)).val.2
          (sf_and_value g name
            (sensors_get_subfeature name feature SENSORS_SUBFEATURE_TEMP_CRIT_ALARM)).val).stdout
      | _, _ => [] := by
  unfold temp_crit_line
  split <;> simp

theorem temp_sensor_type_stdout (g : Globals) (name : sensors_chip_name)
    (feature : sensors_feature) :
    (temp_sensor_type g name feature).stdout =
      match sensors_get_subfeature name feature SENSORS_SUBFEATURE_TEMP_TYPE with
      | some sf =>
        [.lit "sensor = ",
          .str false 0 (sensor_type_name (double_to_int (get_value g name sf.number).val))]
      | none => [] := by
  unfold temp_sensor_type
  split <;> simp

theorem temp_crit_hyst_val (g : Globals) (name : sensors_chip_name)
    (sf : Option sensors_subfeature) :
    (temp_crit_hyst g name sf).val =
      match sf with
      | some s => ((get_value g name s.number).val, some "hyst")
      | none => (0, none) := by
  unfold temp_crit_hyst
  split <;> simp

theorem first_line_append_of_not_mem (xs ys : List Piece) (h : Piece.nl ∉ xs) :
    first_line (xs ++ ys) = xs ++ first_line ys := by
  induction xs with
  | nil => rfl
  | cons x xs ih =>
    have hx : x ≠ Piece.nl := fun e => h (by simp [e])
    have hxs : Piece.nl ∉ xs := fun e => h (by simp [e])
    simp [first_line, List.takeWhile_cons, bne_iff_ne, hx] at ih ⊢
    exact ih hxs

theorem after_first_line_append_of_not_mem (xs ys : List Piece) (h : Piece.nl ∉ xs) :
    after_first_line (xs ++ ys) = after_first_line ys := by
  induction xs with
  | nil => rfl
  | cons x xs ih =>
    have hx : x ≠ Piece.nl := fun e => h (by simp [e])
    have hxs : Piece.nl ∉ xs := fun e => h (by simp [e])
    simp [after_first_line, List.dropWhile_cons, bne_iff_ne, hx] at ih ⊢
    exact ih hxs

theorem nl_not_mem_temp_value_field (g : Globals) (name : sensors_chip_name)
    (feature : sensors_feature) (val : ℚ) :
    Piece.nl ∉ (temp_value_field g name feature val).stdout := by
  rw [temp_value_field_stdout]; split <;> simp

theorem nl_not_mem_print_temp_limits (g : Globals) (limit1 limit2 : ℚ)
    (name1 name2 : Option String) (alarm : Bool) :
    Piece.nl ∉ (print_temp_limits g limit1 limit2 name1 name2 alarm).stdout := by
  rw [print_temp_limits_stdout]
  cases name1 <;> cases name2 <;> cases alarm <;> simp

theorem nl_not_mem_temp_sensor_type (g : Globals) (name : sensors_chip_name)
    (feature : sensors_feature) : Piece.nl ∉ (temp_sensor_type g name feature).stdout := by
  rw [temp_sensor_type_stdout]; split <;> simp

/-- The first line of `print_chip_temp`: label, value field, limits, and the
sensor type when no second line follows. -/
theorem first_line_print_chip_temp (g : Globals) (name : sensors_chip_name)
    (feature : sensors_feature) (label_size : Int) (label : String)
    (hl : sensors_get_label name feature = some label) :
    first_line (print_chip_temp g name feature label_size).stdout =
      [.str false 0 label, .lit ":", .str false (label_size - (strlen label + 1)) ""] ++
      ((temp_value_field g name feature (sf_value_or_zero g name
          (sensors_get_subfeature name feature SENSORS_SUBFEATURE_TEMP_INPUT)).val).stdout ++
      (temp_primary_limits g name feature ++
      (if temp_second_line g name feature then []
       else (temp_sensor_type g name feature).stdout))) := by
  rw [print_chip_temp_stdout g name feature label_size label hl]
  rw [first_line_append_of_not_mem _ _ (by simp),
    first_line_append_of_not_mem _ _ (nl_not_mem_temp_value_field _ _ _ _),
    first_line_append_of_not_mem _ _ (nl_not_mem_print_temp_limits _ _ _ _ _ _),
    temp_crit_line_stdout]
  unfold temp_second_line temp_primary_limits
  cases (temp_primary g name feature).crit_displayed <;>
    cases sensors_get_subfeature name feature SENSORS_SUBFEATURE_TEMP_CRIT <;>
    simp [first_line_append_of_not_mem _ _ (nl_not_mem_temp_sensor_type _ _ _)]

/-- The second line of `print_chip_temp`: indentation, critical limits, sensor type. -/
theorem second_line_print_chip_temp (g : Globals) (name : sensors_chip_name)
    (feature : sensors_feature) (label_size : Int) (label : String)
    (hl : sensors_get_label name feature = some label) :
    second_line (print_chip_temp g name feature label_size).stdout =
      match temp_second_line g name feature,
        sensors_get_subfeature name feature SENSORS_SUBFEATURE_TEMP_CRIT with
      | true, some sfcrit =>
        Piece.str false (label_size + 10) "" ::
          (temp_crit_limits g name feature sfcrit ++ (temp_sensor_type g name feature).stdout)
      | _, _ => [] := by
  rw [print_chip_temp_stdout g name feature label_size label hl]
  unfold second_line
  rw [after_first_line_append_of_not_mem _ _ (by simp),
    after_first_line_append_of_not_mem _ _ (nl_not_mem_temp_value_field _ _ _ _),
    after_first_line_append_of_not_mem _ _ (nl_not_mem_print_temp_limits _ _ _ _ _ _),
    temp_crit_line_stdout]
  unfold temp_second_line temp_crit_limits
  cases (temp_primary g name feature).crit_displayed <;>
    cases sensors_get_subfeature name feature SENSORS_SUBFEATURE_TEMP_CRIT <;>
    simp [after_first_line_append_of_not_mem _ _ (nl_not_mem_temp_sensor_type _ _ _),
      first_line_append_of_not_mem _ _ (nl_not_mem_print_temp_limits _ _ _ _ _ _),
      first_line_append_of_not_mem _ _ (nl_not_mem_temp_sensor_type _ _ _)]

theorem shown_names_append (xs ys : List Piece) :
    shown_names (xs ++ ys) = shown_names xs ++ shown_names ys := by
  simp [shown_names, List.filterMap_append]

theorem shown_values_append (xs ys : List Piece) :
    shown_values (xs ++ ys) = shown_values xs ++ shown_values ys := by
  simp [shown_values, List.filterMap_append]

theorem shown_names_temp_value_field (g : Globals) (name : sensors_chip_name)
    (feature : sensors_feature) (val : ℚ) :
    shown_names (temp_value_field g name feature val).stdout = [] := by
  rw [temp_value_field_stdout]; split <;> simp [shown_names]

theorem shown_values_temp_value_field (g : Globals) (name : sensors_chip_name)
    (feature : sensors_feature) (val : ℚ) :
    shown_values (temp_value_field g name feature val).stdout = [] := by
  rw [temp_value_field_stdout]; split <;> simp [shown_values]

theorem shown_names_temp_sensor_type (g : Globals) (name : sensors_chip_name)
    (feature : sensors_feature) :
    shown_names (temp_sensor_type g name feature).stdout = [] := by
  rw [temp_sensor_type_stdout]; split <;> simp [shown_names]

theorem shown_values_temp_sensor_type (g : Globals) (name : sensors_chip_name)
    (feature : sensors_feature) :
    shown_values (temp_sensor_type g name feature).stdout = [] := by
  rw [temp_sensor_type_stdout]; split <;> simp [shown_values]

/-- The limits shown on the first line are those of the primary limits segment. -/
theorem shown_limits_first_line (g : Globals) (name : sensors_chip_name)
    (feature : sensors_feature) (label_size : Int) (label : String)
    (hl : sensors_get_label name feature = some label) :
    shown_limits (first_line (print_chip_temp g name feature label_size).stdout) =
      shown_limits (temp_primary_limits g name feature) := by
  rw [first_line_print_chip_temp g name feature label_size label hl]
  have hn : shown_names (if temp_second_line g name feature then []
      else (temp_sensor_type g name feature).stdout) = [] := by
    split
    · rfl
    · exact shown_names_temp_sensor_type g name feature
  have hv : shown_values (if temp_second_line g name feature then []
      else (temp_sensor_type g name feature).stdout) = [] := by
    split
    · rfl
    · exact shown_values_temp_sensor_type g name feature
  unfold shown_limits
  rw [shown_names_append, shown_names_append, shown_names_append, shown_values_append,
    shown_values_append, shown_values_append, shown_names_temp_value_field,
    shown_values_temp_value_field, hn, hv]
  simp [shown_names, shown_values]

/-- The primary limits segment is part of the first line. -/
theorem temp_primary_limits_within (g : Globals) (name : sensors_chip_name)
    (feature : sensors_feature) (label_size : Int) (label : String)
    (hl : sensors_get_label name feature = some label) :
    temp_primary_limits g name feature <:+:
      first_line (print_chip_temp g name feature label_size).stdout := by
  rw [first_line_print_chip_temp g name feature label_size label hl]
  exact ⟨[.str false 0 label, .lit ":", .str false (label_size - (strlen label + 1)) ""] ++
    (temp_value_field g name feature (sf_value_or_zero g name
      (sensors_get_subfeature name feature SENSORS_SUBFEATURE_TEMP_INPUT)).val).stdout,
    (if temp_second_line g name feature then []
      else (temp_sensor_type g name feature).stdout),
    by simp only [List.append_assoc]⟩

theorem shown_limits_print_temp_limits (g : Globals) (limit1 limit2 : ℚ)
    (name1 name2 : Option String) (alarm : Bool) :
    shown_limits (print_temp_limits g limit1 limit2 name1 name2 alarm).stdout =
      match name1, name2 with
      | _, some n2 => [(cstr name1, shown_temp g limit1), (n2, shown_temp g limit2)]
      | some n1, none => [(n1, shown_temp g limit1)]
      | none, none => [] := by
  rw [print_temp_limits_stdout]
  cases name1 <;> cases name2 <;> cases alarm <;>
    simp [shown_limits, shown_names, shown_values, cstr]

theorem print_temp_limits_eq_text (g : Globals) (limit1 limit2 : ℚ)
    (name1 name2 : Option String) (alarm : Bool) (h : name2.isSome → name1.isSome) :
    (print_temp_limits g limit1 limit2 name1 name2 alarm).stdout =
      limits_text g (shown_limits (print_temp_limits g limit1 limit2 name1 name2 alarm).stdout)
        ++ (if alarm then [.lit "ALARM  "] else []) := by
  rw [shown_limits_print_temp_limits, print_temp_limits_stdout]
  cases name1 <;> cases name2 <;> simp [limits_text, cstr] at h ⊢

theorem temp_primary_names (g : Globals) (name : sensors_chip_name)
    (feature : sensors_feature) :
    (temp_primary g name feature).s2.isSome → (temp_primary g name feature).s1.isSome := by
  unfold temp_primary temp_select_limits
  cases sensors_get_subfeature name feature SENSORS_SUBFEATURE_TEMP_MAX <;>
    cases sensors_get_subfeature name feature SENSORS_SUBFEATURE_TEMP_MIN <;>
    cases sensors_get_subfeature name feature SENSORS_SUBFEATURE_TEMP_CRIT <;>
    cases sensors_get_subfeature name feature SENSORS_SUBFEATURE_TEMP_MAX_HYST <;>
    simp

/-- The first line contains the text of the limits it shows. -/
theorem limits_text_within_first_line (g : Globals) (name : sensors_chip_name)
    (feature : sensors_feature) (label_size : Int) (label : String)
    (hl : sensors_get_label name feature = some label) :
    limits_text g (shown_limits (first_line (print_chip_temp g name feature label_size).stdout))
      <:+: first_line (print_chip_temp g name feature label_size).stdout := by
  rw [shown_limits_first_line g name feature label_size label hl]
  refine List.IsInfix.trans ?_ (temp_primary_limits_within g name feature label_size label hl)
  unfold temp_primary_limits
  have h := print_temp_limits_eq_text g (temp_primary g name feature).limit1
    (temp_primary g name feature).limit2 (temp_primary g name feature).s1
    (temp_primary g name feature).s2 (temp_primary g name feature).alarm
    (temp_primary_names g name feature)
  exact ⟨[], _, by rw [List.nil_append]; exact h.symm⟩

/-- The limits shown on the second line are those of the critical limits segment. -/
theorem shown_limits_second_line (g : Globals) (name : sensors_chip_name)
    (feature : sensors_feature) (label_size : Int) (label : String)
    (hl : sensors_get_label name feature = some label) :
    shown_limits (second_line (print_chip_temp g name feature label_size).stdout) =
      match temp_second_line g name feature,
        sensors_get_subfeature name feature SENSORS_SUBFEATURE_TEMP_CRIT with
      | true, some sfcrit => shown_limits (temp_crit_limits g name feature sfcrit)
      | _, _ => [] := by
  rw [second_line_print_chip_temp g name feature label_size label hl]
  cases temp_second_line g name feature <;>
    cases sensors_get_subfeature name feature SENSORS_SUBFEATURE_TEMP_CRIT <;>
    simp only [] <;> try rfl
  unfold shown_limits
  have hn : ∀ xs, shown_names (Piece.str false (label_size + 10) "" :: xs) = shown_names xs :=
    fun xs => by simp [shown_names]
  have hv : ∀ xs, shown_values (Piece.str false (label_size + 10) "" :: xs) = shown_values xs :=
    fun xs => by simp [shown_values]
  rw [hn, hv, shown_names_append, shown_values_append, shown_names_temp_sensor_type,
    shown_values_temp_sensor_type, List.append_nil, List.append_nil]

/-! ## The claims -/

/-- C1: for a temperature feature with a max bound and no min bound, the primary line
shows `(high = max, hyst = H)` whenever a max-hysteresis sub-reading exists, else
`(high = max, crit = C)` when a critical bound exists, else `(high = max)` alone; when
both max hysteresis and a critical bound exist, the critical bound is on the second,
indented line, as `(crit = X, hyst = Y)` or `(crit = X)`. -/
theorem print_chip_temp_max_only (g : Globals) (name : sensors_chip_name)
    (feature : sensors_feature) (label_size : Int) (label : String) (sfmax : sensors_subfeature)
    (hl : sensors_get_label name feature = some label)
    (hmax : sensors_get_subfeature name feature SENSORS_SUBFEATURE_TEMP_MAX = some sfmax)
    (hmin : sensors_get_subfeature name feature SENSORS_SUBFEATURE_TEMP_MIN = none) :
    shown_limits (first_line (print_chip_temp g name feature label_size).stdout) =
      (match sensors_get_subfeature name feature SENSORS_SUBFEATURE_TEMP_MAX_HYST,
          sensors_get_subfeature name feature SENSORS_SUBFEATURE_TEMP_CRIT with
        | some sfhyst, _ => [shown_limit g name "high" sfmax, shown_limit g name "hyst" sfhyst]
        | none, some sfcrit =>
          [shown_limit g name "high" sfmax, shown_limit g name "crit" sfcrit]
        | none, none => [shown_limit g name "high" sfmax]) ∧
    limits_text g (shown_limits (first_line (print_chip_temp g name feature label_size).stdout))
      <:+: first_line (print_chip_temp g name feature label_size).stdout ∧
    shown_limits (second_line (print_chip_temp g name feature label_size).stdout) =
      (match sensors_get_subfeature name feature SENSORS_SUBFEATURE_TEMP_MAX_HYST,
          sensors_get_subfeature name feature SENSORS_SUBFEATURE_TEMP_CRIT,
          sensors_get_subfeature name feature SENSORS_SUBFEATURE_TEMP_CRIT_HYST with
        | some _, some sfcrit, some sfch =>
          [shown_limit g name "crit" sfcrit, shown_limit g name "hyst" sfch]
        | some _, some sfcrit, none => [shown_limit g name "crit" sfcrit]
        | _, _, _ => []) ∧
    ((sensors_get_subfeature name feature SENSORS_SUBFEATURE_TEMP_MAX_HYST).isSome →
      (sensors_get_subfeature name feature SENSORS_SUBFEATURE_TEMP_CRIT).isSome →
      (Piece.str false (label_size + 10) "" :: limits_text g (shown_limits
          (second_line (print_chip_temp g name feature label_size).stdout)))
        <+: second_line (print_chip_temp g name feature label_size).stdout) := by
  refine ⟨?_, limits_text_within_first_line g name feature label_size label hl, ?_, ?_⟩
  · rw [shown_limits_first_line g name feature label_size label hl]
    unfold temp_primary_limits
    rw [shown_limits_print_temp_limits]
    cases hh : sensors_get_subfeature name feature SENSORS_SUBFEATURE_TEMP_MAX_HYST <;>
      cases hc : sensors_get_subfeature name feature SENSORS_SUBFEATURE_TEMP_CRIT <;>
      simp [temp_primary, temp_select_limits, hmax, hmin, hh, hc, shown_limit, cstr]
  · rw [shown_limits_second_line g name feature label_size label hl]
    cases hh : sensors_get_subfeature name feature SENSORS_SUBFEATURE_TEMP_MAX_HYST <;>
      cases hc : sensors_get_subfeature name feature SENSORS_SUBFEATURE_TEMP_CRIT <;>
      cases hch : sensors_get_subfeature name feature SENSORS_SUBFEATURE_TEMP_CRIT_HYST <;>
      simp [temp_second_line, temp_primary, temp_select_limits, hmax, hmin, hh, hc, hch,
        shown_limit, temp_crit_limits, shown_limits_print_temp_limits, temp_crit_hyst_val, cstr]
  · intro hh hc
    obtain ⟨sfhyst, hh⟩ := Option.isSome_iff_exists.mp hh
    obtain ⟨sfcrit, hc⟩ := Option.isSome_iff_exists.mp hc
    have h2 : temp_second_line g name feature = true := by
      simp [temp_second_line, temp_primary, temp_select_limits, hmax, hmin, hh, hc]
    rw [shown_limits_second_line g name feature label_size label hl,
      second_line_print_chip_temp g name feature label_size label hl, h2, hc]
    simp only []
    unfold temp_crit_limits
    have h := print_temp_limits_eq_text g (get_value g name sfcrit.number).val
      (temp_crit_hyst g name
        (sensors_get_subfeature name feature SENSORS_SUBFEATURE_TEMP_CRIT_HYST)).val.1
      (some "crit")
      (temp_crit_hyst g name
        (sensors_get_subfeature name feature SENSORS_SUBFEATURE_TEMP_CRIT_HYST)).val.2
      (sf_and_value g name
        (sensors_get_subfeature name feature SENSORS_SUBFEATURE_TEMP_CRIT_ALARM)).val (by simp)
    generalize (print_temp_limits g (get_value g name sfcrit.number).val
      (temp_crit_hyst g name
        (sensors_get_subfeature name feature SENSORS_SUBFEATURE_TEMP_CRIT_HYST)).val.1
      (some "crit")
      (temp_crit_hyst g name
        (sensors_get_subfeature name feature SENSORS_SUBFEATURE_TEMP_CRIT_HYST)).val.2
      (sf_and_value g name
        (sensors_get_subfeature name feature SENSORS_SUBFEATURE_TEMP_CRIT_ALARM)).val).stdout
      = L at h ⊢
    refine ⟨(if (sf_and_value g name
        (sensors_get_subfeature name feature SENSORS_SUBFEATURE_TEMP_CRIT_ALARM)).val
      then [Piece.lit "ALARM  "] else []) ++ (temp_sensor_type g name feature).stdout, ?_⟩
    rw [List.cons_append, ← List.append_assoc, ← h]

/-- C1 at a sample feature with max 80, max hysteresis 75 and critical bound 100, and,
with the Fahrenheit preference set, at a sample feature with max 100 alone. -/
theorem print_chip_temp_max_only_witness :
    shown_limits (first_line (print_chip_temp gC chipA featA 12).stdout) =
      [("high", 80), ("hyst", 75)] ∧
    shown_limits (second_line (print_chip_temp gC chipA featA 12).stdout) = [("crit", 100)] ∧
    shown_limits (first_line (print_chip_temp gF chipT featT 12).stdout) =
      [("high", 212 - 5 / 1048576)] :=
  have h := print_chip_temp_max_only gC chipA featA 12 "temp1"
    ⟨"temp1_max", 2, SENSORS_SUBFEATURE_TEMP_MAX, true⟩ (by decide) (by decide) (by decide)
  have hF := print_chip_temp_max_only gF chipT featT 12 "temp1"
    ⟨"temp1_max", 2, SENSORS_SUBFEATURE_TEMP_MAX, true⟩ (by decide) (by decide) (by decide)
  ⟨h.1.trans (by decide), h.2.2.1.trans (by decide),
    hF.1.trans ((show _ = [("high", deg_ctof 100)] from rfl).trans (by rw [deg_ctof_100]))⟩

/-- C2: for a temperature feature with both a min bound and a max bound, the primary
line shows exactly the pair `(low = min, high = max)`, `low` before `high`, whatever
hysteresis or critical sub-readings the feature has; the names `hyst` and `crit` are
not on the primary line. -/
theorem print_chip_temp_min_max (g : Globals) (name : sensors_chip_name)
    (feature : sensors_feature) (label_size : Int) (label : String)
    (sfmin sfmax : sensors_subfeature)
    (hl : sensors_get_label name feature = some label)
    (hmin : sensors_get_subfeature name feature SENSORS_SUBFEATURE_TEMP_MIN = some sfmin)
    (hmax : sensors_get_subfeature name feature SENSORS_SUBFEATURE_TEMP_MAX = some sfmax) :
    shown_limits (first_line (print_chip_temp g name feature label_size).stdout) =
      [shown_limit g name "low" sfmin, shown_limit g name "high" sfmax] ∧
    limits_text g [shown_limit g name "low" sfmin, shown_limit g name "high" sfmax]
      <:+: first_line (print_chip_temp g name feature label_size).stdout ∧
    "hyst" ∉ shown_names (first_line (print_chip_temp g name feature label_size).stdout) ∧
    "crit" ∉ shown_names (first_line (print_chip_temp g name feature label_size).stdout) := by
  have h1 : shown_limits (first_line (print_chip_temp g name feature label_size).stdout) =
      [shown_limit g name "low" sfmin, shown_limit g name "high" sfmax] := by
    rw [shown_limits_first_line g name feature label_size label hl]
    unfold temp_primary_limits
    rw [shown_limits_print_temp_limits]
    simp [temp_primary, temp_select_limits, hmax, hmin, shown_limit, cstr]
  have h2 := limits_text_within_first_line g name feature label_size label hl
  rw [h1] at h2
  have h3 : shown_names (first_line (print_chip_temp g name feature label_size).stdout) =
      ["low", "high"] := by
    rw [first_line_print_chip_temp g name feature label_size label hl]
    have hn : shown_names (if temp_second_line g name feature then []
        else (temp_sensor_type g name feature).stdout) = [] := by
      split
      · rfl
      · exact shown_names_temp_sensor_type g name feature
    rw [shown_names_append, shown_names_append, shown_names_append,
      shown_names_temp_value_field, hn]
    unfold temp_primary_limits
    rw [print_temp_limits_stdout]
    cases (temp_primary g name feature).alarm <;>
      simp [temp_primary, temp_select_limits, hmax, hmin, shown_names, cstr]
  refine ⟨h1, h2, ?_, ?_⟩ <;> rw [h3] <;> decide

/-- C2 at a sample feature with min 10, max 80, max hysteresis 75, critical bound 100
and critical hysteresis 95, and, with the Fahrenheit preference set, at a sample feature
with min 0 and max 100. -/
theorem print_chip_temp_min_max_witness :
    shown_limits (first_line (print_chip_temp gC chipB featB 12).stdout) =
      [("low", 10), ("high", 80)] ∧
    shown_limits (first_line (print_chip_temp gF chipT featT2 12).stdout) =
      [("low", 32), ("high", 212 - 5 / 1048576)] :=
  ⟨(print_chip_temp_min_max gC chipB featB 12 "Core 0"
      ⟨"temp1_min", 5, SENSORS_SUBFEATURE_TEMP_MIN, true⟩
      ⟨"temp1_max", 2, SENSORS_SUBFEATURE_TEMP_MAX, true⟩
      (by decide) (by decide) (by decide)).1.trans (by decide),
    (print_chip_temp_min_max gF chipT featT2 12 "temp2"
      ⟨"temp2_min", 3, SENSORS_SUBFEATURE_TEMP_MIN, true⟩
      ⟨"temp2_max", 2, SENSORS_SUBFEATURE_TEMP_MAX, true⟩
      (by decide) (by decide) (by decide)).1.trans
      ((show _ = [("low", deg_ctof 0), ("high", deg_ctof 100)] from rfl).trans
        (by rw [deg_ctof_100, deg_ctof_0]))⟩

theorem line_count_append (xs ys : List Piece) :
    line_count (xs ++ ys) = line_count xs + line_count ys := by
  simp [line_count]

theorem line_count_eq_zero (xs : List Piece) (h : Piece.nl ∉ xs) : line_count xs = 0 := by
  simpa [line_count] using List.count_eq_zero.mpr h

/-- The second line is written exactly when a critical bound and a max bound exist
together with a min bound or a max hysteresis. -/
theorem temp_second_line_eq (g : Globals) (name : sensors_chip_name)
    (feature : sensors_feature) :
    temp_second_line g name feature =
      ((sensors_get_subfeature name feature SENSORS_SUBFEATURE_TEMP_CRIT).isSome &&
       (sensors_get_subfeature name feature SENSORS_SUBFEATURE_TEMP_MAX).isSome &&
       ((sensors_get_subfeature name feature SENSORS_SUBFEATURE_TEMP_MIN).isSome ||
        (sensors_get_subfeature name feature SENSORS_SUBFEATURE_TEMP_MAX_HYST).isSome)) := by
  unfold temp_second_line temp_primary temp_select_limits
  cases sensors_get_subfeature name feature SENSORS_SUBFEATURE_TEMP_MAX <;>
    cases sensors_get_subfeature name feature SENSORS_SUBFEATURE_TEMP_MIN <;>
    cases sensors_get_subfeature name feature SENSORS_SUBFEATURE_TEMP_CRIT <;>
    cases sensors_get_subfeature name feature SENSORS_SUBFEATURE_TEMP_MAX_HYST <;>
    simp

theorem shown_names_print_temp_limits (g : Globals) (limit1 limit2 : ℚ)
    (name1 name2 : Option String) (alarm : Bool) :
    shown_names (print_temp_limits g limit1 limit2 name1 name2 alarm).stdout =
      match name1, name2 with
      | _, some n2 => [cstr name1, n2]
      | some n1, none => [n1]
      | none, none => [] := by
  rw [print_temp_limits_stdout]
  cases name1 <;> cases name2 <;> cases alarm <;> simp [shown_names, cstr]

theorem shown_names_first_line (g : Globals) (name : sensors_chip_name)
    (feature : sensors_feature) (label_size : Int) (label : String)
    (hl : sensors_get_label name feature = some label) :
    shown_names (first_line (print_chip_temp g name feature label_size).stdout) =
      shown_names (temp_primary_limits g name feature) := by
  rw [first_line_print_chip_temp g name feature label_size label hl]
  have hn : shown_names (if temp_second_line g name feature then []
      else (temp_sensor_type g name feature).stdout) = [] := by
    split
    · rfl
    · exact shown_names_temp_sensor_type g name feature
  rw [shown_names_append, shown_names_append, shown_names_append,
    shown_names_temp_value_field, hn]
  simp [shown_names]

theorem shown_names_second_line (g : Globals) (name : sensors_chip_name)
    (feature : sensors_feature) (label_size : Int) (label : String)
    (hl : sensors_get_label name feature = some label) :
    shown_names (second_line (print_chip_temp g name feature label_size).stdout) =
      match temp_second_line g name feature,
        sensors_get_subfeature name feature SENSORS_SUBFEATURE_TEMP_CRIT with
      | true, some sfcrit => shown_names (temp_crit_limits g name feature sfcrit)
      | _, _ => [] := by
  rw [second_line_print_chip_temp g name feature label_size label hl]
  have hn : ∀ xs, shown_names (Piece.str false (label_size + 10) "" :: xs) = shown_names xs :=
    fun xs => by simp [shown_names]
  cases temp_second_line g name feature <;>
    cases sensors_get_subfeature name feature SENSORS_SUBFEATURE_TEMP_CRIT <;>
    simp only [hn, shown_names_append, shown_names_temp_sensor_type, List.append_nil] <;> rfl

theorem shown_names_temp_crit_line (g : Globals) (name : sensors_chip_name)
    (feature : sensors_feature) (label_size : Int) (crit_displayed : Bool)
    (sfcrit : Option sensors_subfeature) :
    shown_names (temp_crit_line g name feature label_size crit_displayed sfcrit).stdout =
      match crit_displayed, sfcrit with
      | false, some sfcrit => shown_names (temp_crit_limits g name feature sfcrit)
      | _, _ => [] := by
  rw [temp_crit_line_stdout]
  cases crit_displayed <;> cases sfcrit <;> rfl

theorem shown_names_stdout (g : Globals) (name : sensors_chip_name)
    (feature : sensors_feature) (label_size : Int) (label : String)
    (hl : sensors_get_label name feature = some label) :
    shown_names (print_chip_temp g name feature label_size).stdout =
      shown_names (temp_primary_limits g name feature) ++
      shown_names (temp_crit_line g name feature label_size
        (temp_primary g name feature).crit_displayed
        (sensors_get_subfeature name feature SENSORS_SUBFEATURE_TEMP_CRIT)).stdout := by
  rw [print_chip_temp_stdout g name feature label_size label hl]
  simp only [shown_names_append, shown_names_temp_value_field, shown_names_temp_sensor_type]
  simp [shown_names, temp_primary_limits]

theorem line_count_temp_crit_line (g : Globals) (name : sensors_chip_name)
    (feature : sensors_feature) (label_size : Int) :
    line_count (temp_crit_line g name feature label_size
      (temp_primary g name feature).crit_displayed
      (sensors_get_subfeature name feature SENSORS_SUBFEATURE_TEMP_CRIT)).stdout =
      if temp_second_line g name feature then 1 else 0 := by
  rw [temp_crit_line_stdout]
  unfold temp_second_line
  cases (temp_primary g name feature).crit_displayed <;>
    cases sensors_get_subfeature name feature SENSORS_SUBFEATURE_TEMP_CRIT <;>
    simp [line_count]
  have h := nl_not_mem_print_temp_limits
  rename_i sfcrit
  have h := line_count_eq_zero _ (nl_not_mem_print_temp_limits g
    (get_value g name sfcrit.number).val
    (temp_crit_hyst g name
      (sensors_get_subfeature name feature SENSORS_SUBFEATURE_TEMP_CRIT_HYST)).val.1
    (some "crit")
    (temp_crit_hyst g name
      (sensors_get_subfeature name feature SENSORS_SUBFEATURE_TEMP_CRIT_HYST)).val.2
    (sf_and_value g name
      (sensors_get_subfeature name feature SENSORS_SUBFEATURE_TEMP_CRIT_ALARM)).val)
  simpa [line_count] using h

theorem line_count_print_chip_temp (g : Globals) (name : sensors_chip_name)
    (feature : sensors_feature) (label_size : Int) (label : String)
    (hl : sensors_get_label name feature = some label) :
    line_count (print_chip_temp g name feature label_size).stdout =
      if temp_second_line g name feature then 2 else 1 := by
  rw [print_chip_temp_stdout g name feature label_size label hl]
  rw [line_count_append, line_count_append, line_count_append, line_count_append,
    line_count_append,
    line_count_eq_zero _ (nl_not_mem_temp_value_field _ _ _ _),
    line_count_eq_zero _ (nl_not_mem_print_temp_limits _ _ _ _ _ _),
    line_count_eq_zero _ (nl_not_mem_temp_sensor_type _ _ _),
    line_count_temp_crit_line]
  split <;> simp [line_count]

/-- C3: for a temperature feature whose label can be fetched, `print_chip_temp` writes
two lines exactly when the feature has a critical bound and a max bound and in addition
a min bound or a max hysteresis, and one line otherwise; the name `crit` is on the
second line in the first case, on the primary line when a critical bound exists in the
second case, and nowhere when no critical bound exists: an existing critical bound is
displayed exactly once. -/
theorem print_chip_temp_lines (g : Globals) (name : sensors_chip_name)
    (feature : sensors_feature) (label_size : Int) (label : String)
    (hl : sensors_get_label name feature = some label) :
    line_count (print_chip_temp g name feature label_size).stdout =
      (if ((sensors_get_subfeature name feature SENSORS_SUBFEATURE_TEMP_CRIT).isSome &&
        (sensors_get_subfeature name feature SENSORS_SUBFEATURE_TEMP_MAX).isSome &&
        ((sensors_get_subfeature name feature SENSORS_SUBFEATURE_TEMP_MIN).isSome ||
          (sensors_get_subfeature name feature SENSORS_SUBFEATURE_TEMP_MAX_HYST).isSome))
      then 2 else 1) ∧
    (shown_names (first_line (print_chip_temp g name feature label_size).stdout)).count "crit" =
      (if ((sensors_get_subfeature name feature SENSORS_SUBFEATURE_TEMP_CRIT).isSome &&
        !((sensors_get_subfeature name feature SENSORS_SUBFEATURE_TEMP_MAX).isSome &&
        ((sensors_get_subfeature name feature SENSORS_SUBFEATURE_TEMP_MIN).isSome ||
          (sensors_get_subfeature name feature SENSORS_SUBFEATURE_TEMP_MAX_HYST).isSome)))
      then 1 else 0) ∧
    (shown_names (second_line (print_chip_temp g name feature label_size).stdout)).count "crit" =
      (if ((sensors_get_subfeature name feature SENSORS_SUBFEATURE_TEMP_CRIT).isSome &&
        (sensors_get_subfeature name feature SENSORS_SUBFEATURE_TEMP_MAX).isSome &&
        ((sensors_get_subfeature name feature SENSORS_SUBFEATURE_TEMP_MIN).isSome ||
          (sensors_get_subfeature name feature SENSORS_SUBFEATURE_TEMP_MAX_HYST).isSome))
      then 1 else 0) ∧
    (shown_names (print_chip_temp g name feature label_size).stdout).count "crit" =
      (if (sensors_get_subfeature name feature SENSORS_SUBFEATURE_TEMP_CRIT).isSome
      then 1 else 0) := by
  refine ⟨?_, ?_, ?_, ?_⟩
  · rw [line_count_print_chip_temp g name feature label_size label hl, temp_second_line_eq]
  · rw [shown_names_first_line g name feature label_size label hl]
    unfold temp_primary_limits
    rw [shown_names_print_temp_limits]
    cases hmax : sensors_get_subfeature name feature SENSORS_SUBFEATURE_TEMP_MAX <;>
      cases hmin : sensors_get_subfeature name feature SENSORS_SUBFEATURE_TEMP_MIN <;>
      cases hc : sensors_get_subfeature name feature SENSORS_SUBFEATURE_TEMP_CRIT <;>
      cases hh : sensors_get_subfeature name feature SENSORS_SUBFEATURE_TEMP_MAX_HYST <;>
      cases hch : sensors_get_subfeature name feature SENSORS_SUBFEATURE_TEMP_CRIT_HYST <;>
      simp [temp_primary, temp_select_limits, temp_crit_hyst_val, hmax, hmin, hc, hh, hch, cstr]
  · rw [shown_names_second_line g name feature label_size label hl, temp_second_line_eq]
    unfold temp_crit_limits
    cases hmax : sensors_get_subfeature name feature SENSORS_SUBFEATURE_TEMP_MAX <;>
      cases hmin : sensors_get_subfeature name feature SENSORS_SUBFEATURE_TEMP_MIN <;>
      cases hc : sensors_get_subfeature name feature SENSORS_SUBFEATURE_TEMP_CRIT <;>
      cases hh : sensors_get_subfeature name feature SENSORS_SUBFEATURE_TEMP_MAX_HYST <;>
      cases hch : sensors_get_subfeature name feature SENSORS_SUBFEATURE_TEMP_CRIT_HYST <;>
      simp [shown_names_print_temp_limits, temp_crit_hyst_val, hch, cstr]
  · rw [shown_names_stdout g name feature label_size label hl, shown_names_temp_crit_line]
    unfold temp_primary_limits temp_crit_limits
    rw [shown_names_print_temp_limits]
    cases hmax : sensors_get_subfeature name feature SENSORS_SUBFEATURE_TEMP_MAX <;>
      cases hmin : sensors_get_subfeature name feature SENSORS_SUBFEATURE_TEMP_MIN <;>
      cases hc : sensors_get_subfeature name feature SENSORS_SUBFEATURE_TEMP_CRIT <;>
      cases hh : sensors_get_subfeature name feature SENSORS_SUBFEATURE_TEMP_MAX_HYST <;>
      cases hch : sensors_get_subfeature name feature SENSORS_SUBFEATURE_TEMP_CRIT_HYST <;>
      simp [temp_primary, temp_select_limits, shown_names_print_temp_limits,
        temp_crit_hyst_val, hmax, hmin, hc, hh, hch, cstr]

/-- C3 at a sample feature with every bound: two lines, `crit` on the second only. -/
theorem print_chip_temp_lines_witness :
    line_count (print_chip_temp gC chipB featB 12).stdout = 2 ∧
    (shown_names (first_line (print_chip_temp gC chipB featB 12).stdout)).count "crit" = 0 ∧
    (shown_names (second_line (print_chip_temp gC chipB featB 12).stdout)).count "crit" = 1 :=
  have h := print_chip_temp_lines gC chipB featB 12 "Core 0" (by decide)
  ⟨h.1.trans (by decide), h.2.1.trans (by decide), h.2.2.1.trans (by decide)⟩

theorem has_alarm_first_line (g : Globals) (name : sensors_chip_name)
    (feature : sensors_feature) (label_size : Int) (label : String)
    (hl : sensors_get_label name feature = some label) :
    has_alarm (first_line (print_chip_temp g name feature label_size).stdout) =
      (temp_primary g name feature).alarm := by
  rw [first_line_print_chip_temp g name feature label_size label hl]
  unfold has_alarm temp_primary_limits
  rw [temp_value_field_stdout, print_temp_limits_stdout, temp_sensor_type_stdout]
  cases (temp_primary g name feature).alarm <;>
    cases (temp_primary g name feature).s1 <;>
    cases (temp_primary g name feature).s2 <;>
    cases (sf_and_value g name
      (sensors_get_subfeature name feature SENSORS_SUBFEATURE_TEMP_FAULT)).val <;>
    cases temp_second_line g name feature <;>
    cases sensors_get_subfeature name feature SENSORS_SUBFEATURE_TEMP_TYPE <;>
    simp

/-! ### Two states of a chip that differ in one sub-reading -/

theorem get_value_congr (g : Globals) (name name' : sensors_chip_name) (n : Int)
    (h : name'.value n = name.value n) : get_value g name' n = get_value g name n := by
  unfold get_value sensors_get_value
  rw [h]

theorem sensors_get_subfeature_mem (name : sensors_chip_name) (feature : sensors_feature)
    (t : sensors_subfeature_type) (s : sensors_subfeature)
    (h : sensors_get_subfeature name feature t = some s) :
    s ∈ feature.subfeatures ∧ s.type = t := by
  unfold sensors_get_subfeature at h
  exact ⟨List.mem_of_find?_eq_some h, by simpa using List.find?_some h⟩

theorem sensors_get_subfeature_chip (name name' : sensors_chip_name)
    (feature : sensors_feature) (t : sensors_subfeature_type) :
    sensors_get_subfeature name' feature t = sensors_get_subfeature name feature t := rfl

theorem get_value_sub_congr (g : Globals) (name name' : sensors_chip_name)
    (feature : sensors_feature) (t0 t : sensors_subfeature_type) (s : sensors_subfeature)
    (h : same_except name name' feature t0) (ht : t ≠ t0)
    (hs : sensors_get_subfeature name feature t = some s) :
    get_value g name' s.number = get_value g name s.number := by
  obtain ⟨hm, hty⟩ := sensors_get_subfeature_mem name feature t s hs
  exact get_value_congr g name name' s.number (h s hm (by rw [hty]; exact ht))

theorem sf_and_value_congr (g : Globals) (name name' : sensors_chip_name)
    (feature : sensors_feature) (t0 t : sensors_subfeature_type)
    (h : same_except name name' feature t0) (ht : t ≠ t0) :
    sf_and_value g name' (sensors_get_subfeature name feature t) =
      sf_and_value g name (sensors_get_subfeature name feature t) := by
  cases hs : sensors_get_subfeature name feature t with
  | none => rfl
  | some s =>
    simp only [sf_and_value]
    rw [get_value_sub_congr g name name' feature t0 t s h ht hs]

theorem sf_value_or_zero_congr (g : Globals) (name name' : sensors_chip_name)
    (feature : sensors_feature) (t0 t : sensors_subfeature_type)
    (h : same_except name name' feature t0) (ht : t ≠ t0) :
    sf_value_or_zero g name' (sensors_get_subfeature name feature t) =
      sf_value_or_zero g name (sensors_get_subfeature name feature t) := by
  cases hs : sensors_get_subfeature name feature t with
  | none => rfl
  | some s =>
    simp only [sf_value_or_zero]
    rw [get_value_sub_congr g name name' feature t0 t s h ht hs]

theorem temp_crit_hyst_congr (g : Globals) (name name' : sensors_chip_name)
    (feature : sensors_feature) (t0 : sensors_subfeature_type)
    (h : same_except name name' feature t0) (ht : SENSORS_SUBFEATURE_TEMP_CRIT_HYST ≠ t0) :
    temp_crit_hyst g name'
        (sensors_get_subfeature name feature SENSORS_SUBFEATURE_TEMP_CRIT_HYST) =
      temp_crit_hyst g name
        (sensors_get_subfeature name feature SENSORS_SUBFEATURE_TEMP_CRIT_HYST) := by
  cases hs : sensors_get_subfeature name feature SENSORS_SUBFEATURE_TEMP_CRIT_HYST with
  | none => rfl
  | some s =>
    simp only [temp_crit_hyst]
    rw [get_value_sub_congr g name name' feature t0 _ s h ht hs]

theorem temp_primary_congr (g : Globals) (name name' : sensors_chip_name)
    (feature : sensors_feature)
    (h : same_except name name' feature SENSORS_SUBFEATURE_TEMP_FAULT) :
    temp_primary g name' feature = temp_primary g name feature := by
  unfold temp_primary temp_select_limits
  simp only [sensors_get_subfeature_chip name name']
  cases hmax : sensors_get_subfeature name feature SENSORS_SUBFEATURE_TEMP_MAX <;>
    cases hmin : sensors_get_subfeature name feature SENSORS_SUBFEATURE_TEMP_MIN <;>
    cases hc : sensors_get_subfeature name feature SENSORS_SUBFEATURE_TEMP_CRIT <;>
    cases hh : sensors_get_subfeature name feature SENSORS_SUBFEATURE_TEMP_MAX_HYST <;>
    simp only [hh,
      sf_and_value_congr g name name' feature _ SENSORS_SUBFEATURE_TEMP_ALARM h (by decide),
      sf_and_value_congr g name name' feature _ SENSORS_SUBFEATURE_TEMP_MAX_ALARM h (by decide),
      sf_and_value_congr g name name' feature _ SENSORS_SUBFEATURE_TEMP_MIN_ALARM h (by decide),
      sf_and_value_congr g name name' feature _ SENSORS_SUBFEATURE_TEMP_CRIT_ALARM h (by decide),
      temp_crit_hyst_congr g name name' feature _ h (by decide)] <;>
    (try rw [get_value_sub_congr g name name' feature _ _ _ h (by decide) hmax]) <;>
    (try rw [get_value_sub_congr g name name' feature _ _ _ h (by decide) hmin]) <;>
    (try rw [get_value_sub_congr g name name' feature _ _ _ h (by decide) hc]) <;>
    (try rw [get_value_sub_congr g name name' feature _ _ _ h (by decide) hh])

theorem temp_crit_line_congr (g : Globals) (name name' : sensors_chip_name)
    (feature : sensors_feature) (label_size : Int) (cd : Bool)
    (h : same_except name name' feature SENSORS_SUBFEATURE_TEMP_FAULT) :
    (temp_crit_line g name' feature label_size cd
        (sensors_get_subfeature name' feature SENSORS_SUBFEATURE_TEMP_CRIT)).stdout =
      (temp_crit_line g name feature label_size cd
        (sensors_get_subfeature name feature SENSORS_SUBFEATURE_TEMP_CRIT)).stdout := by
  rw [temp_crit_line_stdout, temp_crit_line_stdout]
  simp only [sensors_get_subfeature_chip name name']
  cases cd <;>
    cases hc : sensors_get_subfeature name feature SENSORS_SUBFEATURE_TEMP_CRIT <;>
    simp only []
  rw [get_value_sub_congr g name name' feature _ _ _ h (by decide) hc,
    temp_crit_hyst_congr g name name' feature _ h (by decide),
    sf_and_value_congr g name name' feature _ SENSORS_SUBFEATURE_TEMP_CRIT_ALARM h (by decide)]

theorem temp_sensor_type_congr (g : Globals) (name name' : sensors_chip_name)
    (feature : sensors_feature)
    (h : same_except name name' feature SENSORS_SUBFEATURE_TEMP_FAULT) :
    (temp_sensor_type g name' feature).stdout = (temp_sensor_type g name feature).stdout := by
  rw [temp_sensor_type_stdout, temp_sensor_type_stdout]
  simp only [sensors_get_subfeature_chip name name']
  cases hc : sensors_get_subfeature name feature SENSORS_SUBFEATURE_TEMP_TYPE <;> simp only []
  rw [get_value_sub_congr g name name' feature _ _ _ h (by decide) hc]

/-- A raised temperature fault flag replaces the value field and nothing else. -/
theorem print_chip_temp_fault_aux (g : Globals) (name name' : sensors_chip_name)
    (feature : sensors_feature) (label_size : Int) (label : String)
    (sffault : sensors_subfeature)
    (hl : sensors_get_label name feature = some label)
    (hsf : sensors_get_subfeature name feature SENSORS_SUBFEATURE_TEMP_FAULT = some sffault)
    (hfault : (get_value g name sffault.number).val ≠ 0)
    (hfault' : (get_value g name' sffault.number).val = 0)
    (hsame : same_except name name' feature SENSORS_SUBFEATURE_TEMP_FAULT) :
    ∃ tail : List Piece,
      (print_chip_temp g name feature label_size).stdout =
        (print_label label label_size).stdout ++ ([Piece.lit "   FAULT  "] ++ tail) ∧
      (print_chip_temp g name' feature label_size).stdout =
        (print_label label label_size).stdout ++
          ([Piece.flt true 6 1 (shown_temp g (sf_value_or_zero g name
              (sensors_get_subfeature name feature SENSORS_SUBFEATURE_TEMP_INPUT)).val),
            Piece.str false 0 g.degstr, Piece.lit "  "] ++ tail) := by
  have hl' : sensors_get_label name' feature = some label := hl
  refine ⟨temp_primary_limits g name feature ++
    ((temp_crit_line g name feature label_size (temp_primary g name feature).crit_displayed
      (sensors_get_subfeature name feature SENSORS_SUBFEATURE_TEMP_CRIT)).stdout ++
    ((temp_sensor_type g name feature).stdout ++ [Piece.nl])), ?_, ?_⟩
  · rw [print_chip_temp_stdout g name feature label_size label hl, temp_value_field_stdout]
    simp [hsf, sf_and_value, hfault, print_label, temp_primary_limits]
  · rw [print_chip_temp_stdout g name' feature label_size label hl', temp_value_field_stdout,
      temp_primary_congr g name name' feature hsame,
      temp_crit_line_congr g name name' feature label_size _ hsame,
      temp_sensor_type_congr g name name' feature hsame]
    simp only [sensors_get_subfeature_chip name name']
    rw [sf_value_or_zero_congr g name name' feature _ SENSORS_SUBFEATURE_TEMP_INPUT hsame
      (by decide)]
    simp [hsf, sf_and_value, hfault', print_label, temp_primary_limits]

/-- The standard output of `print_chip_fan` for a feature with a label, field by field. -/
theorem print_chip_fan_stdout (g : Globals) (name : sensors_chip_name)
    (feature : sensors_feature) (label_size : Int) (label : String)
    (hl : sensors_get_label name feature = some label) :
    (print_chip_fan g name feature label_size).stdout =
      (print_label label label_size).stdout ++
      ((if (sf_and_value g name
            (sensors_get_subfeature name feature SENSORS_SUBFEATURE_FAN_FAULT)).val
        then [Piece.lit "   FAULT"]
        else [Piece.flt false 4 0 (sf_value_or_zero g name
            (sensors_get_subfeature name feature SENSORS_SUBFEATURE_FAN_INPUT)).val,
          Piece.lit " RPM"]) ++
      ((fan_limits g name feature).stdout ++
      ((if (sf_and_value g name
            (sensors_get_subfeature name feature SENSORS_SUBFEATURE_FAN_ALARM)).val
        then [Piece.lit "  ALARM"] else []) ++ [Piece.nl]))) := by
  simp only [print_chip_fan, hl, W.bind_stdout, sf_value_or_zero_stdout, sf_and_value_stdout,
    List.nil_append, W.bind_val, printf_stdout, List.append_assoc]
  by_cases hf : (sf_and_value g name
      (sensors_get_subfeature name feature SENSORS_SUBFEATURE_FAN_FAULT)).val = true <;>
    by_cases ha : (sf_and_value g name
      (sensors_get_subfeature name feature SENSORS_SUBFEATURE_FAN_ALARM)).val = true <;>
    simp [hf, ha]

theorem fan_limits_stdout (g : Globals) (name : sensors_chip_name)
    (feature : sensors_feature) :
    (fan_limits g name feature).stdout =
      match sensors_get_subfeature name feature SENSORS_SUBFEATURE_FAN_MIN,
        sensors_get_subfeature name feature SENSORS_SUBFEATURE_FAN_DIV with
      | some sfmin, some sfdiv =>
        [.lit "  (min = ", .flt false 4 0 (get_value g name sfmin.number).val,
          .lit " RPM, div = ", .flt false 1 0 (get_value g name sfdiv.number).val, .lit ")"]
      | some sfmin, none =>
        [.lit "  (min = ", .flt false 4 0 (get_value g name sfmin.number).val, .lit " RPM)"]
      | none, some sfdiv =>
        [.lit "  (div = ", .flt false 1 0 (get_value g name sfdiv.number).val, .lit ")"]
      | none, none => [] := by
  unfold fan_limits
  cases sensors_get_subfeature name feature SENSORS_SUBFEATURE_FAN_MIN <;>
    cases sensors_get_subfeature name feature SENSORS_SUBFEATURE_FAN_DIV <;>
    simp

theorem fan_limits_congr (g : Globals) (name name' : sensors_chip_name)
    (feature : sensors_feature)
    (h : same_except name name' feature SENSORS_SUBFEATURE_FAN_FAULT) :
    (fan_limits g name' feature).stdout = (fan_limits g name feature).stdout := by
  rw [fan_limits_stdout, fan_limits_stdout]
  simp only [sensors_get_subfeature_chip name name']
  cases hmin : sensors_get_subfeature name feature SENSORS_SUBFEATURE_FAN_MIN <;>
    cases hdiv : sensors_get_subfeature name feature SENSORS_SUBFEATURE_FAN_DIV <;>
    simp only [] <;>
    (try rw [get_value_sub_congr g name name' feature _ _ _ h (by decide) hmin]) <;>
    (try rw [get_value_sub_congr g name name' feature _ _ _ h (by decide) hdiv])

/-- A raised fan fault flag replaces the value field and nothing else. -/
theorem print_chip_fan_fault_aux (g : Globals) (name name' : sensors_chip_name)
    (feature : sensors_feature) (label_size : Int) (label : String)
    (sffault : sensors_subfeature)
    (hl : sensors_get_label name feature = some label)
    (hsf : sensors_get_subfeature name feature SENSORS_SUBFEATURE_FAN_FAULT = some sffault)
    (hfault : (get_value g name sffault.number).val ≠ 0)
    (hfault' : (get_value g name' sffault.number).val = 0)
    (hsame : same_except name name' feature SENSORS_SUBFEATURE_FAN_FAULT) :
    ∃ tail : List Piece,
      (print_chip_fan g name feature label_size).stdout =
        (print_label label label_size).stdout ++ ([Piece.lit "   FAULT"] ++ tail) ∧
      (print_chip_fan g name' feature label_size).stdout =
        (print_label label label_size).stdout ++
          ([Piece.flt false 4 0 (sf_value_or_zero g name
              (sensors_get_subfeature name feature SENSORS_SUBFEATURE_FAN_INPUT)).val,
            Piece.lit " RPM"] ++ tail) := by
  have hl' : sensors_get_label name' feature = some label := hl
  refine ⟨(fan_limits g name feature).stdout ++
    ((if (sf_and_value g name
        (sensors_get_subfeature name feature SENSORS_SUBFEATURE_FAN_ALARM)).val
      then [Piece.lit "  ALARM"] else []) ++ [Piece.nl]), ?_, ?_⟩
  · rw [print_chip_fan_stdout g name feature label_size label hl]
    simp [hsf, sf_and_value, hfault]
  · rw [print_chip_fan_stdout g name' feature label_size label hl',
      fan_limits_congr g name name' feature hsame]
    simp only [sensors_get_subfeature_chip name name']
    simp only [sf_value_or_zero_congr g name name' feature _ SENSORS_SUBFEATURE_FAN_INPUT hsame
        (by decide),
      sf_and_value_congr g name name' feature _ SENSORS_SUBFEATURE_FAN_ALARM hsame (by decide)]
    simp [hsf, sf_and_value, hfault']

/-- C5: when the fault sub-reading of a temperature or fan feature exists and is
truthy, the renderer prints the token `FAULT` in place of the numeric reading, and
everything after the value field is what it prints for the same feature in a chip state
where only the fault flag differs and is falsy. -/
theorem fault_replaces_value :
    (∀ (g : Globals) (name name' : sensors_chip_name) (feature : sensors_feature)
      (label_size : Int) (label : String) (sffault : sensors_subfeature),
      sensors_get_label name feature = some label →
      sensors_get_subfeature name feature SENSORS_SUBFEATURE_TEMP_FAULT = some sffault →
      (get_value g name sffault.number).val ≠ 0 →
      (get_value g name' sffault.number).val = 0 →
      same_except name name' feature SENSORS_SUBFEATURE_TEMP_FAULT →
      ∃ tail : List Piece,
        (print_chip_temp g name feature label_size).stdout =
          (print_label label label_size).stdout ++ ([Piece.lit "   FAULT  "] ++ tail) ∧
        (print_chip_temp g name' feature label_size).stdout =
          (print_label label label_size).stdout ++
            ([Piece.flt true 6 1 (shown_temp g (sf_value_or_zero g name
                (sensors_get_subfeature name feature SENSORS_SUBFEATURE_TEMP_INPUT)).val),
              Piece.str false 0 g.degstr, Piece.lit "  "] ++ tail)) ∧
    (∀ (g : Globals) (name name' : sensors_chip_name) (feature : sensors_feature)
      (label_size : Int) (label : String) (sffault : sensors_subfeature),
      sensors_get_label name feature = some label →
      sensors_get_subfeature name feature SENSORS_SUBFEATURE_FAN_FAULT = some sffault →
      (get_value g name sffault.number).val ≠ 0 →
      (get_value g name' sffault.number).val = 0 →
      same_except name name' feature SENSORS_SUBFEATURE_FAN_FAULT →
      ∃ tail : List Piece,
        (print_chip_fan g name feature label_size).stdout =
          (print_label label label_size).stdout ++ ([Piece.lit "   FAULT"] ++ tail) ∧
        (print_chip_fan g name' feature label_size).stdout =
          (print_label label label_size).stdout ++
            ([Piece.flt false 4 0 (sf_value_or_zero g name
                (sensors_get_subfeature name feature SENSORS_SUBFEATURE_FAN_INPUT)).val,
              Piece.lit " RPM"] ++ tail)) :=
  ⟨print_chip_temp_fault_aux, print_chip_fan_fault_aux⟩

theorem same_except_chipD_temp :
    same_except chipD chipD' featD SENSORS_SUBFEATURE_TEMP_FAULT := by
  intro s hs ht
  simp only [featD, List.mem_cons, List.mem_singleton, List.not_mem_nil, or_false] at hs
  rcases hs with rfl | rfl | rfl
  · rfl
  · rfl
  · exact absurd rfl ht

theorem same_except_chipD_fan :
    same_except chipD chipD' featF SENSORS_SUBFEATURE_FAN_FAULT := by
  intro s hs ht
  simp only [featF, List.mem_cons, List.mem_singleton, List.not_mem_nil, or_false] at hs
  rcases hs with rfl | rfl | rfl
  · rfl
  · rfl
  · exact absurd rfl ht

/-- C5 at a sample chip with a temperature and a fan feature, fault flag raised and down. -/
theorem fault_replaces_value_witness :
    (∃ tail : List Piece,
      (print_chip_temp gC chipD featD 12).stdout =
        (print_label "temp3" 12).stdout ++ ([Piece.lit "   FAULT  "] ++ tail) ∧
      (print_chip_temp gC chipD' featD 12).stdout =
        (print_label "temp3" 12).stdout ++
          ([Piece.flt true 6 1 (shown_temp gC (sf_value_or_zero gC chipD
              (sensors_get_subfeature chipD featD SENSORS_SUBFEATURE_TEMP_INPUT)).val),
            Piece.str false 0 gC.degstr, Piece.lit "  "] ++ tail)) ∧
    (∃ tail : List Piece,
      (print_chip_fan gC chipD featF 12).stdout =
        (print_label "fan1" 12).stdout ++ ([Piece.lit "   FAULT"] ++ tail) ∧
      (print_chip_fan gC chipD' featF 12).stdout =
        (print_label "fan1" 12).stdout ++
          ([Piece.flt false 4 0 (sf_value_or_zero gC chipD
              (sensors_get_subfeature chipD featF SENSORS_SUBFEATURE_FAN_INPUT)).val,
            Piece.lit " RPM"] ++ tail)) :=
  ⟨fault_replaces_value.1 gC chipD chipD' featD 12 "temp3"
      ⟨"temp3_fault", 9, SENSORS_SUBFEATURE_TEMP_FAULT, true⟩
      (by decide) (by decide) (by decide) (by decide) same_except_chipD_temp,
    fault_replaces_value.2 gC chipD chipD' featF 12 "fan1"
      ⟨"fan1_fault", 9, SENSORS_SUBFEATURE_FAN_FAULT, true⟩
      (by decide) (by decide) (by decide) (by decide) same_except_chipD_fan⟩

/-- The standard output of `print_chip_in` for a feature with a label, field by field. -/
theorem print_chip_in_stdout (g : Globals) (name : sensors_chip_name)
    (feature : sensors_feature) (label_size : Int) (label : String)
    (hl : sensors_get_label name feature = some label) :
    (print_chip_in g name feature label_size).stdout =
      (print_label label label_size).stdout ++
      ([Piece.flt true 6 2 (sf_value_or_zero g name
          (sensors_get_subfeature name feature SENSORS_SUBFEATURE_IN_INPUT)).val,
        Piece.lit " V"] ++
      ((in_limits g name feature).stdout ++
      ((in_alarms g name feature).stdout ++ [Piece.nl]))) := by
  simp [print_chip_in, hl]

theorem in_alarms_stdout (g : Globals) (name : sensors_chip_name) (feature : sensors_feature) :
    (in_alarms g name feature).stdout =
      if (sensors_get_subfeature name feature SENSORS_SUBFEATURE_IN_MIN_ALARM).isSome ||
          (sensors_get_subfeature name feature SENSORS_SUBFEATURE_IN_MAX_ALARM).isSome then
        (if (sf_value_or_zero g name
              (sensors_get_subfeature name feature SENSORS_SUBFEATURE_IN_MIN_ALARM)).val ≠ 0 then
          (if (sf_value_or_zero g name
                (sensors_get_subfeature name feature SENSORS_SUBFEATURE_IN_MAX_ALARM)).val ≠ 0
            then [.lit " ALARM (", .lit "MIN", .str false 0 ", ", .lit "MAX", .lit ")"]
            else [.lit " ALARM (", .lit "MIN", .lit ")"])
        else
          (if (sf_value_or_zero g name
                (sensors_get_subfeature name feature SENSORS_SUBFEATURE_IN_MAX_ALARM)).val ≠ 0
            then [.lit " ALARM (", .str false 0 "", .lit "MAX", .lit ")"]
            else []))
      else
        match sensors_get_subfeature name feature SENSORS_SUBFEATURE_IN_ALARM with
        | some sf =>
          [.lit "   ",
        .str false 0 (if (get_value g name sf.number).val ≠ 0 then "ALARM" else "")]
        | none => [] := by
  unfold in_alarms
  by_cases h1 : ((sensors_get_subfeature name feature SENSORS_SUBFEATURE_IN_MIN_ALARM).isSome ||
      (sensors_get_subfeature name feature SENSORS_SUBFEATURE_IN_MAX_ALARM).isSome) = true
  · by_cases h2 : (sf_value_or_zero g name
        (sensors_get_subfeature name feature SENSORS_SUBFEATURE_IN_MIN_ALARM)).val = 0 <;>
      by_cases h3 : (sf_value_or_zero g name
        (sensors_get_subfeature name feature SENSORS_SUBFEATURE_IN_MAX_ALARM)).val = 0 <;>
      simp [h1, h2, h3]
  · cases h4 : sensors_get_subfeature name feature SENSORS_SUBFEATURE_IN_ALARM <;>
      simp [h1, h4]

/-- C6: for a voltage feature with a min-alarm or a max-alarm sub-reading (an absent one
counting as zero), `print_chip_in` writes, between the limits and the newline, exactly
` ALARM (MIN)`, ` ALARM (MAX)`, ` ALARM (MIN, MAX)` or nothing, according to which of the
two alarms are non-zero, whatever the combined alarm sub-reading; a feature with no
alarm sub-reading at all gets no alarm text. -/
theorem print_chip_in_alarm_text (g : Globals) (name : sensors_chip_name)
    (feature : sensors_feature) (label_size : Int) (label : String)
    (hl : sensors_get_label name feature = some label) :
    (print_chip_in g name feature label_size).stdout =
      (print_label label label_size).stdout ++
      ([Piece.flt true 6 2 (sf_value_or_zero g name
          (sensors_get_subfeature name feature SENSORS_SUBFEATURE_IN_INPUT)).val,
        Piece.lit " V"] ++
      ((in_limits g name feature).stdout ++
      ((in_alarms g name feature).stdout ++ [Piece.nl]))) ∧
    (((sensors_get_subfeature name feature SENSORS_SUBFEATURE_IN_MIN_ALARM).isSome ∨
      (sensors_get_subfeature name feature SENSORS_SUBFEATURE_IN_MAX_ALARM).isSome) →
      ∀ fmt : Bool → Nat → Nat → ℚ → String,
        render fmt (in_alarms g name feature).stdout =
          if (sf_value_or_zero g name
              (sensors_get_subfeature name feature SENSORS_SUBFEATURE_IN_MIN_ALARM)).val ≠ 0 then
            (if (sf_value_or_zero g name
                (sensors_get_subfeature name feature SENSORS_SUBFEATURE_IN_MAX_ALARM)).val ≠ 0
              then " ALARM (MIN, MAX)" else " ALARM (MIN)")
          else
            (if (sf_value_or_zero g name
                (sensors_get_subfeature name feature SENSORS_SUBFEATURE_IN_MAX_ALARM)).val ≠ 0
              then " ALARM (MAX)" else "")) ∧
    (sensors_get_subfeature name feature SENSORS_SUBFEATURE_IN_MIN_ALARM = none →
      sensors_get_subfeature name feature SENSORS_SUBFEATURE_IN_MAX_ALARM = none →
      sensors_get_subfeature name feature SENSORS_SUBFEATURE_IN_ALARM = none →
      (in_alarms g name feature).stdout = []) := by
  refine ⟨print_chip_in_stdout g name feature label_size label hl, ?_, ?_⟩
  · intro h fmt
    have h1 : ((sensors_get_subfeature name feature SENSORS_SUBFEATURE_IN_MIN_ALARM).isSome ||
        (sensors_get_subfeature name feature SENSORS_SUBFEATURE_IN_MAX_ALARM).isSome) = true := by
      simpa using h
    rw [in_alarms_stdout, if_pos h1]
    split <;> split <;> rfl
  · intro h1 h2 h3
    rw [in_alarms_stdout]
    simp [h1, h2, h3]

/-- C6 at a sample feature: min alarm raised, max alarm down, combined alarm raised. -/
theorem print_chip_in_alarm_text_witness :
    render (fun _ _ _ _ => "") (in_alarms gC chipV featV).stdout = " ALARM (MIN)" :=
  ((print_chip_in_alarm_text gC chipV featV 12 "in0" (by decide)).2.1
    (Or.inl (by decide)) _).trans (by decide)

theorem sensor_not_mem_temp_value_field (g : Globals) (name : sensors_chip_name)
    (feature : sensors_feature) (val : ℚ) :
    Piece.lit "sensor = " ∉ (temp_value_field g name feature val).stdout := by
  rw [temp_value_field_stdout]; split <;> simp

theorem sensor_not_mem_print_temp_limits (g : Globals) (limit1 limit2 : ℚ)
    (name1 name2 : Option String) (alarm : Bool) :
    Piece.lit "sensor = " ∉ (print_temp_limits g limit1 limit2 name1 name2 alarm).stdout := by
  rw [print_temp_limits_stdout]
  cases name1 <;> cases name2 <;> cases alarm <;> simp

theorem sensor_not_mem_temp_crit_line (g : Globals) (name : sensors_chip_name)
    (feature : sensors_feature) (label_size : Int) (crit_displayed : Bool)
    (sfcrit : Option sensors_subfeature) :
    Piece.lit "sensor = " ∉
      (temp_crit_line g name feature label_size crit_displayed sfcrit).stdout := by
  rw [temp_crit_line_stdout]
  cases crit_displayed <;> cases sfcrit <;>
    simp [sensor_not_mem_print_temp_limits]

theorem sensors_get_features_none (name : sensors_chip_name) (i : Nat)
    (h : name.features.length ≤ i) : sensors_get_features name i = none := by
  simp [sensors_get_features, List.getElem?_eq_none h]

theorem sensors_get_features_some (name : sensors_chip_name) (i : Nat)
    (h : i < name.features.length) :
    sensors_get_features name i = some (name.features[i], i + 1) := by
  simp [sensors_get_features, List.getElem?_eq_getElem h]

/-- The loop of `get_label_size` computes the maximum of the running maximum and the
lengths of the labels that can be fetched from index `i` on. -/
theorem get_label_size_loop_eq (name : sensors_chip_name) :
    ∀ (n i m : Nat), name.features.length - i = n →
      get_label_size_loop name i m =
        max m ((((name.features.drop i).filterMap fun f => sensors_get_label name f).map
          strlen).foldr max 0) := by
  intro n
  induction n with
  | zero =>
    intro i m h
    have hi : name.features.length ≤ i := by omega
    unfold get_label_size_loop
    split
    · simp [List.drop_eq_nil_of_le hi]
    · rename_i heq
      rw [sensors_get_features_none name i hi] at heq
      cases heq
  | succ n ih =>
    intro i m h
    have hi : i < name.features.length := by omega
    unfold get_label_size_loop
    split
    · rename_i heq
      rw [sensors_get_features_some name i hi] at heq
      cases heq
    · rename_i iter i' heq
      rw [sensors_get_features_some name i hi] at heq
      simp only [Option.some.injEq, Prod.mk.injEq] at heq
      obtain ⟨rfl, rfl⟩ := heq
      have hd : name.features.drop i = name.features[i] :: name.features.drop (i + 1) :=
        List.drop_eq_getElem_cons hi
      rw [hd]
      cases hlab : sensors_get_label name name.features[i] with
      | none =>
        simp only [List.filterMap_cons, hlab]
        exact ih (i + 1) m (by omega)
      | some label =>
        simp only [List.filterMap_cons, hlab, List.map_cons, List.foldr_cons]
        split
        · rw [ih (i + 1) (strlen label) (by omega)]
          omega
        · rw [ih (i + 1) m (by omega)]
          omega

/-- The loop of `print_chip` writes, from index `i` on, the output of the selected
renderer for each feature in order. -/
theorem print_chip_loop_stdout (g : Globals) (name : sensors_chip_name) (label_size : Int) :
    ∀ (n i : Nat), name.features.length - i = n →
      (print_chip_loop g name label_size i).stdout =
        (name.features.drop i).flatMap (renderer_stdout g name label_size) := by
  intro n
  induction n with
  | zero =>
    intro i h
    have hi : name.features.length ≤ i := by omega
    unfold print_chip_loop
    split
    · simp [List.drop_eq_nil_of_le hi]
    · rename_i heq
      rw [sensors_get_features_none name i hi] at heq
      cases heq
  | succ n ih =>
    intro i h
    have hi : i < name.features.length := by omega
    unfold print_chip_loop
    split
    · rename_i heq
      rw [sensors_get_features_some name i hi] at heq
      cases heq
    · rename_i feature i' heq
      rw [sensors_get_features_some name i hi] at heq
      simp only [Option.some.injEq, Prod.mk.injEq] at heq
      obtain ⟨rfl, rfl⟩ := heq
      rw [List.drop_eq_getElem_cons hi, List.flatMap_cons]
      have ih' := ih (i + 1) (by omega)
      cases ht : name.features[i].type <;> simp [renderer_stdout, ht, ih']

/-- C10: the standard output of `print_chip` is the concatenation, in the chip's feature
enumeration order, of the outputs of the renderer matching each feature's kind
(temperature, voltage, fan, VID, beep-enable), each called with the label width
`get_label_size name`; a feature of another kind contributes nothing and the iteration
goes on. -/
theorem print_chip_stdout (g : Globals) (name : sensors_chip_name) :
    (print_chip g name).stdout =
      name.features.flatMap fun feature =>
        match feature.type with
        | SENSORS_FEATURE_TEMP =>
          (print_chip_temp g name feature (get_label_size name)).stdout
        | SENSORS_FEATURE_IN => (print_chip_in g name feature (get_label_size name)).stdout
        | SENSORS_FEATURE_FAN => (print_chip_fan g name feature (get_label_size name)).stdout
        | SENSORS_FEATURE_VID => (print_chip_vid g name feature (get_label_size name)).stdout
        | SENSORS_FEATURE_BEEP_ENABLE =>
          (print_chip_beep_enable g name feature (get_label_size name)).stdout
        | SENSORS_FEATURE_UNKNOWN => [] := by
  have h := print_chip_loop_stdout g name (get_label_size name) _ 0 rfl
  simp only [List.drop_zero] at h
  exact h

theorem get_value_val (g : Globals) (name : sensors_chip_name) (n : Int) :
    (get_value g name n).val =
      match name.value n with
      | .ok v => v
      | .error _ => 0 := by
  unfold get_value sensors_get_value
  cases name.value n <;> simp

theorem get_value_val_zero (g : Globals) (name name' : sensors_chip_name)
    (h : failures_read_zero name name') (n : Int) :
    (get_value g name' n).val = (get_value g name n).val := by
  rw [get_value_val, get_value_val]
  rcases h n with h | ⟨err, h1, h2⟩
  · rw [h]
  · rw [h1, h2]

theorem sf_and_value_val (g : Globals) (name : sensors_chip_name)
    (sf : Option sensors_subfeature) :
    (sf_and_value g name sf).val =
      match sf with
      | some s => (get_value g name s.number).val != 0
      | none => false := by
  cases sf <;> simp [sf_and_value]

theorem sf_value_or_zero_val (g : Globals) (name : sensors_chip_name)
    (sf : Option sensors_subfeature) :
    (sf_value_or_zero g name sf).val =
      match sf with
      | some s => (get_value g name s.number).val
      | none => 0 := by
  cases sf <;> simp [sf_value_or_zero]

theorem sf_and_value_val_zero (g : Globals) (name name' : sensors_chip_name)
    (h : failures_read_zero name name') (sf : Option sensors_subfeature) :
    (sf_and_value g name' sf).val = (sf_and_value g name sf).val := by
  rw [sf_and_value_val, sf_and_value_val]
  cases sf <;> simp [get_value_val_zero g name name' h]

theorem sf_value_or_zero_val_zero (g : Globals) (name name' : sensors_chip_name)
    (h : failures_read_zero name name') (sf : Option sensors_subfeature) :
    (sf_value_or_zero g name' sf).val = (sf_value_or_zero g name sf).val := by
  rw [sf_value_or_zero_val, sf_value_or_zero_val]
  cases sf <;> simp [get_value_val_zero g name name' h]

theorem temp_crit_hyst_val_zero (g : Globals) (name name' : sensors_chip_name)
    (h : failures_read_zero name name') (sf : Option sensors_subfeature) :
    (temp_crit_hyst g name' sf).val = (temp_crit_hyst g name sf).val := by
  rw [temp_crit_hyst_val, temp_crit_hyst_val]
  cases sf <;> simp [get_value_val_zero g name name' h]

theorem temp_primary_zero (g : Globals) (name name' : sensors_chip_name)
    (feature : sensors_feature) (h : failures_read_zero name name') :
    temp_primary g name' feature = temp_primary g name feature := by
  unfold temp_primary temp_select_limits
  simp only [sensors_get_subfeature_chip name name']
  cases hmax : sensors_get_subfeature name feature SENSORS_SUBFEATURE_TEMP_MAX <;>
    cases hmin : sensors_get_subfeature name feature SENSORS_SUBFEATURE_TEMP_MIN <;>
    cases hc : sensors_get_subfeature name feature SENSORS_SUBFEATURE_TEMP_CRIT <;>
    cases hh : sensors_get_subfeature name feature SENSORS_SUBFEATURE_TEMP_MAX_HYST <;>
    simp [hh, sf_and_value_val_zero g name name' h, temp_crit_hyst_val_zero g name name' h,
      get_value_val_zero g name name' h]

theorem print_chip_temp_zero (g : Globals) (name name' : sensors_chip_name)
    (feature : sensors_feature) (label_size : Int) (h : failures_read_zero name name') :
    (print_chip_temp g name' feature label_size).stdout =
      (print_chip_temp g name feature label_size).stdout := by
  cases hl : sensors_get_label name feature with
  | none =>
    have hl' : sensors_get_label name' feature = none := hl
    simp [print_chip_temp, hl, hl']
  | some label =>
    have hl' : sensors_get_label name' feature = some label := hl
    rw [print_chip_temp_stdout g name feature label_size label hl,
      print_chip_temp_stdout g name' feature label_size label hl']
    simp only [temp_value_field_stdout, temp_crit_line_stdout, temp_sensor_type_stdout,
      temp_primary_zero g name name' feature h, sensors_get_subfeature_chip name name',
      sf_and_value_val_zero g name name' h, sf_value_or_zero_val_zero g name name' h,
      temp_crit_hyst_val_zero g name name' h, get_value_val_zero g name name' h]

theorem in_limits_stdout (g : Globals) (name : sensors_chip_name)
    (feature : sensors_feature) :
    (in_limits g name feature).stdout =
      match sensors_get_subfeature name feature SENSORS_SUBFEATURE_IN_MIN,
        sensors_get_subfeature name feature SENSORS_SUBFEATURE_IN_MAX with
      | some sfmin, some sfmax =>
        [.lit "  (min = ", .flt true 6 2 (get_value g name sfmin.number).val,
          .lit " V, max = ", .flt true 6 2 (get_value g name sfmax.number).val, .lit " V)"]
      | some sfmin, none =>
        [.lit "  (min = ", .flt true 6 2 (get_value g name sfmin.number).val, .lit " V)"]
      | none, some sfmax =>
        [.lit "  (max = ", .flt true 6 2 (get_value g name sfmax.number).val, .lit " V)"]
      | none, none => [] := by
  unfold in_limits
  cases sensors_get_subfeature name feature SENSORS_SUBFEATURE_IN_MIN <;>
    cases sensors_get_subfeature name feature SENSORS_SUBFEATURE_IN_MAX <;>
    simp

theorem print_chip_in_zero (g : Globals) (name name' : sensors_chip_name)
    (feature : sensors_feature) (label_size : Int) (h : failures_read_zero name name') :
    (print_chip_in g name' feature label_size).stdout =
      (print_chip_in g name feature label_size).stdout := by
  cases hl : sensors_get_label name feature with
  | none =>
    have hl' : sensors_get_label name' feature = none := hl
    simp [print_chip_in, hl, hl']
  | some label =>
    have hl' : sensors_get_label name' feature = some label := hl
    rw [print_chip_in_stdout g name feature label_size label hl,
      print_chip_in_stdout g name' feature label_size label hl']
    simp only [in_limits_stdout, in_alarms_stdout, sensors_get_subfeature_chip name name',
      sf_and_value_val_zero g name name' h, sf_value_or_zero_val_zero g name name' h,
      get_value_val_zero g name name' h]

theorem print_chip_fan_zero (g : Globals) (name name' : sensors_chip_name)
    (feature : sensors_feature) (label_size : Int) (h : failures_read_zero name name') :
    (print_chip_fan g name' feature label_size).stdout =
      (print_chip_fan g name feature label_size).stdout := by
  cases hl : sensors_get_label name feature with
  | none =>
    have hl' : sensors_get_label name' feature = none := hl
    simp [print_chip_fan, hl, hl']
  | some label =>
    have hl' : sensors_get_label name' feature = some label := hl
    rw [print_chip_fan_stdout g name feature label_size label hl,
      print_chip_fan_stdout g name' feature label_size label hl']
    simp only [fan_limits_stdout, sensors_get_subfeature_chip name name',
      sf_and_value_val_zero g name name' h, sf_value_or_zero_val_zero g name name' h,
      get_value_val_zero g name name' h]

theorem suffix_nl_append (xs ys : List Piece) (h : [Piece.nl] <:+ ys) :
    [Piece.nl] <:+ xs ++ ys :=
  h.trans (List.suffix_append _ _)

/-- C11: a value-fetch failure degrades to a zero reading. `get_value` returns the
fetched value unchanged when the lookup succeeds, and `0` with a diagnostic on the
error stream when it fails; hence the standard output of the temperature, voltage and
fan renderers for a chip state in which reads fail is the output for the state in
which those reads give `0`; and each of these renderers ends its output with the
newline when the label can be fetched. -/
theorem value_failure_reads_zero :
    (∀ (g : Globals) (name : sensors_chip_name) (n : Int) (v : ℚ),
      sensors_get_value name n = Except.ok v →
      (get_value g name n).val = v ∧ (get_value g name n).stderr = []) ∧
    (∀ (g : Globals) (name : sensors_chip_name) (n : Int) (err : Int),
      sensors_get_value name n = Except.error err →
      (get_value g name n).val = 0 ∧ (get_value g name n).stdout = [] ∧
      (get_value g name n).stderr =
        [.lit "ERROR: Can't get value of subfeature ", .int n, .lit ": ",
          .str false 0 (g.sensors_strerror err), .nl]) ∧
    (∀ (g : Globals) (name name' : sensors_chip_name) (feature : sensors_feature)
      (label_size : Int), failures_read_zero name name' →
      (print_chip_temp g name feature label_size).stdout =
        (print_chip_temp g name' feature label_size).stdout ∧
      (print_chip_in g name feature label_size).stdout =
        (print_chip_in g name' feature label_size).stdout ∧
      (print_chip_fan g name feature label_size).stdout =
        (print_chip_fan g name' feature label_size).stdout) ∧
    (∀ (g : Globals) (name : sensors_chip_name) (feature : sensors_feature)
      (label_size : Int) (label : String), sensors_get_label name feature = some label →
      [Piece.nl] <:+ (print_chip_temp g name feature label_size).stdout ∧
      [Piece.nl] <:+ (print_chip_in g name feature label_size).stdout ∧
      [Piece.nl] <:+ (print_chip_fan g name feature label_size).stdout) := by
  refine ⟨?_, ?_, ?_, ?_⟩
  · intro g name n v h
    simp [get_value, h]
  · intro g name n err h
    simp [get_value, h]
  · intro g name name' feature label_size h
    exact ⟨(print_chip_temp_zero g name name' feature label_size h).symm,
      (print_chip_in_zero g name name' feature label_size h).symm,
      (print_chip_fan_zero g name name' feature label_size h).symm⟩
  · intro g name feature label_size label hl
    refine ⟨?_, ?_, ?_⟩
    · rw [print_chip_temp_stdout g name feature label_size label hl]
      exact suffix_nl_append _ _ (suffix_nl_append _ _ (suffix_nl_append _ _
        (suffix_nl_append _ _ (List.suffix_append _ _))))
    · rw [print_chip_in_stdout g name feature label_size label hl]
      exact suffix_nl_append _ _ (suffix_nl_append _ _
        (suffix_nl_append _ _ (List.suffix_append _ _)))
    · rw [print_chip_fan_stdout g name feature label_size label hl]
      exact suffix_nl_append _ _ (suffix_nl_append _ _
        (suffix_nl_append _ _ (List.suffix_append _ _)))

theorem failures_read_zero_chipE : failures_read_zero chipE chipE0 := by
  intro n
  by_cases h : n = 1
  · left; simp [chipE, chipE0, h]
  · right; exact ⟨-5, by simp [chipE, h], by simp [chipE0, h]⟩

/-- C11 at a sample feature whose max bound cannot be read: it is displayed as `0`. -/
theorem value_failure_reads_zero_witness :
    (get_value gC chipE 2).val = 0 ∧
    (print_chip_temp gC chipE featE 12).stdout = (print_chip_temp gC chipE0 featE 12).stdout ∧
    shown_limits (first_line (print_chip_temp gC chipE featE 12).stdout) = [("high", 0)] ∧
    [Piece.nl] <:+ (print_chip_temp gC chipE featE 12).stdout :=
  ⟨(value_failure_reads_zero.2.1 gC chipE 2 (-5) rfl).1,
    (value_failure_reads_zero.2.2.1 gC chipE chipE0 featE 12 failures_read_zero_chipE).1,
    by decide,
    (value_failure_reads_zero.2.2.2 gC chipE featE 12 "temp1" (by decide)).1⟩

/-- C12, as stated, fails: `print_chip_vid` for a feature whose label cannot be fetched
writes nothing to standard output and nothing to the error stream. -/
theorem label_failure_counterexample :
    sensors_get_label chipW featW = none ∧
    (print_chip_vid gC chipW featW 12).stdout = [] ∧
    (print_chip_vid gC chipW featW 12).stderr = [] := by
  decide

/-- C12, amended: when the label of a feature cannot be fetched, the temperature,
voltage and fan renderers write nothing to standard output and one diagnostic line to
the error stream; the VID and beep-enable renderers write nothing to either stream. -/
theorem label_failure (g : Globals) (name : sensors_chip_name) (feature : sensors_feature)
    (label_size : Int) (hl : sensors_get_label name feature = none) :
    ((print_chip_temp g name feature label_size).stdout = [] ∧
      (print_chip_temp g name feature label_size).stderr =
        [.lit "ERROR: Can't get temperature label!", .nl]) ∧
    ((print_chip_in g name feature label_size).stdout = [] ∧
      (print_chip_in g name feature label_size).stderr =
        [.lit "ERROR: Can't get in label!", .nl]) ∧
    ((print_chip_fan g name feature label_size).stdout = [] ∧
      (print_chip_fan g name feature label_size).stderr =
        [.lit "ERROR: Can't get fan label!", .nl]) ∧
    ((print_chip_vid g name feature label_size).stdout = [] ∧
      (print_chip_vid g name feature label_size).stderr = []) ∧
    ((print_chip_beep_enable g name feature label_size).stdout = [] ∧
      (print_chip_beep_enable g name feature label_size).stderr = []) := by
  refine ⟨?_, ?_, ?_, ?_, ?_⟩
  · simp [print_chip_temp, hl]
  · simp [print_chip_in, hl]
  · simp [print_chip_fan, hl]
  · unfold print_chip_vid
    cases sensors_get_subfeature name feature SENSORS_SUBFEATURE_VID <;> simp [hl]
  · unfold print_chip_beep_enable
    cases sensors_get_subfeature name feature SENSORS_SUBFEATURE_BEEP_ENABLE <;> simp [hl]

/-- C12, amended, at a sample feature without label. -/
theorem label_failure_witness :
    (print_chip_temp gC chipW featW 12).stderr =
      [.lit "ERROR: Can't get temperature label!", .nl] ∧
    (print_chip_beep_enable gC chipW featW 12).stderr = [] :=
  have h := label_failure gC chipW featW 12 (by decide)
  ⟨h.1.2, h.2.2.2.2.2⟩

/-- C13, as stated, fails: with a falsy combined alarm `print_chip_in` still writes three
blank characters for the alarm, so the line differs from the line of the same feature
without alarm sub-reading. -/
theorem print_chip_in_combined_alarm_counterexample :
    render (fun _ _ _ _ => "") (in_alarms gC chipX featX).stdout = "   " ∧
    (in_alarms gC chipX featX0).stdout = [] ∧
    (print_chip_in gC chipX featX 12).stdout ≠ (print_chip_in gC chipX featX0 12).stdout := by
  decide

/-- C13, amended: for a voltage feature with neither a min-alarm nor a max-alarm
sub-reading but with a combined alarm sub-reading, `print_chip_in` writes, between the
limits and the newline, three spaces followed by `ALARM` when the combined alarm is
non-zero and three spaces alone when it is zero. -/
theorem print_chip_in_combined_alarm (g : Globals) (name : sensors_chip_name)
    (feature : sensors_feature) (label_size : Int) (label : String) (sf : sensors_subfeature)
    (hl : sensors_get_label name feature = some label)
    (hmin : sensors_get_subfeature name feature SENSORS_SUBFEATURE_IN_MIN_ALARM = none)
    (hmax : sensors_get_subfeature name feature SENSORS_SUBFEATURE_IN_MAX_ALARM = none)
    (hsf : sensors_get_subfeature name feature SENSORS_SUBFEATURE_IN_ALARM = some sf) :
    (print_chip_in g name feature label_size).stdout =
      (print_label label label_size).stdout ++
      ([Piece.flt true 6 2 (sf_value_or_zero g name
          (sensors_get_subfeature name feature SENSORS_SUBFEATURE_IN_INPUT)).val,
        Piece.lit " V"] ++
      ((in_limits g name feature).stdout ++
      ((in_alarms g name feature).stdout ++ [Piece.nl]))) ∧
    (in_alarms g name feature).stdout =
      [.lit "   ",
        .str false 0 (if (get_value g name sf.number).val ≠ 0 then "ALARM" else "")] ∧
    ∀ fmt : Bool → Nat → Nat → ℚ → String,
      render fmt (in_alarms g name feature).stdout =
        if (get_value g name sf.number).val ≠ 0 then "   ALARM" else "   " := by
  have h : (in_alarms g name feature).stdout =
      [.lit "   ",
        .str false 0 (if (get_value g name sf.number).val ≠ 0 then "ALARM" else "")] := by
    rw [in_alarms_stdout]
    simp [hmin, hmax, hsf]
  refine ⟨print_chip_in_stdout g name feature label_size label hl, h, ?_⟩
  intro fmt
  rw [h]
  split <;> rfl

/-- C13, amended, at a sample feature whose combined alarm is down. -/
theorem print_chip_in_combined_alarm_witness :
    render (fun _ _ _ _ => "") (in_alarms gC chipX featX).stdout = "   " :=
  ((print_chip_in_combined_alarm gC chipX featX 12 "in1"
    ⟨"in1_alarm", 2, SENSORS_SUBFEATURE_IN_ALARM, true⟩
    (by decide) (by decide) (by decide) (by decide)).2.2 _).trans (by decide)

/-- C16: `print_chip_vid` writes one line, the label field followed by the VID value as
a signed voltage with three decimals, when the feature has a VID sub-reading, its label
can be fetched and its value can be fetched; in every other case it writes nothing to
standard output (a failed read is not replaced by zero). `print_chip_beep_enable` does
the same for the beep-enable sub-reading, writing `enabled` for a non-zero value and
`disabled` for zero. -/
theorem print_chip_vid_beep_line (g : Globals) (name : sensors_chip_name)
    (feature : sensors_feature) (label_size : Int) :
    (∀ (sf : sensors_subfeature) (label : String) (vid : ℚ),
      sensors_get_subfeature name feature SENSORS_SUBFEATURE_VID = some sf →
      sensors_get_label name feature = some label →
      sensors_get_value name sf.number = Except.ok vid →
      (print_chip_vid g name feature label_size).stdout =
        (print_label label label_size).stdout ++
          [Piece.flt true 6 3 vid, Piece.lit " V", Piece.nl] ∧
      line_count (print_chip_vid g name feature label_size).stdout = 1) ∧
    ((sensors_get_subfeature name feature SENSORS_SUBFEATURE_VID = none ∨
      sensors_get_label name feature = none ∨
      ∃ sf err, sensors_get_subfeature name feature SENSORS_SUBFEATURE_VID = some sf ∧
        sensors_get_value name sf.number = Except.error err) →
      (print_chip_vid g name feature label_size).stdout = []) ∧
    (∀ (sf : sensors_subfeature) (label : String) (beep_enable : ℚ),
      sensors_get_subfeature name feature SENSORS_SUBFEATURE_BEEP_ENABLE = some sf →
      sensors_get_label name feature = some label →
      sensors_get_value name sf.number = Except.ok beep_enable →
      (print_chip_beep_enable g name feature label_size).stdout =
        (print_label label label_size).stdout ++
          [Piece.str false 0 (if beep_enable ≠ 0 then "enabled" else "disabled"), Piece.nl] ∧
      line_count (print_chip_beep_enable g name feature label_size).stdout = 1) ∧
    ((sensors_get_subfeature name feature SENSORS_SUBFEATURE_BEEP_ENABLE = none ∨
      sensors_get_label name feature = none ∨
      ∃ sf err, sensors_get_subfeature name feature SENSORS_SUBFEATURE_BEEP_ENABLE = some sf ∧
        sensors_get_value name sf.number = Except.error err) →
      (print_chip_beep_enable g name feature label_size).stdout = []) := by
  refine ⟨?_, ?_, ?_, ?_⟩
  · intro sf label vid hsf hl hv
    simp [print_chip_vid, hsf, hl, hv, print_label, line_count]
  · rintro (h | h | ⟨sf, err, hsf, hv⟩)
    · simp [print_chip_vid, h]
    · unfold print_chip_vid
      cases sensors_get_subfeature name feature SENSORS_SUBFEATURE_VID <;> simp [h]
    · unfold print_chip_vid
      cases sensors_get_label name feature <;> simp [hsf, hv]
  · intro sf label beep_enable hsf hl hv
    by_cases hb : beep_enable = 0 <;>
      simp [print_chip_beep_enable, hsf, hl, hv, print_label, line_count, hb]
  · rintro (h | h | ⟨sf, err, hsf, hv⟩)
    · simp [print_chip_beep_enable, h]
    · unfold print_chip_beep_enable
      cases sensors_get_subfeature name feature SENSORS_SUBFEATURE_BEEP_ENABLE <;> simp [h]
    · unfold print_chip_beep_enable
      cases sensors_get_label name feature <;> simp [hsf, hv]

/-- C16 at sample features: VID 1.5 and beep enable 0. -/
theorem print_chip_vid_beep_line_witness :
    (print_chip_vid gC chipW featW1 12).stdout =
      (print_label "vid" 12).stdout ++ [Piece.flt true 6 3 (3 / 2), Piece.lit " V", Piece.nl] ∧
    (print_chip_beep_enable gC chipW featW2 12).stdout =
      (print_label "beep_enable" 12).stdout ++ [Piece.str false 0 "disabled", Piece.nl] ∧
    (print_chip_vid gC chipW featW 12).stdout = [] :=
  ⟨((print_chip_vid_beep_line gC chipW featW1 12).1
      ⟨"cpu0_vid", 1, SENSORS_SUBFEATURE_VID, true⟩ "vid" (3 / 2) (by decide) (by decide)
      (by simp [sensors_get_value, chipW])).1,
    ((print_chip_vid_beep_line gC chipW featW2 12).2.2.1
      ⟨"beep_enable", 2, SENSORS_SUBFEATURE_BEEP_ENABLE, true⟩ "beep_enable" 0
      (by decide) (by decide) (by simp [sensors_get_value, chipW])).1,
    (print_chip_vid_beep_line gC chipW featW 12).2.1 (Or.inr (Or.inl (by decide)))⟩

theorem has_alarm_second_line (g : Globals) (name : sensors_chip_name)
    (feature : sensors_feature) (label_size : Int) (label : String)
    (hl : sensors_get_label name feature = some label)
    (h2 : temp_second_line g name feature = true) :
    has_alarm (second_line (print_chip_temp g name feature label_size).stdout) =
      (sf_and_value g name
        (sensors_get_subfeature name feature SENSORS_SUBFEATURE_TEMP_CRIT_ALARM)).val := by
  rw [second_line_print_chip_temp g name feature label_size label hl, h2]
  cases hc : sensors_get_subfeature name feature SENSORS_SUBFEATURE_TEMP_CRIT with
  | none => simp [temp_second_line, hc] at h2
  | some sfcrit =>
    simp only []
    unfold has_alarm temp_crit_limits
    rw [print_temp_limits_stdout, temp_sensor_type_stdout]
    cases (sf_and_value g name
        (sensors_get_subfeature name feature SENSORS_SUBFEATURE_TEMP_CRIT_ALARM)).val <;>
      cases (temp_crit_hyst g name
        (sensors_get_subfeature name feature SENSORS_SUBFEATURE_TEMP_CRIT_HYST)).val.2 <;>
      cases sensors_get_subfeature name feature SENSORS_SUBFEATURE_TEMP_TYPE <;>
      simp

theorem strlen_le_longest (name : sensors_chip_name) (l : List sensors_feature)
    (feature : sensors_feature) (label : String) (hf : feature ∈ l)
    (hl : sensors_get_label name feature = some label) :
    strlen label ≤ ((l.filterMap fun f => sensors_get_label name f).map strlen).foldr max 0 := by
  induction l with
  | nil => cases hf
  | cons f l ih =>
    rcases List.mem_cons.mp hf with rfl | hf'
    · simp only [List.filterMap_cons, hl, List.map_cons, List.foldr_cons]
      omega
    · have := ih hf'
      cases hlab : sensors_get_label name f with
      | none => simpa [List.filterMap_cons, hlab] using this
      | some label' =>
        simp only [List.filterMap_cons, hlab, List.map_cons, List.foldr_cons]
        omega

theorem renderer_stdout_starts_with_label (g : Globals) (name : sensors_chip_name)
    (feature : sensors_feature) (label_size : Int) (label : String)
    (hl : sensors_get_label name feature = some label) :
    renderer_stdout g name label_size feature = [] ∨
      (print_label label label_size).stdout <+: renderer_stdout g name label_size feature := by
  unfold renderer_stdout
  cases feature.type
  · right
    simp only []
    rw [print_chip_in_stdout g name feature label_size label hl]
    exact List.prefix_append _ _
  · right
    simp only []
    rw [print_chip_fan_stdout g name feature label_size label hl]
    exact List.prefix_append _ _
  · right
    simp only []
    rw [print_chip_temp_stdout g name feature label_size label hl]
    exact ⟨_, rfl⟩
  · simp only []
    unfold print_chip_vid
    cases sensors_get_subfeature name feature SENSORS_SUBFEATURE_VID with
    | none => left; rfl
    | some sf =>
      simp only [hl]
      cases sensors_get_value name sf.number with
      | error e => left; rfl
      | ok v => right; exact List.prefix_append _ _
  · simp only []
    unfold print_chip_beep_enable
    cases sensors_get_subfeature name feature SENSORS_SUBFEATURE_BEEP_ENABLE with
    | none => left; rfl
    | some sf =>
      simp only [hl]
      cases sensors_get_value name sf.number with
      | error e => left; rfl
      | ok v => right; exact List.prefix_append _ _
  · left; rfl

theorem render_append (fmt : Bool → Nat → Nat → ℚ → String) (xs ys : List Piece) :
    render fmt (xs ++ ys) = render fmt xs ++ render fmt ys := by
  induction xs with
  | nil => simp [render]
  | cons x xs ih => cases x <;> simp [render, ih, String.append_assoc]

theorem length_lit_empty : ("" : String).length = 0 := rfl

theorem pad_zero (s : String) : pad false 0 s = s := by
  simp [pad, spaces]

theorem length_lit_open : ("(" : String).length = 1 := by decide
theorem length_lit_eq : (" = " : String).length = 3 := by decide
theorem length_lit_comma : (", " : String).length = 2 := by decide
theorem length_lit_close2 : (")  " : String).length = 3 := by decide
theorem length_lit_close1 : (")                  " : String).length = 19 := by decide
theorem length_lit_blank : ("                                  " : String).length = 34 := by
  decide
theorem length_lit_fault : ("   FAULT  " : String).length = 10 := by decide
theorem length_lit_two : ("  " : String).length = 2 := by decide

theorem limits_width_none (g : Globals) (fmt : Bool → Nat → Nat → ℚ → String)
    (limit1 limit2 : ℚ) :
    (render fmt (print_temp_limits g limit1 limit2 none none false).stdout).length = 34 := by
  rw [print_temp_limits_stdout]
  simp only [Option.isSome_none, Bool.false_eq_true, if_false,
    List.append_nil, render, String.length_append, length_lit_blank, length_lit_empty]

theorem limits_alarm_marker (g : Globals) (fmt : Bool → Nat → Nat → ℚ → String)
    (limit1 limit2 : ℚ) (name1 name2 : Option String) :
    render fmt (print_temp_limits g limit1 limit2 name1 name2 true).stdout =
      render fmt (print_temp_limits g limit1 limit2 name1 name2 false).stdout ++ "ALARM  " := by
  rw [print_temp_limits_stdout, print_temp_limits_stdout, render_append]
  simp [render]

theorem takeWhile_open_append (xs rest : List Piece) (h : Piece.lit "(" ∉ xs) :
    (xs ++ Piece.lit "(" :: rest).takeWhile (fun p => p != Piece.lit "(") = xs := by
  induction xs with
  | nil => simp
  | cons x xs ih =>
    have hx : x ≠ Piece.lit "(" := fun e => h (by simp [e])
    have hxs : Piece.lit "(" ∉ xs := fun e => h (by simp [e])
    simp [List.takeWhile_cons, bne_iff_ne, hx, ih hxs]

theorem open_not_mem_temp_value_field (g : Globals) (name : sensors_chip_name)
    (feature : sensors_feature) (val : ℚ) :
    Piece.lit "(" ∉ (temp_value_field g name feature val).stdout := by
  rw [temp_value_field_stdout]; split <;> simp

theorem temp_primary_limits_open (g : Globals) (name : sensors_chip_name)
    (feature : sensors_feature) (h : temp_second_line g name feature = true) :
    ∃ rest, temp_primary_limits g name feature = Piece.lit "(" :: rest := by
  rw [temp_second_line_eq] at h
  unfold temp_primary_limits
  rw [print_temp_limits_stdout]
  cases hmax : sensors_get_subfeature name feature SENSORS_SUBFEATURE_TEMP_MAX <;>
    cases hmin : sensors_get_subfeature name feature SENSORS_SUBFEATURE_TEMP_MIN <;>
    cases hc : sensors_get_subfeature name feature SENSORS_SUBFEATURE_TEMP_CRIT <;>
    cases hh : sensors_get_subfeature name feature SENSORS_SUBFEATURE_TEMP_MAX_HYST <;>
    simp [hmax, hmin, hc, hh] at h <;>
    simp [temp_primary, temp_select_limits, hmax, hmin, hc, hh]

theorem temp_crit_limits_open (g : Globals) (name : sensors_chip_name)
    (feature : sensors_feature) (sfcrit : sensors_subfeature) :
    ∃ rest, temp_crit_limits g name feature sfcrit = Piece.lit "(" :: rest := by
  unfold temp_crit_limits
  rw [print_temp_limits_stdout]
  cases (temp_crit_hyst g name
    (sensors_get_subfeature name feature SENSORS_SUBFEATURE_TEMP_CRIT_HYST)).val.2 <;> simp

theorem limits_column_first_line (g : Globals) (fmt : Bool → Nat → Nat → ℚ → String)
    (name : sensors_chip_name) (feature : sensors_feature) (label_size : Int) (label : String)
    (hl : sensors_get_label name feature = some label)
    (h2 : temp_second_line g name feature = true) :
    limits_column fmt (first_line (print_chip_temp g name feature label_size).stdout) =
      (render fmt ((print_label label label_size).stdout ++
        (temp_value_field g name feature (sf_value_or_zero g name
          (sensors_get_subfeature name feature SENSORS_SUBFEATURE_TEMP_INPUT)).val).stdout)
        ).length := by
  obtain ⟨rest, hr⟩ := temp_primary_limits_open g name feature h2
  rw [first_line_print_chip_temp g name feature label_size label hl, hr]
  have hnot : Piece.lit "(" ∉ (print_label label label_size).stdout ++
      (temp_value_field g name feature (sf_value_or_zero g name
        (sensors_get_subfeature name feature SENSORS_SUBFEATURE_TEMP_INPUT)).val).stdout := by
    have := open_not_mem_temp_value_field g name feature (sf_value_or_zero g name
      (sensors_get_subfeature name feature SENSORS_SUBFEATURE_TEMP_INPUT)).val
    simp [print_label, this]
  have e : ∀ tail : List Piece,
      [Piece.str false 0 label, Piece.lit ":",
        Piece.str false (label_size - (strlen label + 1)) ""] ++
      ((temp_value_field g name feature (sf_value_or_zero g name
        (sensors_get_subfeature name feature SENSORS_SUBFEATURE_TEMP_INPUT)).val).stdout ++
      (Piece.lit "(" :: rest ++ tail)) =
      ((print_label label label_size).stdout ++
        (temp_value_field g name feature (sf_value_or_zero g name
          (sensors_get_subfeature name feature SENSORS_SUBFEATURE_TEMP_INPUT)).val).stdout) ++
      Piece.lit "(" :: (rest ++ tail) := by
    intro tail
    simp [print_label]
  rw [e]
  unfold limits_column
  rw [takeWhile_open_append _ _ hnot]

theorem sensors_get_all_subfeatures_none (name : sensors_chip_name) (feature : sensors_feature)
    (b : Nat) (h : feature.subfeatures.length ≤ b) :
    sensors_get_all_subfeatures name feature b = none := by
  simp [sensors_get_all_subfeatures, List.getElem?_eq_none h]

theorem sensors_get_all_subfeatures_some (name : sensors_chip_name) (feature : sensors_feature)
    (b : Nat) (h : b < feature.subfeatures.length) :
    sensors_get_all_subfeatures name feature b = some (feature.subfeatures[b], b + 1) := by
  simp [sensors_get_all_subfeatures, List.getElem?_eq_getElem h]

theorem print_chip_raw_subs_stdout (freed_label : String) (name : sensors_chip_name)
    (feature : sensors_feature) :
    ∀ (n b : Nat), feature.subfeatures.length - b = n →
      (print_chip_raw_subs freed_label name feature b).stdout =
        (feature.subfeatures.drop b).flatMap (raw_sub_stdout freed_label name) := by
  intro n
  induction n with
  | zero =>
    intro b h
    have hb : feature.subfeatures.length ≤ b := by omega
    unfold print_chip_raw_subs
    split
    · simp [List.drop_eq_nil_of_le hb]
    · rename_i heq
      rw [sensors_get_all_subfeatures_none name feature b hb] at heq
      cases heq
  | succ n ih =>
    intro b h
    have hb : b < feature.subfeatures.length := by omega
    unfold print_chip_raw_subs
    split
    · rename_i heq
      rw [sensors_get_all_subfeatures_some name feature b hb] at heq
      cases heq
    · rename_i sub b' heq
      rw [sensors_get_all_subfeatures_some name feature b hb] at heq
      simp only [Option.some.injEq, Prod.mk.injEq] at heq
      obtain ⟨rfl, rfl⟩ := heq
      rw [List.drop_eq_getElem_cons hb, List.flatMap_cons]
      have ih' := ih (b + 1) (by omega)
      cases hr : feature.subfeatures[b].readable
      · have e : raw_sub_stdout freed_label name feature.subfeatures[b] =
            [.lit "(", .str false 0 freed_label, .lit ")", .nl] := by
          simp [raw_sub_stdout, hr]
        simp [hr, ih', e]
      · cases hv : sensors_get_value name feature.subfeatures[b].number with
        | error err =>
          have e : raw_sub_stdout freed_label name feature.subfeatures[b] = [] := by
            simp [raw_sub_stdout, hr, hv]
          simp [hr, hv, ih', e]
        | ok val =>
          have e : raw_sub_stdout freed_label name feature.subfeatures[b] =
              [.lit "  ", .str false 0 feature.subfeatures[b].name, .lit ": ",
                .flt false 0 2 val, .nl] := by
            simp [raw_sub_stdout, hr, hv]
          simp [hr, hv, ih', e]

theorem print_chip_raw_loop_stdout (after_free : String → String) (name : sensors_chip_name) :
    ∀ (n a : Nat), name.features.length - a = n →
      (print_chip_raw_loop after_free name a).stdout =
        (name.features.drop a).flatMap fun feature =>
          match sensors_get_label name feature with
          | none => []
          | some label =>
            [Piece.str false 0 label, Piece.lit ":", Piece.nl] ++
              feature.subfeatures.flatMap (raw_sub_stdout (after_free label) name) := by
  intro n
  induction n with
  | zero =>
    intro a h
    have ha : name.features.length ≤ a := by omega
    unfold print_chip_raw_loop
    split
    · simp [List.drop_eq_nil_of_le ha]
    · rename_i heq
      rw [sensors_get_features_none name a ha] at heq
      cases heq
  | succ n ih =>
    intro a h
    have ha : a < name.features.length := by omega
    unfold print_chip_raw_loop
    split
    · rename_i heq
      rw [sensors_get_features_some name a ha] at heq
      cases heq
    · rename_i feature a' heq
      rw [sensors_get_features_some name a ha] at heq
      simp only [Option.some.injEq, Prod.mk.injEq] at heq
      obtain ⟨rfl, rfl⟩ := heq
      rw [List.drop_eq_getElem_cons ha, List.flatMap_cons]
      have ih' := ih (a + 1) (by omega)
      cases hl : sensors_get_label name name.features[a] with
      | none => simp [hl, ih']
      | some label =>
        have hs := print_chip_raw_subs_stdout (after_free label) name name.features[a] _ 0 rfl
        simp only [List.drop_zero] at hs
        simp [hl, ih', hs]

/-- The standard output of `print_chip_raw`: for each feature in order whose label can
be fetched, the label line followed by the output for each of its sub-readings in order,
where a sub-reading without read capability gets in parentheses what the freed label
buffer reads as; a feature without label contributes nothing. -/
theorem print_chip_raw_stdout (after_free : String → String) (name : sensors_chip_name) :
    (print_chip_raw after_free name).stdout =
      name.features.flatMap fun feature =>
        match sensors_get_label name feature with
        | none => []
        | some label =>
          [Piece.str false 0 label, Piece.lit ":", Piece.nl] ++
            feature.subfeatures.flatMap (raw_sub_stdout (after_free label) name) := by
  have h := print_chip_raw_loop_stdout after_free name _ 0 rfl
  simp only [List.drop_zero] at h
  exact h

/-- C18 at a feature with a sub-reading without read capability: `print_chip_raw` writes
in parentheses what the freed label buffer reads as (chips.c:46 frees the label that
chips.c:58 prints), which is the label only if the allocator left the bytes in place; an
allocator that clears the buffer gives `()`. -/
theorem print_chip_raw_use_after_free :
    (∀ after_free : String → String,
      (print_chip_raw after_free chipR).stdout =
        [.str false 0 "fan1", .lit ":", .nl,
          .lit "  ", .str false 0 "fan1_input", .lit ": ", .flt false 0 2 1200, .nl,
          .lit "(", .str false 0 (after_free "fan1"), .lit ")", .nl]) ∧
    (print_chip_raw (fun _ => "") chipR).stdout ≠ (print_chip_raw (fun s => s) chipR).stdout := by
  have h : ∀ after_free : String → String,
      (print_chip_raw after_free chipR).stdout =
        [.str false 0 "fan1", .lit ":", .nl,
          .lit "  ", .str false 0 "fan1_input", .lit ": ", .flt false 0 2 1200, .nl,
          .lit "(", .str false 0 (after_free "fan1"), .lit ")", .nl] := by
    intro after_free
    rw [print_chip_raw_stdout]
    simp [chipR, featR, sensors_get_label, raw_sub_stdout, sensors_get_value]
  refine ⟨h, ?_⟩
  rw [h, h]
  decide

theorem strlen_append (a b : String) : strlen (a ++ b) = strlen a + strlen b := by
  cases a; cases b
  show String.utf8Len (_ ++ _) = _
  exact String.utf8Len_append _ _

theorem strlen_empty : strlen "" = 0 := rfl

theorem utf8Len_replicate_space (n : Nat) : String.utf8Len (List.replicate n ' ') = n := by
  induction n with
  | zero => rfl
  | succ n ih =>
    rw [List.replicate_succ, String.utf8Len_cons, ih]
    rfl

theorem strlen_spaces (n : Nat) : strlen (spaces n) = n := by
  simp [strlen, spaces, utf8Len_replicate_space]

theorem length_spaces (n : Nat) : (spaces n).length = n := by
  simp [spaces]

theorem length_le_utf8Len (cs : List Char) : cs.length ≤ String.utf8Len cs := by
  induction cs with
  | nil => simp
  | cons c cs ih =>
    have := Char.utf8Size_pos c
    simp only [List.length_cons, String.utf8Len_cons]
    omega

/-- A string has at least as many bytes as characters. -/
theorem length_le_strlen (s : String) : s.length ≤ strlen s := by
  cases s
  simpa [strlen] using length_le_utf8Len _

theorem render_print_label (fmt : Bool → Nat → Nat → ℚ → String) (label : String)
    (space : Int)
    (h : (strlen label : Int) + 1 ≤ space) :
    render fmt (print_label label space).stdout =
      label ++ (":" ++ spaces (space - (strlen label + 1)).toNat) := by
  have h1 : ¬ (space - ((strlen label : Int) + 1) < 0) := by omega
  have h2 : (space - ((strlen label : Int) + 1)).natAbs = (space - (strlen label + 1)).toNat := by
    omega
  simp [print_label, render, pad, spaces, h1, h2, strlen_empty]

/-- C4, as stated, fails: a feature without a max bound whose min alarm is present and
truthy gets no `ALARM` on its primary line. -/
theorem print_chip_temp_alarm_counterexample :
    present_and_truthy chipC featC SENSORS_SUBFEATURE_TEMP_MIN_ALARM = true ∧
    spec_primary_alarm chipC featC = true ∧
    has_alarm (first_line (print_chip_temp gC chipC featC 12).stdout) = false := by
  decide

/-- C4, amended: the primary line carries `ALARM` exactly when the direct alarm is
present and truthy, or the feature has a max bound and its max alarm is present and
truthy, or it has both a max and a min bound and its min alarm is present and truthy, or
the critical bound is on the primary line and the critical alarm is present and truthy. -/
theorem print_chip_temp_alarm (g : Globals) (name : sensors_chip_name)
    (feature : sensors_feature) (label_size : Int) (label : String)
    (hl : sensors_get_label name feature = some label) :
    has_alarm (first_line (print_chip_temp g name feature label_size).stdout) =
      (present_and_truthy name feature SENSORS_SUBFEATURE_TEMP_ALARM ||
       ((sensors_get_subfeature name feature SENSORS_SUBFEATURE_TEMP_MAX).isSome &&
        present_and_truthy name feature SENSORS_SUBFEATURE_TEMP_MAX_ALARM) ||
       ((sensors_get_subfeature name feature SENSORS_SUBFEATURE_TEMP_MAX).isSome &&
        (sensors_get_subfeature name feature SENSORS_SUBFEATURE_TEMP_MIN).isSome &&
        present_and_truthy name feature SENSORS_SUBFEATURE_TEMP_MIN_ALARM) ||
       (crit_on_primary name feature &&
        present_and_truthy name feature SENSORS_SUBFEATURE_TEMP_CRIT_ALARM)) := by
  have ht : ∀ t, (sf_and_value g name (sensors_get_subfeature name feature t)).val =
      present_and_truthy name feature t := by
    intro t
    unfold present_and_truthy
    cases sensors_get_subfeature name feature t with
    | none => rfl
    | some sf =>
      simp only [sf_and_value, W.bind_val, W.pure_val, get_value]
      cases sensors_get_value name sf.number <;> simp
  rw [has_alarm_first_line g name feature label_size label hl]
  unfold crit_on_primary
  cases hmax : sensors_get_subfeature name feature SENSORS_SUBFEATURE_TEMP_MAX <;>
    cases hmin : sensors_get_subfeature name feature SENSORS_SUBFEATURE_TEMP_MIN <;>
    cases hc : sensors_get_subfeature name feature SENSORS_SUBFEATURE_TEMP_CRIT <;>
    cases hh : sensors_get_subfeature name feature SENSORS_SUBFEATURE_TEMP_MAX_HYST <;>
    simp [temp_primary, temp_select_limits, hmax, hmin, hc, hh, ht] <;>
    cases present_and_truthy name feature SENSORS_SUBFEATURE_TEMP_ALARM <;>
    cases present_and_truthy name feature SENSORS_SUBFEATURE_TEMP_MAX_ALARM <;>
    cases present_and_truthy name feature SENSORS_SUBFEATURE_TEMP_MIN_ALARM <;>
    cases present_and_truthy name feature SENSORS_SUBFEATURE_TEMP_CRIT_ALARM <;>
    simp

/-- C4, amended, at sample features: a max alarm that is present and raised gives
`ALARM`; a direct alarm and a max alarm that are present and down give none; a raised
critical alarm whose bound is on the second line gives none on the primary line. -/
theorem print_chip_temp_alarm_witness :
    has_alarm (first_line (print_chip_temp gC chipK featK 12).stdout) = true ∧
    has_alarm (first_line (print_chip_temp gC chipK0 featK 12).stdout) = false ∧
    has_alarm (first_line (print_chip_temp gC chipB featB 12).stdout) = false :=
  ⟨(print_chip_temp_alarm gC chipK featK 12 "temp5" (by decide)).trans (by decide),
    (print_chip_temp_alarm gC chipK0 featK 12 "temp5" (by decide)).trans (by decide),
    (print_chip_temp_alarm gC chipB featB 12 "Core 0" (by decide)).trans (by decide)⟩

/-- C14: when `print_chip_temp` writes its second line (the feature has a critical
bound, a max bound and a min bound or a max hysteresis), the `ALARM` marker of the second
line is there exactly when the critical-alarm sub-reading is present and truthy,
whatever the direct, min and max alarms; and the primary line's marker is decided by the
direct alarm, the max alarm and (with a min bound) the min alarm alone, without the
critical alarm. -/
theorem print_chip_temp_crit_alarm (g : Globals) (name : sensors_chip_name)
    (feature : sensors_feature) (label_size : Int) (label : String)
    (sfcrit sfmax : sensors_subfeature)
    (hl : sensors_get_label name feature = some label)
    (hcrit : sensors_get_subfeature name feature SENSORS_SUBFEATURE_TEMP_CRIT = some sfcrit)
    (hmax : sensors_get_subfeature name feature SENSORS_SUBFEATURE_TEMP_MAX = some sfmax)
    (h : (sensors_get_subfeature name feature SENSORS_SUBFEATURE_TEMP_MIN).isSome ∨
      (sensors_get_subfeature name feature SENSORS_SUBFEATURE_TEMP_MAX_HYST).isSome) :
    line_count (print_chip_temp g name feature label_size).stdout = 2 ∧
    has_alarm (second_line (print_chip_temp g name feature label_size).stdout) =
      present_and_truthy name feature SENSORS_SUBFEATURE_TEMP_CRIT_ALARM ∧
    has_alarm (first_line (print_chip_temp g name feature label_size).stdout) =
      (present_and_truthy name feature SENSORS_SUBFEATURE_TEMP_ALARM ||
       present_and_truthy name feature SENSORS_SUBFEATURE_TEMP_MAX_ALARM ||
       ((sensors_get_subfeature name feature SENSORS_SUBFEATURE_TEMP_MIN).isSome &&
        present_and_truthy name feature SENSORS_SUBFEATURE_TEMP_MIN_ALARM)) := by
  have ht : ∀ t, (sf_and_value g name (sensors_get_subfeature name feature t)).val =
      present_and_truthy name feature t := by
    intro t
    unfold present_and_truthy
    cases sensors_get_subfeature name feature t with
    | none => rfl
    | some sf =>
      simp only [sf_and_value, W.bind_val, W.pure_val, get_value]
      cases sensors_get_value name sf.number <;> simp
  have h2 : temp_second_line g name feature = true := by
    rw [temp_second_line_eq, hcrit, hmax]
    simpa using h
  refine ⟨?_, ?_, ?_⟩
  · rw [line_count_print_chip_temp g name feature label_size label hl, h2]
    rfl
  · rw [has_alarm_second_line g name feature label_size label hl h2, ht]
  · rw [has_alarm_first_line g name feature label_size label hl]
    cases hmin : sensors_get_subfeature name feature SENSORS_SUBFEATURE_TEMP_MIN <;>
      cases hh : sensors_get_subfeature name feature SENSORS_SUBFEATURE_TEMP_MAX_HYST <;>
      simp [temp_primary, temp_select_limits, hmax, hmin, hcrit, hh, ht] at h ⊢ <;>
      cases present_and_truthy name feature SENSORS_SUBFEATURE_TEMP_ALARM <;>
      cases present_and_truthy name feature SENSORS_SUBFEATURE_TEMP_MAX_ALARM <;>
      cases present_and_truthy name feature SENSORS_SUBFEATURE_TEMP_MIN_ALARM <;>
      simp

/-- C14 at a sample feature with every bound: with only the critical alarm raised the
marker is on the second line and not on the primary line; with the critical alarm
present and down the second line has no marker. -/
theorem print_chip_temp_crit_alarm_witness :
    has_alarm (second_line (print_chip_temp gC chipB featB 12).stdout) = true ∧
    has_alarm (first_line (print_chip_temp gC chipB featB 12).stdout) = false ∧
    has_alarm (second_line (print_chip_temp gC chipB0 featB 12).stdout) = false :=
  have h := print_chip_temp_crit_alarm gC chipB featB 12 "Core 0"
    ⟨"temp1_crit", 4, SENSORS_SUBFEATURE_TEMP_CRIT, true⟩
    ⟨"temp1_max", 2, SENSORS_SUBFEATURE_TEMP_MAX, true⟩
    (by decide) (by decide) (by decide) (Or.inl (by decide))
  have h0 := print_chip_temp_crit_alarm gC chipB0 featB 12 "Core 0"
    ⟨"temp1_crit", 4, SENSORS_SUBFEATURE_TEMP_CRIT, true⟩
    ⟨"temp1_max", 2, SENSORS_SUBFEATURE_TEMP_MAX, true⟩
    (by decide) (by decide) (by decide) (Or.inl (by decide))
  ⟨h.2.1.trans (by decide), h.2.2.trans (by decide), h0.2.1.trans (by decide)⟩

/-- C15: for a temperature feature with no max bound, the primary line shows
`(crit = X, hyst = Y)` when a critical bound and a critical hysteresis exist, `(crit = X)`
when a critical bound exists without critical hysteresis, and blank padding with no
bound when no critical bound exists, whatever min bound or hysteresis the feature has;
there is one line only, and the primary line's marker is there exactly when the direct
alarm is present and truthy or a critical bound exists and the critical alarm is present
and truthy. -/
theorem print_chip_temp_no_max (g : Globals) (name : sensors_chip_name)
    (feature : sensors_feature) (label_size : Int) (label : String)
    (hl : sensors_get_label name feature = some label)
    (hmax : sensors_get_subfeature name feature SENSORS_SUBFEATURE_TEMP_MAX = none) :
    shown_limits (first_line (print_chip_temp g name feature label_size).stdout) =
      (match sensors_get_subfeature name feature SENSORS_SUBFEATURE_TEMP_CRIT,
          sensors_get_subfeature name feature SENSORS_SUBFEATURE_TEMP_CRIT_HYST with
        | some sfcrit, some sfhyst =>
          [shown_limit g name "crit" sfcrit, shown_limit g name "hyst" sfhyst]
        | some sfcrit, none => [shown_limit g name "crit" sfcrit]
        | none, _ => []) ∧
    limits_text g (shown_limits (first_line (print_chip_temp g name feature label_size).stdout))
      <:+: first_line (print_chip_temp g name feature label_size).stdout ∧
    (sensors_get_subfeature name feature SENSORS_SUBFEATURE_TEMP_CRIT = none →
      Piece.lit "                                  " ∈
        first_line (print_chip_temp g name feature label_size).stdout) ∧
    line_count (print_chip_temp g name feature label_size).stdout = 1 ∧
    has_alarm (first_line (print_chip_temp g name feature label_size).stdout) =
      (present_and_truthy name feature SENSORS_SUBFEATURE_TEMP_ALARM ||
       ((sensors_get_subfeature name feature SENSORS_SUBFEATURE_TEMP_CRIT).isSome &&
        present_and_truthy name feature SENSORS_SUBFEATURE_TEMP_CRIT_ALARM)) := by
  have ht : ∀ t, (sf_and_value g name (sensors_get_subfeature name feature t)).val =
      present_and_truthy name feature t := by
    intro t
    unfold present_and_truthy
    cases sensors_get_subfeature name feature t with
    | none => rfl
    | some sf =>
      simp only [sf_and_value, W.bind_val, W.pure_val, get_value]
      cases sensors_get_value name sf.number <;> simp
  have h1 : shown_limits (first_line (print_chip_temp g name feature label_size).stdout) =
      (match sensors_get_subfeature name feature SENSORS_SUBFEATURE_TEMP_CRIT,
          sensors_get_subfeature name feature SENSORS_SUBFEATURE_TEMP_CRIT_HYST with
        | some sfcrit, some sfhyst =>
          [shown_limit g name "crit" sfcrit, shown_limit g name "hyst" sfhyst]
        | some sfcrit, none => [shown_limit g name "crit" sfcrit]
        | none, _ => []) := by
    rw [shown_limits_first_line g name feature label_size label hl]
    unfold temp_primary_limits
    rw [shown_limits_print_temp_limits]
    cases hc : sensors_get_subfeature name feature SENSORS_SUBFEATURE_TEMP_CRIT <;>
      cases hch : sensors_get_subfeature name feature SENSORS_SUBFEATURE_TEMP_CRIT_HYST <;>
      simp [temp_primary, temp_select_limits, hmax, hc, hch, temp_crit_hyst_val, shown_limit,
        cstr]
  have h2 := limits_text_within_first_line g name feature label_size label hl
  refine ⟨h1, h2, ?_, ?_, ?_⟩
  · intro hc
    rw [h1, hc] at h2
    obtain ⟨s, t, e⟩ := h2
    rw [← e]
    simp [limits_text]
  · rw [line_count_print_chip_temp g name feature label_size label hl, temp_second_line_eq,
      hmax]
    simp
  · rw [has_alarm_first_line g name feature label_size label hl]
    cases hc : sensors_get_subfeature name feature SENSORS_SUBFEATURE_TEMP_CRIT with
    | none => simp [temp_primary, temp_select_limits, hmax, hc, ht]
    | some sfcrit =>
      simp only [temp_primary, temp_select_limits, hmax, hc, W.bind_val, W.pure_val,
        Option.isSome_some, Bool.true_and, ht]
      cases present_and_truthy name feature SENSORS_SUBFEATURE_TEMP_ALARM <;>
      cases present_and_truthy name feature SENSORS_SUBFEATURE_TEMP_CRIT_ALARM <;>
      simp

/-- C15 at sample features without max bound: one with a critical bound and its
hysteresis, with the critical alarm raised and with the critical alarm present and down,
one with a min bound and a raised min alarm only, and, with the Fahrenheit preference
set, one with critical bound 100 and hysteresis 0. -/
theorem print_chip_temp_no_max_witness :
    shown_limits (first_line (print_chip_temp gC chipB featG 12).stdout) =
      [("crit", 100), ("hyst", 95)] ∧
    has_alarm (first_line (print_chip_temp gC chipB featG 12).stdout) = true ∧
    has_alarm (first_line (print_chip_temp gC chipB0 featG 12).stdout) = false ∧
    line_count (print_chip_temp gC chipB featG 12).stdout = 1 ∧
    shown_limits (first_line (print_chip_temp gC chipC featC 12).stdout) = [] ∧
    has_alarm (first_line (print_chip_temp gC chipC featC 12).stdout) = false ∧
    shown_limits (first_line (print_chip_temp gF chipT featT3 12).stdout) =
      [("crit", 212 - 5 / 1048576), ("hyst", 32)] :=
  have h := print_chip_temp_no_max gC chipB featG 12 "temp4" (by decide) (by decide)
  have h0 := print_chip_temp_no_max gC chipB0 featG 12 "temp4" (by decide) (by decide)
  have h' := print_chip_temp_no_max gC chipC featC 12 "temp2" (by decide) (by decide)
  have hF := print_chip_temp_no_max gF chipT featT3 12 "temp3" (by decide) (by decide)
  ⟨h.1.trans (by decide), h.2.2.2.2.trans (by decide), h0.2.2.2.2.trans (by decide),
    h.2.2.2.1, h'.1.trans (by decide), h'.2.2.2.2.trans (by decide),
    hF.1.trans ((show _ = [("crit", deg_ctof 100), ("hyst", deg_ctof 0)] from rfl).trans
      (by rw [deg_ctof_100, deg_ctof_0]))⟩

/-- C17: after the input value `print_chip_in` writes `(min = A V, max = B V)` when both
bounds exist, `(min = A V)` or `(max = B V)` when one exists, and no parenthesis when
none exists; `print_chip_fan` likewise writes `(min = A RPM, div = B)`, `(min = A RPM)`,
`(div = B)` or nothing, followed by `ALARM` exactly when the alarm sub-reading is present
and truthy. -/
theorem print_chip_in_fan_limits (g : Globals) (name : sensors_chip_name)
    (feature : sensors_feature) (label_size : Int) (label : String)
    (hl : sensors_get_label name feature = some label) :
    (print_chip_in g name feature label_size).stdout =
      (print_label label label_size).stdout ++
      ([Piece.flt true 6 2 (sf_value_or_zero g name
          (sensors_get_subfeature name feature SENSORS_SUBFEATURE_IN_INPUT)).val,
        Piece.lit " V"] ++
      ((match sensors_get_subfeature name feature SENSORS_SUBFEATURE_IN_MIN,
          sensors_get_subfeature name feature SENSORS_SUBFEATURE_IN_MAX with
        | some sfmin, some sfmax =>
          [.lit "  (min = ", .flt true 6 2 (get_value g name sfmin.number).val,
            .lit " V, max = ", .flt true 6 2 (get_value g name sfmax.number).val, .lit " V)"]
        | some sfmin, none =>
          [.lit "  (min = ", .flt true 6 2 (get_value g name sfmin.number).val, .lit " V)"]
        | none, some sfmax =>
          [.lit "  (max = ", .flt true 6 2 (get_value g name sfmax.number).val, .lit " V)"]
        | none, none => []) ++
      ((in_alarms g name feature).stdout ++ [Piece.nl]))) ∧
    (print_chip_fan g name feature label_size).stdout =
      (print_label label label_size).stdout ++
      ((if present_and_truthy name feature SENSORS_SUBFEATURE_FAN_FAULT
        then [Piece.lit "   FAULT"]
        else [Piece.flt false 4 0 (sf_value_or_zero g name
            (sensors_get_subfeature name feature SENSORS_SUBFEATURE_FAN_INPUT)).val,
          Piece.lit " RPM"]) ++
      ((match sensors_get_subfeature name feature SENSORS_SUBFEATURE_FAN_MIN,
          sensors_get_subfeature name feature SENSORS_SUBFEATURE_FAN_DIV with
        | some sfmin, some sfdiv =>
          [.lit "  (min = ", .flt false 4 0 (get_value g name sfmin.number).val,
            .lit " RPM, div = ", .flt false 1 0 (get_value g name sfdiv.number).val, .lit ")"]
        | some sfmin, none =>
          [.lit "  (min = ", .flt false 4 0 (get_value g name sfmin.number).val, .lit " RPM)"]
        | none, some sfdiv =>
          [.lit "  (div = ", .flt false 1 0 (get_value g name sfdiv.number).val, .lit ")"]
        | none, none => []) ++
      ((if present_and_truthy name feature SENSORS_SUBFEATURE_FAN_ALARM
        then [Piece.lit "  ALARM"] else []) ++ [Piece.nl]))) := by
  have ht : ∀ t, (sf_and_value g name (sensors_get_subfeature name feature t)).val =
      present_and_truthy name feature t := by
    intro t
    unfold present_and_truthy
    cases sensors_get_subfeature name feature t with
    | none => rfl
    | some sf =>
      simp only [sf_and_value, W.bind_val, W.pure_val, get_value]
      cases sensors_get_value name sf.number <;> simp
  constructor
  · rw [print_chip_in_stdout g name feature label_size label hl, in_limits_stdout]
  · rw [print_chip_fan_stdout g name feature label_size label hl, fan_limits_stdout, ht, ht]

/-- C17 at a sample voltage feature with a min bound only, and at a sample fan feature
with a min bound and a divisor whose alarm is raised, then present and down. -/
theorem print_chip_in_fan_limits_witness :
    (print_chip_in gC chipV featV 12).stdout =
      [.str false 0 "in0", .lit ":", .str false 8 "", .flt true 6 2 1, .lit " V",
        .lit "  (min = ", .flt true 6 2 2, .lit " V)",
        .lit " ALARM (", .lit "MIN", .lit ")", .nl] ∧
    (print_chip_fan gC chipFA featFA 12).stdout =
      [.str false 0 "fan2", .lit ":", .str false 7 "", .flt false 4 0 500, .lit " RPM",
        .lit "  (min = ", .flt false 4 0 600, .lit " RPM, div = ", .flt false 1 0 2, .lit ")",
        .lit "  ALARM", .nl] ∧
    (print_chip_fan gC chipFA0 featFA 12).stdout =
      [.str false 0 "fan2", .lit ":", .str false 7 "", .flt false 4 0 500, .lit " RPM",
        .lit "  (min = ", .flt false 4 0 600, .lit " RPM, div = ", .flt false 1 0 2, .lit ")",
        .nl] :=
  ⟨(print_chip_in_fan_limits gC chipV featV 12 "in0" (by decide)).1.trans (by decide),
    (print_chip_in_fan_limits gC chipFA featFA 12 "fan2" (by decide)).2.trans (by decide),
    (print_chip_in_fan_limits gC chipFA0 featFA 12 "fan2" (by decide)).2.trans (by decide)⟩

/-- C8: for a temperature feature with a sensor-type sub-reading whose reading converts
to the 32-bit `int` (its integral part is representable), the output of
`print_chip_temp` ends with `sensor = <name>` and the newline, where `name` is given by
the integer code of the reading: disabled, diode, transistor, thermal diode, thermistor,
AMD AMDSI, Intel PECI for 0 to 6, thermistor for every code above 1000, unknown for any
other code; without a sensor-type sub-reading no `sensor = ` is written. -/
theorem print_chip_temp_sensor_type (g : Globals) (name : sensors_chip_name)
    (feature : sensors_feature) (label_size : Int) (label : String)
    (hl : sensors_get_label name feature = some label) :
    (∀ sf, sensors_get_subfeature name feature SENSORS_SUBFEATURE_TEMP_TYPE = some sf →
      -2147483648 ≤ integral_part (get_value g name sf.number).val →
      integral_part (get_value g name sf.number).val ≤ 2147483647 →
      [Piece.lit "sensor = ",
        Piece.str false 0 (sensor_type_name (integral_part (get_value g name sf.number).val)),
        Piece.nl] <:+ (print_chip_temp g name feature label_size).stdout) ∧
    (sensors_get_subfeature name feature SENSORS_SUBFEATURE_TEMP_TYPE = none →
      Piece.lit "sensor = " ∉ (print_chip_temp g name feature label_size).stdout) ∧
    sensor_type_name 0 = "disabled" ∧ sensor_type_name 1 = "diode" ∧
    sensor_type_name 2 = "transistor" ∧ sensor_type_name 3 = "thermal diode" ∧
    sensor_type_name 4 = "thermistor" ∧ sensor_type_name 5 = "AMD AMDSI" ∧
    sensor_type_name 6 = "Intel PECI" ∧
    (∀ sens : Int, sens > 1000 → sensor_type_name sens = "thermistor") ∧
    (∀ sens : Int, sens < 0 ∨ (7 ≤ sens ∧ sens ≤ 1000) →
      sensor_type_name sens = "unknown") := by
  refine ⟨?_, ?_, by decide, by decide, by decide, by decide, by decide, by decide, by decide,
    ?_, ?_⟩
  · intro sf hsf hlo hhi
    rw [print_chip_temp_stdout g name feature label_size label hl, temp_sensor_type_stdout, hsf]
    have hcast : double_to_int (get_value g name sf.number).val =
        integral_part (get_value g name sf.number).val := by
      unfold double_to_int
      rw [if_pos ⟨hlo, hhi⟩]
    refine ⟨[.str false 0 label, .lit ":", .str false (label_size - (strlen label + 1)) ""] ++
      ((temp_value_field g name feature (sf_value_or_zero g name
          (sensors_get_subfeature name feature SENSORS_SUBFEATURE_TEMP_INPUT)).val).stdout ++
      ((print_temp_limits g (temp_primary g name feature).limit1
          (temp_primary g name feature).limit2 (temp_primary g name feature).s1
          (temp_primary g name feature).s2 (temp_primary g name feature).alarm).stdout ++
      (temp_crit_line g name feature label_size (temp_primary g name feature).crit_displayed
          (sensors_get_subfeature name feature SENSORS_SUBFEATURE_TEMP_CRIT)).stdout)), ?_⟩
    simp only [List.append_assoc, List.cons_append, List.nil_append, hcast]
  · intro hsf
    rw [print_chip_temp_stdout g name feature label_size label hl, temp_sensor_type_stdout, hsf]
    have h1 := sensor_not_mem_temp_value_field g name feature (sf_value_or_zero g name
      (sensors_get_subfeature name feature SENSORS_SUBFEATURE_TEMP_INPUT)).val
    have h2 := sensor_not_mem_print_temp_limits g (temp_primary g name feature).limit1
      (temp_primary g name feature).limit2 (temp_primary g name feature).s1
      (temp_primary g name feature).s2 (temp_primary g name feature).alarm
    have h3 := sensor_not_mem_temp_crit_line g name feature label_size
      (temp_primary g name feature).crit_displayed
      (sensors_get_subfeature name feature SENSORS_SUBFEATURE_TEMP_CRIT)
    simp [h1, h2, h3]
  · intro sens h
    simp [sensor_type_name, h]
  · intro sens h
    unfold sensor_type_name
    have h1 : ¬ sens > 1000 := by omega
    simp only [h1, if_false]
    rcases h with h | h
    · simp [show sens ≠ 0 by omega, show sens ≠ 1 by omega, show sens ≠ 2 by omega,
        show sens ≠ 3 by omega, show sens ≠ 4 by omega, show sens ≠ 5 by omega,
        show sens ≠ 6 by omega]
    · simp [show sens ≠ 0 by omega, show sens ≠ 1 by omega, show sens ≠ 2 by omega,
        show sens ≠ 3 by omega, show sens ≠ 4 by omega, show sens ≠ 5 by omega,
        show sens ≠ 6 by omega]

/-- C8 at a sample feature whose sensor-type reading is 1500: `thermistor`. -/
theorem print_chip_temp_sensor_type_witness :
    integral_part (get_value gC chipB 7).val = 1500 ∧
    [Piece.lit "sensor = ", Piece.str false 0 "thermistor", Piece.nl] <:+
      (print_chip_temp gC chipB featB 12).stdout :=
  ⟨by decide,
    (print_chip_temp_sensor_type gC chipB featB 12 "Core 0" (by decide)).1
      ⟨"temp1_type", 7, SENSORS_SUBFEATURE_TEMP_TYPE, true⟩
      (by decide) (by decide) (by decide)⟩

/-- C9, as stated, fails: a chip whose labels have at most 11 characters, one of them
with a two-byte character, gets the width 13. -/
theorem get_label_size_eq_counterexample :
    (∀ f ∈ chipU.features, ∀ label, sensors_get_label chipU f = some label →
      label.length ≤ 11) ∧
    get_label_size chipU = 13 := by
  constructor
  · intro f hf label hl
    simp only [chipU, List.mem_cons, List.mem_singleton, List.not_mem_nil, or_false] at hf
    rcases hf with rfl | rfl
    · cases hl; decide
    · cases hl; decide
  · have h0 := get_label_size_loop_eq chipU _ 0 11 rfl
    simp only [get_label_size, h0]
    decide

/-- C9, amended: `get_label_size` returns 1 + max(11, L), where L is the greatest length
in bytes (`strlen`) of a label that can be fetched among the chip's features; hence at
least 12, exactly 12 when no fetched label is longer than 11 bytes, and 12 for a chip
without features. -/
theorem get_label_size_eq (name : sensors_chip_name) :
    get_label_size name = 1 + (max 11 (longest_label name) : Nat) ∧
    12 ≤ get_label_size name ∧
    ((∀ f ∈ name.features, ∀ label, sensors_get_label name f = some label →
        strlen label ≤ 11) → get_label_size name = 12) ∧
    (name.features = [] → get_label_size name = 12) := by
  have h : get_label_size name = 1 + (max 11 (longest_label name) : Nat) := by
    have h0 := get_label_size_loop_eq name _ 0 11 rfl
    simp only [List.drop_zero] at h0
    simp only [get_label_size, longest_label, h0]
    omega
  have hle : ∀ l : List sensors_feature,
      (∀ f ∈ l, ∀ label, sensors_get_label name f = some label → strlen label ≤ 11) →
      ((l.filterMap fun f => sensors_get_label name f).map strlen).foldr max 0 ≤ 11 := by
    intro l
    induction l with
    | nil => intro _; simp
    | cons f l ih =>
      intro hf
      have hl := ih (fun f' hf' => hf f' (List.mem_cons_of_mem _ hf'))
      cases hlab : sensors_get_label name f with
      | none => simpa [List.filterMap_cons, hlab] using hl
      | some label =>
        have := hf f (List.mem_cons_self _ _) label hlab
        simp only [List.filterMap_cons, hlab, List.map_cons, List.foldr_cons]
        omega
  refine ⟨h, ?_, ?_, ?_⟩
  · rw [h]; omega
  · intro hf
    have := hle name.features hf
    rw [h]
    unfold longest_label
    omega
  · intro he
    rw [h]
    simp [longest_label, he]

/-- C9, amended, at sample chips: longest label of 19 bytes, of 5 bytes, and of 12 bytes
in 11 characters. -/
theorem get_label_size_eq_witness :
    get_label_size chipV = 20 ∧ get_label_size chipA = 12 ∧ get_label_size chipU = 13 :=
  ⟨(get_label_size_eq chipV).1.trans (by decide),
    (get_label_size_eq chipA).2.2.1 (by decide),
    (get_label_size_eq chipU).1.trans (by decide)⟩

/-- A name of at most 4 one-byte characters fills its `%-4s` field. -/
theorem pad_name_length (s : String) (h : s.length ≤ 4) (hb : strlen s = s.length) :
    (pad true 4 s).length = 4 := by
  simp [pad, spaces, String.length_append, hb]
  omega

theorem pad_blank_length (w : Int) : (pad false w "").length = w.natAbs := by
  by_cases h : w < 0 <;> simp [pad, spaces, h, strlen_empty]

/-- The label field in bytes and in characters, for a width that holds the label. -/
theorem label_field_size (fmt : Bool → Nat → Nat → ℚ → String) (label : String)
    (space : Int) (h : (strlen label : Int) + 1 ≤ space) :
    (strlen (render fmt (print_label label space).stdout) : Int) = space ∧
    ((render fmt (print_label label space).stdout).length : Int) =
      space - ((strlen label : Int) - label.length) := by
  rw [render_print_label fmt label _ h]
  have h3 : (":" : String).length = 1 := by decide
  have h4 : strlen ":" = 1 := by decide
  simp only [strlen_append, strlen_spaces, String.length_append, length_spaces, h3, h4]
  constructor <;> omega

theorem label_fits (name : sensors_chip_name) (feature : sensors_feature) (label : String)
    (hf : feature ∈ name.features) (hl : sensors_get_label name feature = some label) :
    (strlen label : Int) + 1 ≤ get_label_size name := by
  have h0 := get_label_size_loop_eq name _ 0 11 rfl
  simp only [List.drop_zero] at h0
  have h1 := strlen_le_longest name name.features feature label hf hl
  simp only [get_label_size, h0]
  omega

/-- C19, as stated, fails: in a chip of width 13, `print_label` writes 12 characters for
the label `Température` (12 bytes in 11 characters) and 13 for the label `temp2`, so the
value fields of the two lines start in different columns. -/
theorem print_label_width_counterexample :
    featU ∈ chipU.features ∧ featU2 ∈ chipU.features ∧
    sensors_get_label chipU featU = some "Température" ∧
    sensors_get_label chipU featU2 = some "temp2" ∧
    get_label_size chipU = 13 ∧
    (render (fun _ _ _ _ => "")
      (print_label "Température" (get_label_size chipU)).stdout).length = 12 ∧
    (render (fun _ _ _ _ => "") (print_label "temp2" (get_label_size chipU)).stdout).length
      = 13 := by
  have hg : get_label_size chipU = 13 := by
    have h0 := get_label_size_loop_eq chipU _ 0 11 rfl
    simp only [get_label_size, h0]
    decide
  rw [hg]
  decide

/-- C19, amended: for every feature of a chip whose label can be fetched, the label and
its colon fit, in bytes, in the width returned by `get_label_size` for the chip, and
`print_label` called with that width writes the label, the colon and the padding spaces
that fill the width: as many bytes as the width, which is as many characters as the
width less one for every byte of the label beyond one per character, hence as many
characters as the width when the label has only one-byte characters. Every renderer
selected by `print_chip` that writes anything for the feature starts with this label
field. -/
theorem print_label_width (g : Globals) (fmt : Bool → Nat → Nat → ℚ → String)
    (name : sensors_chip_name) (feature : sensors_feature) (label : String)
    (hf : feature ∈ name.features) (hl : sensors_get_label name feature = some label) :
    (strlen label : Int) + 1 ≤ get_label_size name ∧
    render fmt (print_label label (get_label_size name)).stdout =
      label ++ (":" ++ spaces (get_label_size name - (strlen label + 1)).toNat) ∧
    (strlen (render fmt (print_label label (get_label_size name)).stdout) : Int) =
      get_label_size name ∧
    ((render fmt (print_label label (get_label_size name)).stdout).length : Int) =
      get_label_size name - ((strlen label : Int) - label.length) ∧
    (strlen label = label.length →
      ((render fmt (print_label label (get_label_size name)).stdout).length : Int) =
        get_label_size name) ∧
    (renderer_stdout g name (get_label_size name) feature = [] ∨
      (print_label label (get_label_size name)).stdout <+:
        renderer_stdout g name (get_label_size name) feature) := by
  have h2 := label_fits name feature label hf hl
  have h3 := label_field_size fmt label _ h2
  refine ⟨h2, render_print_label fmt label _ h2, h3.1, h3.2, ?_,
    renderer_stdout_starts_with_label g name feature _ label hl⟩
  intro hb
  rw [h3.2, hb]
  omega

/-- C19, amended, at the sample chip whose labels have 3 and 19 bytes (width 20), and at
the sample label of 12 bytes in 11 characters (width 13, 12 characters written). -/
theorem print_label_width_witness :
    render (fun _ _ _ _ => "") (print_label "in0" (get_label_size chipV)).stdout =
      "in0:                " ∧
    ((render (fun _ _ _ _ => "") (print_label "in0" (get_label_size chipV)).stdout).length : Int)
      = get_label_size chipV ∧
    (strlen (render (fun _ _ _ _ => "")
      (print_label "Température" (get_label_size chipU)).stdout) : Int) = get_label_size chipU ∧
    ((render (fun _ _ _ _ => "")
      (print_label "Température" (get_label_size chipU)).stdout).length : Int) =
      get_label_size chipU - 1 :=
  have h := print_label_width gC (fun _ _ _ _ => "") chipV featV "in0" (by decide) (by decide)
  have hu := print_label_width gC (fun _ _ _ _ => "") chipU featU "Température"
    (by decide) (by decide)
  have hg : get_label_size chipV = 20 := by
    have h0 := get_label_size_loop_eq chipV _ 0 11 rfl
    simp only [get_label_size, h0]
    decide
  ⟨h.2.1.trans (by rw [hg]; decide), h.2.2.2.2.1 (by decide), hu.2.2.1,
    hu.2.2.2.1.trans (by
      have e : (strlen "Température" : Int) - "Température".length = 1 := by decide
      rw [e])⟩

theorem limits_width_two (g : Globals) (fmt : Bool → Nat → Nat → ℚ → String)
    (limit1 limit2 : ℚ) (n1 n2 : String) (hd : g.degstr.length = 2)
    (h1 : n1.length ≤ 4) (hb1 : strlen n1 = n1.length)
    (h2 : n2.length ≤ 4) (hb2 : strlen n2 = n2.length)
    (hv1 : (fmt true 5 1 (shown_temp g limit1)).length = 5)
    (hv2 : (fmt true 5 1 (shown_temp g limit2)).length = 5) :
    (render fmt (print_temp_limits g limit1 limit2 (some n1) (some n2) false).stdout).length
      = 34 := by
  rw [print_temp_limits_stdout]
  simp only [Option.isSome_some, if_true, cstr, Option.getD_some, Bool.false_eq_true, if_false,
    List.append_nil, render, String.length_append, pad_zero, length_lit_open, length_lit_eq,
    length_lit_comma, length_lit_close2, hd, hv1, hv2,
    pad_name_length n1 h1 hb1, pad_name_length n2 h2 hb2, length_lit_empty]

theorem limits_width_one (g : Globals) (fmt : Bool → Nat → Nat → ℚ → String)
    (limit1 limit2 : ℚ) (n1 : String) (hd : g.degstr.length = 2)
    (h1 : n1.length ≤ 4) (hb1 : strlen n1 = n1.length)
    (hv1 : (fmt true 5 1 (shown_temp g limit1)).length = 5) :
    (render fmt (print_temp_limits g limit1 limit2 (some n1) none false).stdout).length
      = 34 := by
  rw [print_temp_limits_stdout]
  simp only [Option.isSome_some, Option.isSome_none, if_true, cstr, Option.getD_some,
    Bool.false_eq_true, if_false,
    List.append_nil, render, String.length_append, pad_zero, length_lit_open, length_lit_eq,
    length_lit_close1, hd, hv1, pad_name_length n1 h1 hb1, length_lit_empty]

theorem value_field_width (g : Globals) (fmt : Bool → Nat → Nat → ℚ → String)
    (name : sensors_chip_name) (feature : sensors_feature) (val : ℚ)
    (hd : g.degstr.length = 2)
    (hv : (sf_and_value g name
        (sensors_get_subfeature name feature SENSORS_SUBFEATURE_TEMP_FAULT)).val = false →
      (fmt true 6 1 (shown_temp g val)).length = 6) :
    (render fmt (temp_value_field g name feature val).stdout).length = 10 := by
  rw [temp_value_field_stdout]
  cases hf : (sf_and_value g name
      (sensors_get_subfeature name feature SENSORS_SUBFEATURE_TEMP_FAULT)).val
  · simp only [Bool.false_eq_true, if_false, render, String.length_append, pad_zero, hd, hv hf,
      length_lit_two, length_lit_empty]
  · simp only [if_true, render, String.length_append, length_lit_fault, length_lit_empty]

theorem limits_column_second_line (g : Globals) (fmt : Bool → Nat → Nat → ℚ → String)
    (name : sensors_chip_name) (feature : sensors_feature) (label_size : Int) (label : String)
    (hl : sensors_get_label name feature = some label)
    (h2 : temp_second_line g name feature = true) :
    limits_column fmt (second_line (print_chip_temp g name feature label_size).stdout) =
      (label_size + 10).natAbs := by
  rw [second_line_print_chip_temp g name feature label_size label hl, h2]
  cases hc : sensors_get_subfeature name feature SENSORS_SUBFEATURE_TEMP_CRIT with
  | none => simp [temp_second_line, hc] at h2
  | some sfcrit =>
    obtain ⟨rest, hr⟩ := temp_crit_limits_open g name feature sfcrit
    simp only [hr]
    unfold limits_column
    have e : Piece.str false (label_size + 10) "" ::
        (Piece.lit "(" :: rest ++ (temp_sensor_type g name feature).stdout) =
        [Piece.str false (label_size + 10) ""] ++
          Piece.lit "(" :: (rest ++ (temp_sensor_type g name feature).stdout) := rfl
    rw [e, takeWhile_open_append _ _ (by simp)]
    simp only [render, String.length_append, pad_blank_length, length_lit_empty, Nat.add_zero]

/-- C20, as stated, fails, in two ways. With the unit suffix 2 characters wide and every
limit within its field, a primary value of 1000 degrees takes 7 characters, so the limits
segment of the primary line starts in column 23 and that of the second line in column
22. And a label of 12 bytes in 11 characters, in a label width of 13, gives a label field
of 12 characters, so the limits segment of the primary line starts in column 22 and that
of the second line in column 23. -/
theorem temp_limits_alignment_counterexample :
    gC.degstr.length = 2 ∧
    shown_limits (first_line (print_chip_temp gC chipH featH 12).stdout) =
      [("low", 10), ("high", 80)] ∧
    c_printf_f true 5 1 10 = "+10.0" ∧ c_printf_f true 5 1 80 = "+80.0" ∧
    c_printf_f true 5 1 90 = "+90.0" ∧ c_printf_f true 6 1 1000 = "+1000.0" ∧
    limits_column c_printf_f (first_line (print_chip_temp gC chipH featH 12).stdout) = 23 ∧
    limits_column c_printf_f (second_line (print_chip_temp gC chipH featH 12).stdout) = 22 ∧
    c_printf_f true 6 1 45 = " +45.0" ∧
    limits_column c_printf_f (first_line (print_chip_temp gC chipU featU 13).stdout) = 22 ∧
    limits_column c_printf_f (second_line (print_chip_temp gC chipU featU 13).stdout) = 23 := by
  decide

/-- C20, amended: the limits segment of `print_temp_limits` is 34 characters wide before
the optional `ALARM  ` marker in each of its three shapes, provided the unit suffix is 2
characters wide, each limit name has at most 4 characters, all of one byte, and each limit
value is rendered in 5 characters; and for a feature of a chip rendered with the chip's
label width, provided moreover that its label has only one-byte characters and that the
primary value is rendered in 6 characters when it is not replaced by `FAULT`, the label
field and the value field take label width + 10 characters, which is the indentation of
the second line, so that the limits segments of both lines start in the same column. -/
theorem temp_limits_alignment (g : Globals) (fmt : Bool → Nat → Nat → ℚ → String)
    (hd : g.degstr.length = 2) :
    (∀ (limit1 limit2 : ℚ) (n1 n2 : String),
      n1.length ≤ 4 → strlen n1 = n1.length → n2.length ≤ 4 → strlen n2 = n2.length →
      (fmt true 5 1 (shown_temp g limit1)).length = 5 →
      (fmt true 5 1 (shown_temp g limit2)).length = 5 →
      (render fmt (print_temp_limits g limit1 limit2 (some n1) (some n2) false).stdout).length
        = 34) ∧
    (∀ (limit1 limit2 : ℚ) (n1 : String), n1.length ≤ 4 → strlen n1 = n1.length →
      (fmt true 5 1 (shown_temp g limit1)).length = 5 →
      (render fmt (print_temp_limits g limit1 limit2 (some n1) none false).stdout).length
        = 34) ∧
    (∀ (limit1 limit2 : ℚ),
      (render fmt (print_temp_limits g limit1 limit2 none none false).stdout).length = 34) ∧
    (∀ (limit1 limit2 : ℚ) (name1 name2 : Option String),
      render fmt (print_temp_limits g limit1 limit2 name1 name2 true).stdout =
        render fmt (print_temp_limits g limit1 limit2 name1 name2 false).stdout ++ "ALARM  ") ∧
    (∀ (name : sensors_chip_name) (feature : sensors_feature) (label : String),
      feature ∈ name.features → sensors_get_label name feature = some label →
      strlen label = label.length →
      (present_and_truthy name feature SENSORS_SUBFEATURE_TEMP_FAULT = false →
        (fmt true 6 1 (shown_temp g (sf_value_or_zero g name
          (sensors_get_subfeature name feature SENSORS_SUBFEATURE_TEMP_INPUT)).val)).length = 6) →
      ((render fmt ((print_label label (get_label_size name)).stdout ++
          (temp_value_field g name feature (sf_value_or_zero g name
            (sensors_get_subfeature name feature SENSORS_SUBFEATURE_TEMP_INPUT)).val).stdout)
        ).length : Int) = get_label_size name + 10 ∧
      (line_count (print_chip_temp g name feature (get_label_size name)).stdout = 2 →
        (limits_column fmt (first_line
          (print_chip_temp g name feature (get_label_size name)).stdout) : Int) =
          get_label_size name + 10 ∧
        (limits_column fmt (second_line
          (print_chip_temp g name feature (get_label_size name)).stdout) : Int) =
          get_label_size name + 10)) := by
  refine ⟨fun limit1 limit2 n1 n2 h1 hb1 h2 hb2 hv1 hv2 =>
      limits_width_two g fmt limit1 limit2 n1 n2 hd h1 hb1 h2 hb2 hv1 hv2,
    fun limit1 limit2 n1 h1 hb1 hv1 => limits_width_one g fmt limit1 limit2 n1 hd h1 hb1 hv1,
    limits_width_none g fmt, limits_alarm_marker g fmt, ?_⟩
  intro name feature label hf hl hb hv
  have ht : ∀ t, (sf_and_value g name (sensors_get_subfeature name feature t)).val =
      present_and_truthy name feature t := by
    intro t
    unfold present_and_truthy
    cases sensors_get_subfeature name feature t with
    | none => rfl
    | some sf =>
      simp only [sf_and_value, W.bind_val, W.pure_val, get_value]
      cases sensors_get_value name sf.number <;> simp
  have hfit := label_fits name feature label hf hl
  have hw := (label_field_size fmt label _ hfit).2
  have hval := value_field_width g fmt name feature _ hd (fun h => hv (by rw [← ht]; exact h))
  have hA : ((render fmt ((print_label label (get_label_size name)).stdout ++
      (temp_value_field g name feature (sf_value_or_zero g name
        (sensors_get_subfeature name feature SENSORS_SUBFEATURE_TEMP_INPUT)).val).stdout)
      ).length : Int) = get_label_size name + 10 := by
    rw [render_append, String.length_append, hval]
    push_cast
    rw [hw, hb]
    omega
  refine ⟨hA, ?_⟩
  intro hlc
  have h2 : temp_second_line g name feature = true := by
    rw [line_count_print_chip_temp g name feature _ label hl] at hlc
    by_contra hc
    simp [hc] at hlc
  refine ⟨?_, ?_⟩
  · rw [limits_column_first_line g fmt name feature _ label hl h2]
    exact hA
  · rw [limits_column_second_line g fmt name feature _ label hl h2]
    omega

/-- C20, amended, at a sample feature reading 45 degrees with min 10, max 80 and
critical bound 90, rendered with the C library's `%f`. -/
theorem temp_limits_alignment_witness :
    (render c_printf_f (print_temp_limits gC 10 80 (some "low") (some "high") false).stdout).length
      = 34 ∧
    (limits_column c_printf_f (first_line
      (print_chip_temp gC chipH' featH (get_label_size chipH')).stdout) : Int) =
      get_label_size chipH' + 10 ∧
    (limits_column c_printf_f (second_line
      (print_chip_temp gC chipH' featH (get_label_size chipH')).stdout) : Int) =
      get_label_size chipH' + 10 :=
  have h := temp_limits_alignment gC c_printf_f (by decide)
  ⟨h.1 10 80 "low" "high" (by decide) (by decide) (by decide) (by decide) (by decide)
      (by decide),
    (h.2.2.2.2 chipH' featH "temp1" (by decide) (by decide) (by decide)
      (fun _ => by decide)).2
      (by rw [line_count_print_chip_temp gC chipH' featH _ "temp1" (by decide)]; decide)⟩

/-- C7: `print_chip_temp` converts the primary value and every displayed limit with the
same transform `deg_ctof` when the Fahrenheit preference is set, and leaves them
unconverted when it is not; but `deg_ctof` is not exactly `C * 9 / 5 + 32`: its factor
`9.0F / 5.0F` is the `float` nearest to 1.8, so 100 degrees convert to
`212 - 5 / 1048576`, and a reading of 0.75 degrees, which is 33.35 degrees Fahrenheit,
is printed as `+33.3` where the exact conversion prints `+33.4`. -/
theorem deg_ctof_float_constant :
    (∀ (g : Globals) (name : sensors_chip_name) (feature : sensors_feature) (val : ℚ),
      (temp_value_field g name feature val).stdout =
        if present_and_truthy name feature SENSORS_SUBFEATURE_TEMP_FAULT
        then [Piece.lit "   FAULT  "]
        else [Piece.flt true 6 1 (if g.fahrenheit then deg_ctof val else val),
          Piece.str false 0 g.degstr, Piece.lit "  "]) ∧
    (∀ (g : Globals) (limit1 limit2 : ℚ) (name1 name2 : Option String) (alarm : Bool),
      shown_values (print_temp_limits g limit1 limit2 name1 name2 alarm).stdout =
        match name1, name2 with
        | _, some _ =>
          [if g.fahrenheit then deg_ctof limit1 else limit1,
            if g.fahrenheit then deg_ctof limit2 else limit2]
        | some _, none => [if g.fahrenheit then deg_ctof limit1 else limit1]
        | none, none => []) ∧
    float_round (9 / 5) = 15099494 / 8388608 ∧
    deg_ctof 100 = 212 - 5 / 1048576 ∧
    deg_ctof 100 ≠ 100 * 9 / 5 + 32 ∧
    deg_ctof (3 / 4) = 559520153 / 16777216 ∧
    deg_ctof (3 / 4) ≠ 3 / 4 * 9 / 5 + 32 ∧
    render c_printf_f (first_line (print_chip_temp gF chipT featT 12).stdout) =
      "temp1:       +33.3°F  (high = +212.0°F)                  " ∧
    c_printf_f true 6 1 (3 / 4 * 9 / 5 + 32) = " +33.4" := by
  have h95 : float_round (9 / 5) = 15099494 / 8388608 := by
    unfold float_round
    rw [fp_round_of 24 (-149) (9 / 5) 0 15099494 (by norm_num) (by norm_num) (by norm_num)
      (round_half_even_of_lt _ _ (by norm_num) (by norm_num))]
    norm_num
  have h100 : deg_ctof 100 = 212 - 5 / 1048576 := by
    unfold deg_ctof
    rw [h95]
    unfold double_round
    rw [fp_round_exact 53 (-1074) (100 * (15099494 / 8388608)) 7 (1509949400 * 4194304)
      (by norm_num) (by norm_num) (by norm_num) (by norm_num)]
    rw [fp_round_exact 53 (-1074) (100 * (15099494 / 8388608) + 32) 7
      ((1509949400 + 32 * 8388608) * 4194304)
      (by norm_num) (by norm_num) (by norm_num) (by norm_num)]
    norm_num
  have h34 : deg_ctof (3 / 4) = 559520153 / 16777216 := by
    unfold deg_ctof
    rw [h95]
    unfold double_round
    rw [fp_round_exact 53 (-1074) (3 / 4 * (15099494 / 8388608)) 0 (22649241 * 268435456)
      (by norm_num) (by norm_num) (by norm_num) (by norm_num)]
    rw [fp_round_exact 53 (-1074) (3 / 4 * (15099494 / 8388608) + 32) 5
      (559520153 * 8388608)
      (by norm_num) (by norm_num) (by norm_num) (by norm_num)]
    norm_num
  have p34 : c_printf_f true 6 1 (deg_ctof (3 / 4)) = " +33.3" := by
    have h := rat_num_den 559520153 16777216 (by norm_num) (by norm_num)
    rw [h34]
    simp only [Int.cast_ofNat, Nat.cast_ofNat] at h
    simp only [c_printf_f, h.1, h.2]
    decide
  have p100 : c_printf_f true 5 1 (deg_ctof 100) = "+212.0" := by
    have h := rat_num_den 222298107 1048576 (by norm_num) (by norm_num)
    have e : deg_ctof 100 = 222298107 / 1048576 := by rw [h100]; norm_num
    rw [e]
    simp only [Int.cast_ofNat, Nat.cast_ofNat] at h
    simp only [c_printf_f, h.1, h.2]
    decide
  have pex : c_printf_f true 6 1 (3 / 4 * 9 / 5 + 32) = " +33.4" := by
    have h := rat_num_den 667 20 (by norm_num) (by norm_num)
    have e : (3 / 4 * 9 / 5 + 32 : ℚ) = 667 / 20 := by norm_num
    rw [e]
    simp only [Int.cast_ofNat, Nat.cast_ofNat] at h
    simp only [c_printf_f, h.1, h.2]
    decide
  have hline : first_line (print_chip_temp gF chipT featT 12).stdout =
      [.str false 0 "temp1", .lit ":", .str false 6 "", .flt true 6 1 (deg_ctof (3 / 4)),
        .str false 0 "°F", .lit "  ", .lit "(", .str true 4 "high", .lit " = ",
        .flt true 5 1 (deg_ctof 100), .str false 0 "°F", .lit ")                  "] := by
    rfl
  refine ⟨?_, ?_, h95, h100, ?_, h34, ?_, ?_, pex⟩
  · intro g name feature val
    have ht : (sf_and_value g name
        (sensors_get_subfeature name feature SENSORS_SUBFEATURE_TEMP_FAULT)).val =
        present_and_truthy name feature SENSORS_SUBFEATURE_TEMP_FAULT := by
      unfold present_and_truthy
      cases sensors_get_subfeature name feature SENSORS_SUBFEATURE_TEMP_FAULT with
      | none => rfl
      | some sf =>
        simp only [sf_and_value, W.bind_val, W.pure_val, get_value]
        cases sensors_get_value name sf.number <;> simp
    rw [temp_value_field_stdout, ht]
    rfl
  · intro g limit1 limit2 name1 name2 alarm
    rw [print_temp_limits_stdout]
    cases name1 <;> cases name2 <;> cases alarm <;> simp [shown_values, shown_temp]
  · rw [h100]
    norm_num
  · rw [h34]
    norm_num
  · rw [hline]
    simp only [render, p34, p100]
    decide

end Sensors
